import Mathlib

/-!
A shallow embedding of the reaktplot C++ library, built from the sources
`Figure.hpp`/`Figure.cpp`, `Scatter.hpp`, `Specs.hpp`, `Plotly.hpp`/`Plotly.cpp`
and `Array.hpp`, together with theorems checking the library's specification
against it.  Python dictionaries are modelled as insertion-ordered association
lists, the embedded interpreter's global state as an explicit record, and the
calls marshalled into the interpreter as an explicit call trace.
-/

namespace Reaktplot

/-- Values the wrapper marshals into the embedded interpreter's dictionaries:
C++ strings, ints, doubles, bools, vectors of strings, and lists of doubles.
The wrapper stores doubles verbatim and performs no arithmetic on them, so they
are modelled exactly by rationals. -/
inductive PyValue where
  | str (v : String)
  | int (v : Int)
  | real (v : Rat)
  | bool (v : Bool)
  | strs (v : List String)
  | reals (v : List Rat)
deriving DecidableEq, Repr

/-- A Python dictionary with string keys, modelled as an insertion-ordered
association list (a `py::dict` preserves insertion order). -/
abbrev PyDict (α : Type) := List (String × α)

/-- Assignment `d[k] = v` on a Python dictionary: if the key is present its
value is overwritten in place, otherwise the pair is appended at the end. -/
def PyDict.set {α : Type} : PyDict α → String → α → PyDict α
  | [], k, v => [(k, v)]
  | (k0, v0) :: rest, k, v =>
      if k0 = k then (k, v) :: rest else (k0, v0) :: PyDict.set rest k v

/-- Lookup `d[k]` on a Python dictionary. -/
def PyDict.get? {α : Type} : PyDict α → String → Option α
  | [], _ => none
  | (k0, v0) :: rest, k => if k0 = k then some v0 else PyDict.get? rest k

/-- Extensional equality of dictionaries as key-value mappings. -/
def PyDict.Equiv {α : Type} (d1 d2 : PyDict α) : Prop :=
  ∀ k, d1.get? k = d2.get? k

theorem PyDict.set_set_same {α : Type} (d : PyDict α) (k : String) (v1 v2 : α) :
    (d.set k v1).set k v2 = d.set k v2 := by
  induction d with
  | nil => simp [PyDict.set]
  | cons hd tl ih =>
      obtain ⟨k0, v0⟩ := hd
      by_cases h : k0 = k
      · simp [PyDict.set, h]
      · simp [PyDict.set, h, ih]

theorem PyDict.get?_set {α : Type} (d : PyDict α) (k k' : String) (v : α) :
    (d.set k v).get? k' = if k = k' then some v else d.get? k' := by
  induction d with
  | nil =>
      by_cases h : k = k' <;> simp [PyDict.set, PyDict.get?, h]
  | cons hd tl ih =>
      obtain ⟨k0, v0⟩ := hd
      by_cases h0 : k0 = k
      · subst h0
        by_cases h : k0 = k' <;> simp [PyDict.set, PyDict.get?, h]
      · by_cases h : k0 = k'
        · subst h
          simp [PyDict.set, PyDict.get?, h0, Ne.symm h0]
        · simp [PyDict.set, PyDict.get?, h0, h, ih]

theorem PyDict.get?_set_comm {α : Type} (d : PyDict α) {k1 k2 : String}
    (h : k1 ≠ k2) (v1 v2 : α) (k : String) :
    ((d.set k1 v1).set k2 v2).get? k = ((d.set k2 v2).set k1 v1).get? k := by
  by_cases h1 : k1 = k <;> by_cases h2 : k2 = k <;>
    simp [PyDict.get?_set, h1, h2]
  exact absurd (h1.trans h2.symm) h

/-- The wrapper's handle to a plot (`class Figure` of Figure.hpp): the private
members `layout`, `xaxis`, `yaxis` (the accumulated attribute dictionaries) and
the backend plotly figure object `fig`, of which we track the list of traces
accumulated by `add_trace`. -/
structure Figure where
  layout : PyDict PyValue
  xaxis : PyDict PyValue
  yaxis : PyDict PyValue
  traces : List (PyDict PyValue)
deriving DecidableEq, Repr

/-- `Figure()`: empty dictionaries and a fresh backend figure with no traces. -/
def Figure.new : Figure := ⟨[], [], [], []⟩

/-- `createRange(l, r)` of Figure.cpp: a two-element Python list. -/
def createRange (l r : Rat) : PyValue := PyValue.reals [l, r]
def Figure.titleFontColor (value : String) (f : Figure) : Figure := { f with layout := f.layout.set "title_font_color" (PyValue.str value) }
def Figure.titleFontFamily (value : String) (f : Figure) : Figure := { f with layout := f.layout.set "title_font_family" (PyValue.str value) }
def Figure.titleFontSize (value : Int) (f : Figure) : Figure := { f with layout := f.layout.set "title_font_size" (PyValue.int value) }
def Figure.titlePaddingBottom (value : Int) (f : Figure) : Figure := { f with layout := f.layout.set "title_pad_b" (PyValue.int value) }
def Figure.titlePaddingLeft (value : Int) (f : Figure) : Figure := { f with layout := f.layout.set "title_pad_l" (PyValue.int value) }
def Figure.titlePaddingRight (value : Int) (f : Figure) : Figure := { f with layout := f.layout.set "title_pad_r" (PyValue.int value) }
def Figure.titlePaddingTop (value : Int) (f : Figure) : Figure := { f with layout := f.layout.set "title_pad_t" (PyValue.int value) }
def Figure.titleText (value : String) (f : Figure) : Figure := { f with layout := f.layout.set "title_text" (PyValue.str value) }
def Figure.titleX (value : Rat) (f : Figure) : Figure := { f with layout := f.layout.set "title_x" (PyValue.real value) }
def Figure.titleXanchor (value : String) (f : Figure) : Figure := { f with layout := f.layout.set "title_xanchor" (PyValue.str value) }
def Figure.titleXref (value : String) (f : Figure) : Figure := { f with layout := f.layout.set "title_xref" (PyValue.str value) }
def Figure.titleY (value : Rat) (f : Figure) : Figure := { f with layout := f.layout.set "title_y" (PyValue.real value) }
def Figure.titleYanchor (value : String) (f : Figure) : Figure := { f with layout := f.layout.set "title_yanchor" (PyValue.str value) }
def Figure.titleYref (value : String) (f : Figure) : Figure := { f with layout := f.layout.set "title_yref" (PyValue.str value) }
def Figure.legendShow (value : Bool) (f : Figure) : Figure := { f with layout := f.layout.set "showlegend" (PyValue.bool value) }
def Figure.legendBackgroundColor (value : String) (f : Figure) : Figure := { f with layout := f.layout.set "legend_bgcolor" (PyValue.str value) }
def Figure.legendBorderColor (value : String) (f : Figure) : Figure := { f with layout := f.layout.set "legend_bordercolor" (PyValue.str value) }
def Figure.legendBorderWidth (value : Int) (f : Figure) : Figure := { f with layout := f.layout.set "legend_borderwidth" (PyValue.int value) }
def Figure.legendFontColor (value : String) (f : Figure) : Figure := { f with layout := f.layout.set "legend_font_color" (PyValue.str value) }
def Figure.legendFontFamily (value : String) (f : Figure) : Figure := { f with layout := f.layout.set "legend_font_family" (PyValue.str value) }
def Figure.legendFontSize (value : Int) (f : Figure) : Figure := { f with layout := f.layout.set "legend_font_size" (PyValue.int value) }
def Figure.legendGroupClick (value : String) (f : Figure) : Figure := { f with layout := f.layout.set "legend_groupclick" (PyValue.str value) }
def Figure.legendGroupTitleFontColor (value : String) (f : Figure) : Figure := { f with layout := f.layout.set "legend_grouptitlefont_color" (PyValue.str value) }
def Figure.legendGroupTitleFontFamily (value : String) (f : Figure) : Figure := { f with layout := f.layout.set "legend_grouptitlefont_family" (PyValue.str value) }
def Figure.legendGroupTitleFontSize (value : Int) (f : Figure) : Figure := { f with layout := f.layout.set "legend_grouptitlefont_size" (PyValue.int value) }
def Figure.legendItemClick (value : String) (f : Figure) : Figure := { f with layout := f.layout.set "legend_itemclick" (PyValue.str value) }
def Figure.legendItemDoubleClick (value : String) (f : Figure) : Figure := { f with layout := f.layout.set "legend_itemdoubleclick" (PyValue.str value) }
def Figure.legendItemSizing (value : String) (f : Figure) : Figure := { f with layout := f.layout.set "legend_itemsizing" (PyValue.str value) }
def Figure.legendItemWidth (value : Int) (f : Figure) : Figure := { f with layout := f.layout.set "legend_itemwidth" (PyValue.int value) }
def Figure.legendOrientation (value : String) (f : Figure) : Figure := { f with layout := f.layout.set "legend_orientation" (PyValue.str value) }
def Figure.legendTitleFontColor (value : String) (f : Figure) : Figure := { f with layout := f.layout.set "legend_title_font_color" (PyValue.str value) }
def Figure.legendTitleFontFamily (value : String) (f : Figure) : Figure := { f with layout := f.layout.set "legend_title_font_family" (PyValue.str value) }
def Figure.legendTitleFontSize (value : Int) (f : Figure) : Figure := { f with layout := f.layout.set "legend_title_font_size" (PyValue.int value) }
def Figure.legendTitleSide (value : String) (f : Figure) : Figure := { f with layout := f.layout.set "legend_title_side" (PyValue.str value) }
def Figure.legendTitleText (value : String) (f : Figure) : Figure := { f with layout := f.layout.set "legend_title_text" (PyValue.str value) }
def Figure.legendTraceGroupGap (value : Int) (f : Figure) : Figure := { f with layout := f.layout.set "legend_tracegroupgap" (PyValue.int value) }
def Figure.legendTraceOrder (value : String) (f : Figure) : Figure := { f with layout := f.layout.set "legend_traceorder" (PyValue.str value) }
def Figure.legendUirevision (value : String) (f : Figure) : Figure := { f with layout := f.layout.set "legend_uirevision" (PyValue.str value) }
def Figure.legendValign (value : String) (f : Figure) : Figure := { f with layout := f.layout.set "legend_valign" (PyValue.str value) }
def Figure.legendX (value : Rat) (f : Figure) : Figure := { f with layout := f.layout.set "legend_x" (PyValue.real value) }
def Figure.legendXanchor (value : String) (f : Figure) : Figure := { f with layout := f.layout.set "legend_xanchor" (PyValue.str value) }
def Figure.legendY (value : Rat) (f : Figure) : Figure := { f with layout := f.layout.set "legend_y" (PyValue.real value) }
def Figure.legendYanchor (value : String) (f : Figure) : Figure := { f with layout := f.layout.set "legend_yanchor" (PyValue.str value) }
def Figure.marginAutoExpand (value : Bool) (f : Figure) : Figure := { f with layout := f.layout.set "margin_autoexpand" (PyValue.bool value) }
def Figure.marginBottom (value : Int) (f : Figure) : Figure := { f with layout := f.layout.set "margin_b" (PyValue.int value) }
def Figure.marginLeft (value : Int) (f : Figure) : Figure := { f with layout := f.layout.set "margin_l" (PyValue.int value) }
def Figure.marginPadding (value : Int) (f : Figure) : Figure := { f with layout := f.layout.set "margin_pad" (PyValue.int value) }
def Figure.marginRight (value : Int) (f : Figure) : Figure := { f with layout := f.layout.set "margin_r" (PyValue.int value) }
def Figure.marginTop (value : Int) (f : Figure) : Figure := { f with layout := f.layout.set "margin_t" (PyValue.int value) }
def Figure.autosize (value : Bool) (f : Figure) : Figure := { f with layout := f.layout.set "autosize" (PyValue.bool value) }
def Figure.width (value : Int) (f : Figure) : Figure := { f with layout := f.layout.set "width" (PyValue.int value) }
def Figure.height (value : Int) (f : Figure) : Figure := { f with layout := f.layout.set "height" (PyValue.int value) }
def Figure.fontColor (value : String) (f : Figure) : Figure := { f with layout := f.layout.set "font_color" (PyValue.str value) }
def Figure.fontFamily (value : String) (f : Figure) : Figure := { f with layout := f.layout.set "font_family" (PyValue.str value) }
def Figure.fontSize (value : Int) (f : Figure) : Figure := { f with layout := f.layout.set "font_size" (PyValue.int value) }
def Figure.uniformTextMinSize (value : Int) (f : Figure) : Figure := { f with layout := f.layout.set "uniformtext_minsize" (PyValue.int value) }
def Figure.uniformTextMode (value : String) (f : Figure) : Figure := { f with layout := f.layout.set "uniformtext_mode" (PyValue.str value) }
def Figure.separators (value : String) (f : Figure) : Figure := { f with layout := f.layout.set "separators" (PyValue.str value) }
def Figure.paperBackgroundColor (value : String) (f : Figure) : Figure := { f with layout := f.layout.set "paper_bgcolor" (PyValue.str value) }
def Figure.plotBackgroundColor (value : String) (f : Figure) : Figure := { f with layout := f.layout.set "plot_bgcolor" (PyValue.str value) }
def Figure.autoTypeNumbers (value : String) (f : Figure) : Figure := { f with layout := f.layout.set "autotypenumbers" (PyValue.str value) }
def Figure.colorScaleDiverging (value : String) (f : Figure) : Figure := { f with layout := f.layout.set "colorscale_diverging" (PyValue.str value) }
def Figure.colorScaleSequential (value : String) (f : Figure) : Figure := { f with layout := f.layout.set "colorscale_sequential" (PyValue.str value) }
def Figure.colorScaleSequentialminus (value : String) (f : Figure) : Figure := { f with layout := f.layout.set "colorscale_sequentialminus" (PyValue.str value) }
def Figure.colorway (value : List String) (f : Figure) : Figure := { f with layout := f.layout.set "colorway" (PyValue.strs value) }
def Figure.modebarActiveColor (value : String) (f : Figure) : Figure := { f with layout := f.layout.set "modebar_activecolor" (PyValue.str value) }
def Figure.modebarAdd (value : String) (f : Figure) : Figure := { f with layout := f.layout.set "modebar_add" (PyValue.str value) }
def Figure.modebarBackgroundColor (value : String) (f : Figure) : Figure := { f with layout := f.layout.set "modebar_bgcolor" (PyValue.str value) }
def Figure.modebarColor (value : String) (f : Figure) : Figure := { f with layout := f.layout.set "modebar_color" (PyValue.str value) }
def Figure.modebarOrientation (value : String) (f : Figure) : Figure := { f with layout := f.layout.set "modebar_orientation" (PyValue.str value) }
def Figure.modebarRemove (value : String) (f : Figure) : Figure := { f with layout := f.layout.set "modebar_remove" (PyValue.str value) }
def Figure.modebarUirevision (value : String) (f : Figure) : Figure := { f with layout := f.layout.set "modebar_uirevision" (PyValue.str value) }
def Figure.hoverMode (value : String) (f : Figure) : Figure := { f with layout := f.layout.set "hovermode" (PyValue.str value) }
def Figure.clickMode (value : String) (f : Figure) : Figure := { f with layout := f.layout.set "clickmode" (PyValue.str value) }
def Figure.dragMode (value : String) (f : Figure) : Figure := { f with layout := f.layout.set "dragmode" (PyValue.str value) }
def Figure.selectDirection (value : String) (f : Figure) : Figure := { f with layout := f.layout.set "selectdirection" (PyValue.str value) }
def Figure.activeSelectionFillColor (value : String) (f : Figure) : Figure := { f with layout := f.layout.set "activeselection_fillcolor" (PyValue.str value) }
def Figure.activeSelectionOpacity (value : Rat) (f : Figure) : Figure := { f with layout := f.layout.set "activeselection_opacity" (PyValue.real value) }
def Figure.newSelectionLineColor (value : String) (f : Figure) : Figure := { f with layout := f.layout.set "newselection_line_color" (PyValue.str value) }
def Figure.newSelectionLineDash (value : String) (f : Figure) : Figure := { f with layout := f.layout.set "newselection_line_dash" (PyValue.str value) }
def Figure.newSelectionLineWidth (value : Int) (f : Figure) : Figure := { f with layout := f.layout.set "newselection_line_width" (PyValue.int value) }
def Figure.newSelectionMode (value : String) (f : Figure) : Figure := { f with layout := f.layout.set "newselection_mode" (PyValue.str value) }
def Figure.hoverDistance (value : String) (f : Figure) : Figure := { f with layout := f.layout.set "hoverdistance" (PyValue.str value) }
def Figure.spikeDistance (value : String) (f : Figure) : Figure := { f with layout := f.layout.set "spikedistance" (PyValue.str value) }
def Figure.hoverLabelAlign (value : String) (f : Figure) : Figure := { f with layout := f.layout.set "hoverlabel_align" (PyValue.str value) }
def Figure.hoverLabelBackgroundColor (value : String) (f : Figure) : Figure := { f with layout := f.layout.set "hoverlabel_bgcolor" (PyValue.str value) }
def Figure.hoverLabelBorderColor (value : String) (f : Figure) : Figure := { f with layout := f.layout.set "hoverlabel_bordercolor" (PyValue.str value) }
def Figure.hoverLabelFontColor (value : String) (f : Figure) : Figure := { f with layout := f.layout.set "hoverlabel_font_color" (PyValue.str value) }
def Figure.hoverLabelFontFamily (value : String) (f : Figure) : Figure := { f with layout := f.layout.set "hoverlabel_font_family" (PyValue.str value) }
def Figure.hoverLabelFontSize (value : Int) (f : Figure) : Figure := { f with layout := f.layout.set "hoverlabel_font_size" (PyValue.int value) }
def Figure.hoverLabelGroupTitleFontColor (value : String) (f : Figure) : Figure := { f with layout := f.layout.set "hoverlabel_grouptitlefont_color" (PyValue.str value) }
def Figure.hoverLabelGroupTitleFontFamily (value : String) (f : Figure) : Figure := { f with layout := f.layout.set "hoverlabel_grouptitlefont_family" (PyValue.str value) }
def Figure.hoverLabelGroupTitleFontSize (value : Int) (f : Figure) : Figure := { f with layout := f.layout.set "hoverlabel_grouptitlefont_size" (PyValue.int value) }
def Figure.hoverLabelNamelength (value : String) (f : Figure) : Figure := { f with layout := f.layout.set "hoverlabel_namelength" (PyValue.str value) }
def Figure.transitionDuration (value : Int) (f : Figure) : Figure := { f with layout := f.layout.set "transition_duration" (PyValue.int value) }
def Figure.transitionEasing (value : String) (f : Figure) : Figure := { f with layout := f.layout.set "transition_easing" (PyValue.str value) }
def Figure.transitionOrdering (value : String) (f : Figure) : Figure := { f with layout := f.layout.set "transition_ordering" (PyValue.str value) }
def Figure.dataRevision (value : String) (f : Figure) : Figure := { f with layout := f.layout.set "datarevision" (PyValue.str value) }
def Figure.uiRevision (value : String) (f : Figure) : Figure := { f with layout := f.layout.set "uirevision" (PyValue.str value) }
def Figure.editRevision (value : String) (f : Figure) : Figure := { f with layout := f.layout.set "editrevision" (PyValue.str value) }
def Figure.selectionRevision (value : String) (f : Figure) : Figure := { f with layout := f.layout.set "selectionrevision" (PyValue.str value) }
def Figure.meta (value : String) (f : Figure) : Figure := { f with layout := f.layout.set "meta" (PyValue.str value) }
def Figure.computed (value : String) (f : Figure) : Figure := { f with layout := f.layout.set "computed" (PyValue.str value) }
def Figure.gridColumns (value : String) (f : Figure) : Figure := { f with layout := f.layout.set "grid_columns" (PyValue.str value) }
def Figure.gridDomainX (value : String) (f : Figure) : Figure := { f with layout := f.layout.set "grid_domain_x" (PyValue.str value) }
def Figure.gridDomainY (value : String) (f : Figure) : Figure := { f with layout := f.layout.set "grid_domain_y" (PyValue.str value) }
def Figure.gridPattern (value : String) (f : Figure) : Figure := { f with layout := f.layout.set "grid_pattern" (PyValue.str value) }
def Figure.gridRoworder (value : String) (f : Figure) : Figure := { f with layout := f.layout.set "grid_roworder" (PyValue.str value) }
def Figure.gridRows (value : String) (f : Figure) : Figure := { f with layout := f.layout.set "grid_rows" (PyValue.str value) }
def Figure.gridSubplots (value : String) (f : Figure) : Figure := { f with layout := f.layout.set "grid_subplots" (PyValue.str value) }
def Figure.gridXaxes (value : String) (f : Figure) : Figure := { f with layout := f.layout.set "grid_xaxes" (PyValue.str value) }
def Figure.gridXgap (value : Rat) (f : Figure) : Figure := { f with layout := f.layout.set "grid_xgap" (PyValue.real value) }
def Figure.gridXside (value : String) (f : Figure) : Figure := { f with layout := f.layout.set "grid_xside" (PyValue.str value) }
def Figure.gridYaxes (value : String) (f : Figure) : Figure := { f with layout := f.layout.set "grid_yaxes" (PyValue.str value) }
def Figure.gridYgap (value : Rat) (f : Figure) : Figure := { f with layout := f.layout.set "grid_ygap" (PyValue.real value) }
def Figure.gridYside (value : String) (f : Figure) : Figure := { f with layout := f.layout.set "grid_yside" (PyValue.str value) }
def Figure.calendar (value : String) (f : Figure) : Figure := { f with layout := f.layout.set "calendar" (PyValue.str value) }
def Figure.newShapeDrawdirection (value : String) (f : Figure) : Figure := { f with layout := f.layout.set "newshape_drawdirection" (PyValue.str value) }
def Figure.newShapeFillColor (value : String) (f : Figure) : Figure := { f with layout := f.layout.set "newshape_fillcolor" (PyValue.str value) }
def Figure.newShapeFillrule (value : String) (f : Figure) : Figure := { f with layout := f.layout.set "newshape_fillrule" (PyValue.str value) }
def Figure.newShapeLayer (value : String) (f : Figure) : Figure := { f with layout := f.layout.set "newshape_layer" (PyValue.str value) }
def Figure.newShapeLineColor (value : String) (f : Figure) : Figure := { f with layout := f.layout.set "newshape_line_color" (PyValue.str value) }
def Figure.newShapeLineDash (value : String) (f : Figure) : Figure := { f with layout := f.layout.set "newshape_line_dash" (PyValue.str value) }
def Figure.newShapeLineWidth (value : Int) (f : Figure) : Figure := { f with layout := f.layout.set "newshape_line_width" (PyValue.int value) }
def Figure.newShapeOpacity (value : Rat) (f : Figure) : Figure := { f with layout := f.layout.set "newshape_opacity" (PyValue.real value) }
def Figure.activeShapeFillColor (value : String) (f : Figure) : Figure := { f with layout := f.layout.set "activeshape_fillcolor" (PyValue.str value) }
def Figure.activeShapeOpacity (value : Rat) (f : Figure) : Figure := { f with layout := f.layout.set "activeshape_opacity" (PyValue.real value) }
def Figure.selections (value : String) (f : Figure) : Figure := { f with layout := f.layout.set "selections" (PyValue.str value) }
def Figure.selectionsLineColor (value : String) (f : Figure) : Figure := { f with layout := f.layout.set "selections_line_color" (PyValue.str value) }
def Figure.selectionsLineDash (value : String) (f : Figure) : Figure := { f with layout := f.layout.set "selections_line_dash" (PyValue.str value) }
def Figure.selectionsLineWidth (value : Int) (f : Figure) : Figure := { f with layout := f.layout.set "selections_line_width" (PyValue.int value) }
def Figure.selectionsName (value : String) (f : Figure) : Figure := { f with layout := f.layout.set "selections_name" (PyValue.str value) }
def Figure.selectionsOpacity (value : Rat) (f : Figure) : Figure := { f with layout := f.layout.set "selections_opacity" (PyValue.real value) }
def Figure.selectionsPath (value : String) (f : Figure) : Figure := { f with layout := f.layout.set "selections_path" (PyValue.str value) }
def Figure.selectionsTemplateItemName (value : String) (f : Figure) : Figure := { f with layout := f.layout.set "selections_templateitemname" (PyValue.str value) }
def Figure.selectionsType (value : String) (f : Figure) : Figure := { f with layout := f.layout.set "selections_type" (PyValue.str value) }
def Figure.selectionsX0 (value : String) (f : Figure) : Figure := { f with layout := f.layout.set "selections_x0" (PyValue.str value) }
def Figure.selectionsX1 (value : String) (f : Figure) : Figure := { f with layout := f.layout.set "selections_x1" (PyValue.str value) }
def Figure.selectionsXref (value : String) (f : Figure) : Figure := { f with layout := f.layout.set "selections_xref" (PyValue.str value) }
def Figure.selectionsY0 (value : String) (f : Figure) : Figure := { f with layout := f.layout.set "selections_y0" (PyValue.str value) }
def Figure.selectionsY1 (value : String) (f : Figure) : Figure := { f with layout := f.layout.set "selections_y1" (PyValue.str value) }
def Figure.selectionsYref (value : String) (f : Figure) : Figure := { f with layout := f.layout.set "selections_yref" (PyValue.str value) }
def Figure.hideSources (value : Bool) (f : Figure) : Figure := { f with layout := f.layout.set "hidesources" (PyValue.bool value) }
def Figure.pieExtendColors (value : Bool) (f : Figure) : Figure := { f with layout := f.layout.set "extendpiecolors" (PyValue.bool value) }
def Figure.hiddenLabels (value : String) (f : Figure) : Figure := { f with layout := f.layout.set "hiddenlabels" (PyValue.str value) }
def Figure.pieColorway (value : List String) (f : Figure) : Figure := { f with layout := f.layout.set "piecolorway" (PyValue.strs value) }
def Figure.boxGap (value : Rat) (f : Figure) : Figure := { f with layout := f.layout.set "boxgap" (PyValue.real value) }
def Figure.boxGroupGap (value : Rat) (f : Figure) : Figure := { f with layout := f.layout.set "boxgroupgap" (PyValue.real value) }
def Figure.boxMode (value : String) (f : Figure) : Figure := { f with layout := f.layout.set "boxmode" (PyValue.str value) }
def Figure.violinGap (value : Rat) (f : Figure) : Figure := { f with layout := f.layout.set "violingap" (PyValue.real value) }
def Figure.violinGroupGap (value : Rat) (f : Figure) : Figure := { f with layout := f.layout.set "violingroupgap" (PyValue.real value) }
def Figure.violinMode (value : String) (f : Figure) : Figure := { f with layout := f.layout.set "violinmode" (PyValue.str value) }
def Figure.barGroupGap (value : Rat) (f : Figure) : Figure := { f with layout := f.layout.set "bargroupgap" (PyValue.real value) }
def Figure.barMode (value : String) (f : Figure) : Figure := { f with layout := f.layout.set "barmode" (PyValue.str value) }
def Figure.barNorm (value : String) (f : Figure) : Figure := { f with layout := f.layout.set "barnorm" (PyValue.str value) }
def Figure.barGap (value : Rat) (f : Figure) : Figure := { f with layout := f.layout.set "bargap" (PyValue.real value) }
def Figure.waterfallGap (value : Rat) (f : Figure) : Figure := { f with layout := f.layout.set "waterfallgap" (PyValue.real value) }
def Figure.waterfallGroupGap (value : Rat) (f : Figure) : Figure := { f with layout := f.layout.set "waterfallgroupgap" (PyValue.real value) }
def Figure.waterfallMode (value : String) (f : Figure) : Figure := { f with layout := f.layout.set "waterfallmode" (PyValue.str value) }
def Figure.funnelGap (value : Rat) (f : Figure) : Figure := { f with layout := f.layout.set "funnelgap" (PyValue.real value) }
def Figure.funnelGroupGap (value : Rat) (f : Figure) : Figure := { f with layout := f.layout.set "funnelgroupgap" (PyValue.real value) }
def Figure.funnelMode (value : String) (f : Figure) : Figure := { f with layout := f.layout.set "funnelmode" (PyValue.str value) }
def Figure.funnelAreaExtendColors (value : Bool) (f : Figure) : Figure := { f with layout := f.layout.set "extendfunnelareacolors" (PyValue.bool value) }
def Figure.funnelAreaColorway (value : List String) (f : Figure) : Figure := { f with layout := f.layout.set "funnelareacolorway" (PyValue.strs value) }
def Figure.sunburstExtendColors (value : Bool) (f : Figure) : Figure := { f with layout := f.layout.set "extendsunburstcolors" (PyValue.bool value) }
def Figure.sunburstColorway (value : List String) (f : Figure) : Figure := { f with layout := f.layout.set "sunburstcolorway" (PyValue.strs value) }
def Figure.treemapExtendColors (value : Bool) (f : Figure) : Figure := { f with layout := f.layout.set "extendtreemapcolors" (PyValue.bool value) }
def Figure.treemapColorway (value : List String) (f : Figure) : Figure := { f with layout := f.layout.set "treemapcolorway" (PyValue.strs value) }
def Figure.icicleExtendColors (value : Bool) (f : Figure) : Figure := { f with layout := f.layout.set "extendiciclecolors" (PyValue.bool value) }
def Figure.icicleColorway (value : List String) (f : Figure) : Figure := { f with layout := f.layout.set "iciclecolorway" (PyValue.strs value) }
def Figure.xaxisAnchor (value : String) (f : Figure) : Figure := { f with xaxis := f.xaxis.set "anchor" (PyValue.str value) }
def Figure.xaxisAutoMargin (value : String) (f : Figure) : Figure := { f with xaxis := f.xaxis.set "automargin" (PyValue.str value) }
def Figure.xaxisAutoRange (value : String) (f : Figure) : Figure := { f with xaxis := f.xaxis.set "autorange" (PyValue.str value) }
def Figure.xaxisAutoTypeNumbers (value : String) (f : Figure) : Figure := { f with xaxis := f.xaxis.set "autotypenumbers" (PyValue.str value) }
def Figure.xaxisCalendar (value : String) (f : Figure) : Figure := { f with xaxis := f.xaxis.set "calendar" (PyValue.str value) }
def Figure.xaxisCategoryOrder (value : String) (f : Figure) : Figure := { f with xaxis := f.xaxis.set "categoryorder" (PyValue.str value) }
def Figure.xaxisColor (value : String) (f : Figure) : Figure := { f with xaxis := f.xaxis.set "color" (PyValue.str value) }
def Figure.xaxisConstrain (value : String) (f : Figure) : Figure := { f with xaxis := f.xaxis.set "constrain" (PyValue.str value) }
def Figure.xaxisConstrainToward (value : String) (f : Figure) : Figure := { f with xaxis := f.xaxis.set "constraintoward" (PyValue.str value) }
def Figure.xaxisDividerColor (value : String) (f : Figure) : Figure := { f with xaxis := f.xaxis.set "dividercolor" (PyValue.str value) }
def Figure.xaxisDividerWidth (value : Int) (f : Figure) : Figure := { f with xaxis := f.xaxis.set "dividerwidth" (PyValue.int value) }
def Figure.xaxisDtick (value : String) (f : Figure) : Figure := { f with xaxis := f.xaxis.set "dtick" (PyValue.str value) }
def Figure.xaxisExponentFormat (value : String) (f : Figure) : Figure := { f with xaxis := f.xaxis.set "exponentformat" (PyValue.str value) }
def Figure.xaxisFixedRange (value : String) (f : Figure) : Figure := { f with xaxis := f.xaxis.set "fixedrange" (PyValue.str value) }
def Figure.xaxisGridColor (value : String) (f : Figure) : Figure := { f with xaxis := f.xaxis.set "gridcolor" (PyValue.str value) }
def Figure.xaxisGridDash (value : String) (f : Figure) : Figure := { f with xaxis := f.xaxis.set "griddash" (PyValue.str value) }
def Figure.xaxisGridWidth (value : Int) (f : Figure) : Figure := { f with xaxis := f.xaxis.set "gridwidth" (PyValue.int value) }
def Figure.xaxisHoverFormat (value : String) (f : Figure) : Figure := { f with xaxis := f.xaxis.set "hoverformat" (PyValue.str value) }
def Figure.xaxisLayer (value : String) (f : Figure) : Figure := { f with xaxis := f.xaxis.set "layer" (PyValue.str value) }
def Figure.xaxisLineColor (value : String) (f : Figure) : Figure := { f with xaxis := f.xaxis.set "linecolor" (PyValue.str value) }
def Figure.xaxisLineWidth (value : Int) (f : Figure) : Figure := { f with xaxis := f.xaxis.set "linewidth" (PyValue.int value) }
def Figure.xaxisMatches (value : String) (f : Figure) : Figure := { f with xaxis := f.xaxis.set "matches" (PyValue.str value) }
def Figure.xaxisMinExponent (value : Int) (f : Figure) : Figure := { f with xaxis := f.xaxis.set "minexponent" (PyValue.int value) }
def Figure.xaxisMinorDtick (value : String) (f : Figure) : Figure := { f with xaxis := f.xaxis.set "minor_dtick" (PyValue.str value) }
def Figure.xaxisMinorGridColor (value : String) (f : Figure) : Figure := { f with xaxis := f.xaxis.set "minor_gridcolor" (PyValue.str value) }
def Figure.xaxisMinorGridDash (value : String) (f : Figure) : Figure := { f with xaxis := f.xaxis.set "minor_griddash" (PyValue.str value) }
def Figure.xaxisMinorGridWidth (value : Int) (f : Figure) : Figure := { f with xaxis := f.xaxis.set "minor_gridwidth" (PyValue.int value) }
def Figure.xaxisMinorNticks (value : String) (f : Figure) : Figure := { f with xaxis := f.xaxis.set "minor_nticks" (PyValue.str value) }
def Figure.xaxisMinorShowgrid (value : String) (f : Figure) : Figure := { f with xaxis := f.xaxis.set "minor_showgrid" (PyValue.str value) }
def Figure.xaxisMinorTick0 (value : String) (f : Figure) : Figure := { f with xaxis := f.xaxis.set "minor_tick0" (PyValue.str value) }
def Figure.xaxisMinorTickColor (value : String) (f : Figure) : Figure := { f with xaxis := f.xaxis.set "minor_tickcolor" (PyValue.str value) }
def Figure.xaxisMinorTickLength (value : Int) (f : Figure) : Figure := { f with xaxis := f.xaxis.set "minor_ticklen" (PyValue.int value) }
def Figure.xaxisMinorTickMode (value : String) (f : Figure) : Figure := { f with xaxis := f.xaxis.set "minor_tickmode" (PyValue.str value) }
def Figure.xaxisMinorTicks (value : String) (f : Figure) : Figure := { f with xaxis := f.xaxis.set "minor_ticks" (PyValue.str value) }
def Figure.xaxisMinorTickWidth (value : Int) (f : Figure) : Figure := { f with xaxis := f.xaxis.set "minor_tickwidth" (PyValue.int value) }
def Figure.xaxisMirror (value : String) (f : Figure) : Figure := { f with xaxis := f.xaxis.set "mirror" (PyValue.str value) }
def Figure.xaxisNticks (value : String) (f : Figure) : Figure := { f with xaxis := f.xaxis.set "nticks" (PyValue.str value) }
def Figure.xaxisOverlaying (value : String) (f : Figure) : Figure := { f with xaxis := f.xaxis.set "overlaying" (PyValue.str value) }
def Figure.xaxisPosition (value : Int) (f : Figure) : Figure := { f with xaxis := f.xaxis.set "position" (PyValue.int value) }
def Figure.xaxisRange (l r : Rat) (f : Figure) : Figure := { f with xaxis := f.xaxis.set "range" (createRange l r) }
def Figure.xaxisRangeBreaksDvalue (value : Int) (f : Figure) : Figure := { f with xaxis := f.xaxis.set "rangebreaks_dvalue" (PyValue.int value) }
def Figure.xaxisRangeBreaksEnabled (value : String) (f : Figure) : Figure := { f with xaxis := f.xaxis.set "rangebreaks_enabled" (PyValue.str value) }
def Figure.xaxisRangeBreaksName (value : String) (f : Figure) : Figure := { f with xaxis := f.xaxis.set "rangebreaks_name" (PyValue.str value) }
def Figure.xaxisRangeBreaksPattern (value : String) (f : Figure) : Figure := { f with xaxis := f.xaxis.set "rangebreaks_pattern" (PyValue.str value) }
def Figure.xaxisRangeBreaksTemplateItemName (value : String) (f : Figure) : Figure := { f with xaxis := f.xaxis.set "rangebreaks_templateitemname" (PyValue.str value) }
def Figure.xaxisRangeMode (value : String) (f : Figure) : Figure := { f with xaxis := f.xaxis.set "rangemode" (PyValue.str value) }
def Figure.xaxisRangeSelectorActiveColor (value : String) (f : Figure) : Figure := { f with xaxis := f.xaxis.set "rangeselector_activecolor" (PyValue.str value) }
def Figure.xaxisRangeSelectorBackgroundColor (value : String) (f : Figure) : Figure := { f with xaxis := f.xaxis.set "rangeselector_bgcolor" (PyValue.str value) }
def Figure.xaxisRangeSelectorBorderColor (value : String) (f : Figure) : Figure := { f with xaxis := f.xaxis.set "rangeselector_bordercolor" (PyValue.str value) }
def Figure.xaxisRangeSelectorBorderWidth (value : Int) (f : Figure) : Figure := { f with xaxis := f.xaxis.set "rangeselector_borderwidth" (PyValue.int value) }
def Figure.xaxisRangeSelectorCount (value : Int) (f : Figure) : Figure := { f with xaxis := f.xaxis.set "rangeselector_count" (PyValue.int value) }
def Figure.xaxisRangeSelectorLabel (value : String) (f : Figure) : Figure := { f with xaxis := f.xaxis.set "rangeselector_label" (PyValue.str value) }
def Figure.xaxisRangeSelectorName (value : String) (f : Figure) : Figure := { f with xaxis := f.xaxis.set "rangeselector_name" (PyValue.str value) }
def Figure.xaxisRangeSelectorStep (value : String) (f : Figure) : Figure := { f with xaxis := f.xaxis.set "rangeselector_step" (PyValue.str value) }
def Figure.xaxisRangeSelectorStepMode (value : String) (f : Figure) : Figure := { f with xaxis := f.xaxis.set "rangeselector_stepmode" (PyValue.str value) }
def Figure.xaxisRangeSelectorTemplateItemName (value : String) (f : Figure) : Figure := { f with xaxis := f.xaxis.set "rangeselector_templateitemname" (PyValue.str value) }
def Figure.xaxisRangeSelectorFontColor (value : String) (f : Figure) : Figure := { f with xaxis := f.xaxis.set "rangeselector_font_color" (PyValue.str value) }
def Figure.xaxisRangeSelectorFontFamily (value : String) (f : Figure) : Figure := { f with xaxis := f.xaxis.set "rangeselector_font_family" (PyValue.str value) }
def Figure.xaxisRangeSelectorFontSize (value : Int) (f : Figure) : Figure := { f with xaxis := f.xaxis.set "rangeselector_font_size" (PyValue.int value) }
def Figure.xaxisRangeSelectorVisible (value : String) (f : Figure) : Figure := { f with xaxis := f.xaxis.set "rangeselector_visible" (PyValue.str value) }
def Figure.xaxisRangeSelectorX (value : Int) (f : Figure) : Figure := { f with xaxis := f.xaxis.set "rangeselector_x" (PyValue.int value) }
def Figure.xaxisRangeSelectorXanchor (value : String) (f : Figure) : Figure := { f with xaxis := f.xaxis.set "rangeselector_xanchor" (PyValue.str value) }
def Figure.xaxisRangeSelectorY (value : Int) (f : Figure) : Figure := { f with xaxis := f.xaxis.set "rangeselector_y" (PyValue.int value) }
def Figure.xaxisRangeSelectorYanchor (value : String) (f : Figure) : Figure := { f with xaxis := f.xaxis.set "rangeselector_yanchor" (PyValue.str value) }
def Figure.xaxisRangeSliderAutoRange (value : String) (f : Figure) : Figure := { f with xaxis := f.xaxis.set "rangeslider_autorange" (PyValue.str value) }
def Figure.xaxisRangeSliderBackgroundColor (value : String) (f : Figure) : Figure := { f with xaxis := f.xaxis.set "rangeslider_bgcolor" (PyValue.str value) }
def Figure.xaxisRangeSliderBorderColor (value : String) (f : Figure) : Figure := { f with xaxis := f.xaxis.set "rangeslider_bordercolor" (PyValue.str value) }
def Figure.xaxisRangeSliderBorderWidth (value : String) (f : Figure) : Figure := { f with xaxis := f.xaxis.set "rangeslider_borderwidth" (PyValue.str value) }
def Figure.xaxisRangeSliderThickness (value : Int) (f : Figure) : Figure := { f with xaxis := f.xaxis.set "rangeslider_thickness" (PyValue.int value) }
def Figure.xaxisRangeSliderVisible (value : String) (f : Figure) : Figure := { f with xaxis := f.xaxis.set "rangeslider_visible" (PyValue.str value) }
def Figure.xaxisRangeSliderYaxisRange (l r : Rat) (f : Figure) : Figure := { f with xaxis := f.xaxis.set "rangeslider_yaxis_range" (createRange l r) }
def Figure.xaxisRangeSliderYaxisRangeMode (value : String) (f : Figure) : Figure := { f with xaxis := f.xaxis.set "rangeslider_yaxis_rangemode" (PyValue.str value) }
def Figure.xaxisScaleAnchor (value : String) (f : Figure) : Figure := { f with xaxis := f.xaxis.set "scaleanchor" (PyValue.str value) }
def Figure.xaxisScaleRatio (value : Int) (f : Figure) : Figure := { f with xaxis := f.xaxis.set "scaleratio" (PyValue.int value) }
def Figure.xaxisSeparateThousands (value : String) (f : Figure) : Figure := { f with xaxis := f.xaxis.set "separatethousands" (PyValue.str value) }
def Figure.xaxisShowDividers (value : String) (f : Figure) : Figure := { f with xaxis := f.xaxis.set "showdividers" (PyValue.str value) }
def Figure.xaxisShowExponent (value : String) (f : Figure) : Figure := { f with xaxis := f.xaxis.set "showexponent" (PyValue.str value) }
def Figure.xaxisShowGrid (value : String) (f : Figure) : Figure := { f with xaxis := f.xaxis.set "showgrid" (PyValue.str value) }
def Figure.xaxisShowLine (value : String) (f : Figure) : Figure := { f with xaxis := f.xaxis.set "showline" (PyValue.str value) }
def Figure.xaxisShowSpikes (value : String) (f : Figure) : Figure := { f with xaxis := f.xaxis.set "showspikes" (PyValue.str value) }
def Figure.xaxisShowTickLabels (value : String) (f : Figure) : Figure := { f with xaxis := f.xaxis.set "showticklabels" (PyValue.str value) }
def Figure.xaxisShowTickPrefix (value : String) (f : Figure) : Figure := { f with xaxis := f.xaxis.set "showtickprefix" (PyValue.str value) }
def Figure.xaxisShowTickSuffix (value : String) (f : Figure) : Figure := { f with xaxis := f.xaxis.set "showticksuffix" (PyValue.str value) }
def Figure.xaxisSide (value : String) (f : Figure) : Figure := { f with xaxis := f.xaxis.set "side" (PyValue.str value) }
def Figure.xaxisSpikeColor (value : String) (f : Figure) : Figure := { f with xaxis := f.xaxis.set "spikecolor" (PyValue.str value) }
def Figure.xaxisSpikeDash (value : String) (f : Figure) : Figure := { f with xaxis := f.xaxis.set "spikedash" (PyValue.str value) }
def Figure.xaxisSpikeMode (value : String) (f : Figure) : Figure := { f with xaxis := f.xaxis.set "spikemode" (PyValue.str value) }
def Figure.xaxisSpikeSnap (value : String) (f : Figure) : Figure := { f with xaxis := f.xaxis.set "spikesnap" (PyValue.str value) }
def Figure.xaxisSpikeThickness (value : Int) (f : Figure) : Figure := { f with xaxis := f.xaxis.set "spikethickness" (PyValue.int value) }
def Figure.xaxisTick0 (value : String) (f : Figure) : Figure := { f with xaxis := f.xaxis.set "tick0" (PyValue.str value) }
def Figure.xaxisTickAngle (value : String) (f : Figure) : Figure := { f with xaxis := f.xaxis.set "tickangle" (PyValue.str value) }
def Figure.xaxisTickColor (value : String) (f : Figure) : Figure := { f with xaxis := f.xaxis.set "tickcolor" (PyValue.str value) }
def Figure.xaxisTickFontColor (value : String) (f : Figure) : Figure := { f with xaxis := f.xaxis.set "tickfont_color" (PyValue.str value) }
def Figure.xaxisTickFontFamily (value : String) (f : Figure) : Figure := { f with xaxis := f.xaxis.set "tickfont_family" (PyValue.str value) }
def Figure.xaxisTickFontSize (value : Int) (f : Figure) : Figure := { f with xaxis := f.xaxis.set "tickfont_size" (PyValue.int value) }
def Figure.xaxisTickFormat (value : String) (f : Figure) : Figure := { f with xaxis := f.xaxis.set "tickformat" (PyValue.str value) }
def Figure.xaxisTickFormatStopsEnabled (value : String) (f : Figure) : Figure := { f with xaxis := f.xaxis.set "tickformatstops_enabled" (PyValue.str value) }
def Figure.xaxisTickFormatStopsName (value : String) (f : Figure) : Figure := { f with xaxis := f.xaxis.set "tickformatstops_name" (PyValue.str value) }
def Figure.xaxisTickFormatStopsTemplateItemName (value : String) (f : Figure) : Figure := { f with xaxis := f.xaxis.set "tickformatstops_templateitemname" (PyValue.str value) }
def Figure.xaxisTickFormatStopsValue (value : String) (f : Figure) : Figure := { f with xaxis := f.xaxis.set "tickformatstops_value" (PyValue.str value) }
def Figure.xaxisTickLabelMode (value : String) (f : Figure) : Figure := { f with xaxis := f.xaxis.set "ticklabelmode" (PyValue.str value) }
def Figure.xaxisTickLabelOverflow (value : String) (f : Figure) : Figure := { f with xaxis := f.xaxis.set "ticklabeloverflow" (PyValue.str value) }
def Figure.xaxisTickLabelPosition (value : String) (f : Figure) : Figure := { f with xaxis := f.xaxis.set "ticklabelposition" (PyValue.str value) }
def Figure.xaxisTickLabelStep (value : String) (f : Figure) : Figure := { f with xaxis := f.xaxis.set "ticklabelstep" (PyValue.str value) }
def Figure.xaxisTickLength (value : Int) (f : Figure) : Figure := { f with xaxis := f.xaxis.set "ticklen" (PyValue.int value) }
def Figure.xaxisTickMode (value : String) (f : Figure) : Figure := { f with xaxis := f.xaxis.set "tickmode" (PyValue.str value) }
def Figure.xaxisTickPrefix (value : String) (f : Figure) : Figure := { f with xaxis := f.xaxis.set "tickprefix" (PyValue.str value) }
def Figure.xaxisTicks (value : String) (f : Figure) : Figure := { f with xaxis := f.xaxis.set "ticks" (PyValue.str value) }
def Figure.xaxisTickson (value : String) (f : Figure) : Figure := { f with xaxis := f.xaxis.set "tickson" (PyValue.str value) }
def Figure.xaxisTickSuffix (value : String) (f : Figure) : Figure := { f with xaxis := f.xaxis.set "ticksuffix" (PyValue.str value) }
def Figure.xaxisTickWidth (value : Int) (f : Figure) : Figure := { f with xaxis := f.xaxis.set "tickwidth" (PyValue.int value) }
def Figure.xaxisTitleFontColor (value : String) (f : Figure) : Figure := { f with xaxis := f.xaxis.set "title_font_color" (PyValue.str value) }
def Figure.xaxisTitleFontFamily (value : String) (f : Figure) : Figure := { f with xaxis := f.xaxis.set "title_font_family" (PyValue.str value) }
def Figure.xaxisTitleFontSize (value : Int) (f : Figure) : Figure := { f with xaxis := f.xaxis.set "title_font_size" (PyValue.int value) }
def Figure.xaxisTitleStandoff (value : Int) (f : Figure) : Figure := { f with xaxis := f.xaxis.set "title_standoff" (PyValue.int value) }
def Figure.xaxisTitleText (value : String) (f : Figure) : Figure := { f with xaxis := f.xaxis.set "title_text" (PyValue.str value) }
def Figure.xaxisType (value : String) (f : Figure) : Figure := { f with xaxis := f.xaxis.set "type" (PyValue.str value) }
def Figure.xaxisUirevision (value : String) (f : Figure) : Figure := { f with xaxis := f.xaxis.set "uirevision" (PyValue.str value) }
def Figure.xaxisVisible (value : String) (f : Figure) : Figure := { f with xaxis := f.xaxis.set "visible" (PyValue.str value) }
def Figure.xaxisZeroLine (value : String) (f : Figure) : Figure := { f with xaxis := f.xaxis.set "zeroline" (PyValue.str value) }
def Figure.xaxisZeroLineColor (value : String) (f : Figure) : Figure := { f with xaxis := f.xaxis.set "zerolinecolor" (PyValue.str value) }
def Figure.xaxisZeroLineWidth (value : Int) (f : Figure) : Figure := { f with xaxis := f.xaxis.set "zerolinewidth" (PyValue.int value) }
def Figure.yaxisAnchor (value : String) (f : Figure) : Figure := { f with yaxis := f.yaxis.set "anchor" (PyValue.str value) }
def Figure.yaxisAutoMargin (value : String) (f : Figure) : Figure := { f with yaxis := f.yaxis.set "automargin" (PyValue.str value) }
def Figure.yaxisAutoRange (value : String) (f : Figure) : Figure := { f with yaxis := f.yaxis.set "autorange" (PyValue.str value) }
def Figure.yaxisAutoTypeNumbers (value : String) (f : Figure) : Figure := { f with yaxis := f.yaxis.set "autotypenumbers" (PyValue.str value) }
def Figure.yaxisCalendar (value : String) (f : Figure) : Figure := { f with yaxis := f.yaxis.set "calendar" (PyValue.str value) }
def Figure.yaxisCategoryOrder (value : String) (f : Figure) : Figure := { f with yaxis := f.yaxis.set "categoryorder" (PyValue.str value) }
def Figure.yaxisColor (value : String) (f : Figure) : Figure := { f with yaxis := f.yaxis.set "color" (PyValue.str value) }
def Figure.yaxisConstrain (value : String) (f : Figure) : Figure := { f with yaxis := f.yaxis.set "constrain" (PyValue.str value) }
def Figure.yaxisConstrainToward (value : String) (f : Figure) : Figure := { f with yaxis := f.yaxis.set "constraintoward" (PyValue.str value) }
def Figure.yaxisDividerColor (value : String) (f : Figure) : Figure := { f with yaxis := f.yaxis.set "dividercolor" (PyValue.str value) }
def Figure.yaxisDividerWidth (value : Int) (f : Figure) : Figure := { f with yaxis := f.yaxis.set "dividerwidth" (PyValue.int value) }
def Figure.yaxisDtick (value : String) (f : Figure) : Figure := { f with yaxis := f.yaxis.set "dtick" (PyValue.str value) }
def Figure.yaxisExponentFormat (value : String) (f : Figure) : Figure := { f with yaxis := f.yaxis.set "exponentformat" (PyValue.str value) }
def Figure.yaxisFixedRange (value : String) (f : Figure) : Figure := { f with yaxis := f.yaxis.set "fixedrange" (PyValue.str value) }
def Figure.yaxisGridColor (value : String) (f : Figure) : Figure := { f with yaxis := f.yaxis.set "gridcolor" (PyValue.str value) }
def Figure.yaxisGridDash (value : String) (f : Figure) : Figure := { f with yaxis := f.yaxis.set "griddash" (PyValue.str value) }
def Figure.yaxisGridWidth (value : Int) (f : Figure) : Figure := { f with yaxis := f.yaxis.set "gridwidth" (PyValue.int value) }
def Figure.yaxisHoverFormat (value : String) (f : Figure) : Figure := { f with yaxis := f.yaxis.set "hoverformat" (PyValue.str value) }
def Figure.yaxisLayer (value : String) (f : Figure) : Figure := { f with yaxis := f.yaxis.set "layer" (PyValue.str value) }
def Figure.yaxisLineColor (value : String) (f : Figure) : Figure := { f with yaxis := f.yaxis.set "linecolor" (PyValue.str value) }
def Figure.yaxisLineWidth (value : Int) (f : Figure) : Figure := { f with yaxis := f.yaxis.set "linewidth" (PyValue.int value) }
def Figure.yaxisMatches (value : String) (f : Figure) : Figure := { f with yaxis := f.yaxis.set "matches" (PyValue.str value) }
def Figure.yaxisMinExponent (value : Int) (f : Figure) : Figure := { f with yaxis := f.yaxis.set "minexponent" (PyValue.int value) }
def Figure.yaxisMinorDtick (value : String) (f : Figure) : Figure := { f with yaxis := f.yaxis.set "minor_dtick" (PyValue.str value) }
def Figure.yaxisMinorGridColor (value : String) (f : Figure) : Figure := { f with yaxis := f.yaxis.set "minor_gridcolor" (PyValue.str value) }
def Figure.yaxisMinorGridDash (value : String) (f : Figure) : Figure := { f with yaxis := f.yaxis.set "minor_griddash" (PyValue.str value) }
def Figure.yaxisMinorGridWidth (value : Int) (f : Figure) : Figure := { f with yaxis := f.yaxis.set "minor_gridwidth" (PyValue.int value) }
def Figure.yaxisMinorNticks (value : String) (f : Figure) : Figure := { f with yaxis := f.yaxis.set "minor_nticks" (PyValue.str value) }
def Figure.yaxisMinorShowgrid (value : String) (f : Figure) : Figure := { f with yaxis := f.yaxis.set "minor_showgrid" (PyValue.str value) }
def Figure.yaxisMinorTick0 (value : String) (f : Figure) : Figure := { f with yaxis := f.yaxis.set "minor_tick0" (PyValue.str value) }
def Figure.yaxisMinorTickColor (value : String) (f : Figure) : Figure := { f with yaxis := f.yaxis.set "minor_tickcolor" (PyValue.str value) }
def Figure.yaxisMinorTickLength (value : Int) (f : Figure) : Figure := { f with yaxis := f.yaxis.set "minor_ticklen" (PyValue.int value) }
def Figure.yaxisMinorTickMode (value : String) (f : Figure) : Figure := { f with yaxis := f.yaxis.set "minor_tickmode" (PyValue.str value) }
def Figure.yaxisMinorTicks (value : String) (f : Figure) : Figure := { f with yaxis := f.yaxis.set "minor_ticks" (PyValue.str value) }
def Figure.yaxisMinorTickWidth (value : Int) (f : Figure) : Figure := { f with yaxis := f.yaxis.set "minor_tickwidth" (PyValue.int value) }
def Figure.yaxisMirror (value : String) (f : Figure) : Figure := { f with yaxis := f.yaxis.set "mirror" (PyValue.str value) }
def Figure.yaxisNticks (value : String) (f : Figure) : Figure := { f with yaxis := f.yaxis.set "nticks" (PyValue.str value) }
def Figure.yaxisOverlaying (value : String) (f : Figure) : Figure := { f with yaxis := f.yaxis.set "overlaying" (PyValue.str value) }
def Figure.yaxisPosition (value : Int) (f : Figure) : Figure := { f with yaxis := f.yaxis.set "position" (PyValue.int value) }
def Figure.yaxisRange (l r : Rat) (f : Figure) : Figure := { f with yaxis := f.yaxis.set "range" (createRange l r) }
def Figure.yaxisRangeBreaksDvalue (value : Int) (f : Figure) : Figure := { f with yaxis := f.yaxis.set "rangebreaks_dvalue" (PyValue.int value) }
def Figure.yaxisRangeBreaksEnabled (value : String) (f : Figure) : Figure := { f with yaxis := f.yaxis.set "rangebreaks_enabled" (PyValue.str value) }
def Figure.yaxisRangeBreaksName (value : String) (f : Figure) : Figure := { f with yaxis := f.yaxis.set "rangebreaks_name" (PyValue.str value) }
def Figure.yaxisRangeBreaksPattern (value : String) (f : Figure) : Figure := { f with yaxis := f.yaxis.set "rangebreaks_pattern" (PyValue.str value) }
def Figure.yaxisRangeBreaksTemplateItemName (value : String) (f : Figure) : Figure := { f with yaxis := f.yaxis.set "rangebreaks_templateitemname" (PyValue.str value) }
def Figure.yaxisRangeMode (value : String) (f : Figure) : Figure := { f with yaxis := f.yaxis.set "rangemode" (PyValue.str value) }
def Figure.yaxisRangeSelectorActiveColor (value : String) (f : Figure) : Figure := { f with yaxis := f.yaxis.set "rangeselector_activecolor" (PyValue.str value) }
def Figure.yaxisRangeSelectorBackgroundColor (value : String) (f : Figure) : Figure := { f with yaxis := f.yaxis.set "rangeselector_bgcolor" (PyValue.str value) }
def Figure.yaxisRangeSelectorBorderColor (value : String) (f : Figure) : Figure := { f with yaxis := f.yaxis.set "rangeselector_bordercolor" (PyValue.str value) }
def Figure.yaxisRangeSelectorBorderWidth (value : Int) (f : Figure) : Figure := { f with yaxis := f.yaxis.set "rangeselector_borderwidth" (PyValue.int value) }
def Figure.yaxisRangeSelectorCount (value : Int) (f : Figure) : Figure := { f with yaxis := f.yaxis.set "rangeselector_count" (PyValue.int value) }
def Figure.yaxisRangeSelectorLabel (value : String) (f : Figure) : Figure := { f with yaxis := f.yaxis.set "rangeselector_label" (PyValue.str value) }
def Figure.yaxisRangeSelectorName (value : String) (f : Figure) : Figure := { f with yaxis := f.yaxis.set "rangeselector_name" (PyValue.str value) }
def Figure.yaxisRangeSelectorStep (value : String) (f : Figure) : Figure := { f with yaxis := f.yaxis.set "rangeselector_step" (PyValue.str value) }
def Figure.yaxisRangeSelectorStepMode (value : String) (f : Figure) : Figure := { f with yaxis := f.yaxis.set "rangeselector_stepmode" (PyValue.str value) }
def Figure.yaxisRangeSelectorTemplateItemName (value : String) (f : Figure) : Figure := { f with yaxis := f.yaxis.set "rangeselector_templateitemname" (PyValue.str value) }
def Figure.yaxisRangeSelectorFontColor (value : String) (f : Figure) : Figure := { f with yaxis := f.yaxis.set "rangeselector_font_color" (PyValue.str value) }
def Figure.yaxisRangeSelectorFontFamily (value : String) (f : Figure) : Figure := { f with yaxis := f.yaxis.set "rangeselector_font_family" (PyValue.str value) }
def Figure.yaxisRangeSelectorFontSize (value : Int) (f : Figure) : Figure := { f with yaxis := f.yaxis.set "rangeselector_font_size" (PyValue.int value) }
def Figure.yaxisRangeSelectorVisible (value : String) (f : Figure) : Figure := { f with yaxis := f.yaxis.set "rangeselector_visible" (PyValue.str value) }
def Figure.yaxisRangeSelectorX (value : Int) (f : Figure) : Figure := { f with yaxis := f.yaxis.set "rangeselector_x" (PyValue.int value) }
def Figure.yaxisRangeSelectorXanchor (value : String) (f : Figure) : Figure := { f with yaxis := f.yaxis.set "rangeselector_xanchor" (PyValue.str value) }
def Figure.yaxisRangeSelectorY (value : Int) (f : Figure) : Figure := { f with yaxis := f.yaxis.set "rangeselector_y" (PyValue.int value) }
def Figure.yaxisRangeSelectorYanchor (value : String) (f : Figure) : Figure := { f with yaxis := f.yaxis.set "rangeselector_yanchor" (PyValue.str value) }
def Figure.yaxisRangeSliderAutoRange (value : String) (f : Figure) : Figure := { f with yaxis := f.yaxis.set "rangeslider_autorange" (PyValue.str value) }
def Figure.yaxisRangeSliderBackgroundColor (value : String) (f : Figure) : Figure := { f with yaxis := f.yaxis.set "rangeslider_bgcolor" (PyValue.str value) }
def Figure.yaxisRangeSliderBorderColor (value : String) (f : Figure) : Figure := { f with yaxis := f.yaxis.set "rangeslider_bordercolor" (PyValue.str value) }
def Figure.yaxisRangeSliderBorderWidth (value : String) (f : Figure) : Figure := { f with yaxis := f.yaxis.set "rangeslider_borderwidth" (PyValue.str value) }
def Figure.yaxisRangeSliderThickness (value : Int) (f : Figure) : Figure := { f with yaxis := f.yaxis.set "rangeslider_thickness" (PyValue.int value) }
def Figure.yaxisRangeSliderVisible (value : String) (f : Figure) : Figure := { f with yaxis := f.yaxis.set "rangeslider_visible" (PyValue.str value) }
def Figure.yaxisRangeSliderYaxisRange (l r : Rat) (f : Figure) : Figure := { f with yaxis := f.yaxis.set "rangeslider_yaxis_range" (createRange l r) }
def Figure.yaxisRangeSliderYaxisRangeMode (value : String) (f : Figure) : Figure := { f with yaxis := f.yaxis.set "rangeslider_yaxis_rangemode" (PyValue.str value) }
def Figure.yaxisScaleAnchor (value : String) (f : Figure) : Figure := { f with yaxis := f.yaxis.set "scaleanchor" (PyValue.str value) }
def Figure.yaxisScaleRatio (value : Int) (f : Figure) : Figure := { f with yaxis := f.yaxis.set "scaleratio" (PyValue.int value) }
def Figure.yaxisSeparateThousands (value : String) (f : Figure) : Figure := { f with yaxis := f.yaxis.set "separatethousands" (PyValue.str value) }
def Figure.yaxisShowDividers (value : String) (f : Figure) : Figure := { f with yaxis := f.yaxis.set "showdividers" (PyValue.str value) }
def Figure.yaxisShowExponent (value : String) (f : Figure) : Figure := { f with yaxis := f.yaxis.set "showexponent" (PyValue.str value) }
def Figure.yaxisShowGrid (value : String) (f : Figure) : Figure := { f with yaxis := f.yaxis.set "showgrid" (PyValue.str value) }
def Figure.yaxisShowLine (value : String) (f : Figure) : Figure := { f with yaxis := f.yaxis.set "showline" (PyValue.str value) }
def Figure.yaxisShowSpikes (value : String) (f : Figure) : Figure := { f with yaxis := f.yaxis.set "showspikes" (PyValue.str value) }
def Figure.yaxisShowTickLabels (value : String) (f : Figure) : Figure := { f with yaxis := f.yaxis.set "showticklabels" (PyValue.str value) }
def Figure.yaxisShowTickPrefix (value : String) (f : Figure) : Figure := { f with yaxis := f.yaxis.set "showtickprefix" (PyValue.str value) }
def Figure.yaxisShowTickSuffix (value : String) (f : Figure) : Figure := { f with yaxis := f.yaxis.set "showticksuffix" (PyValue.str value) }
def Figure.yaxisSide (value : String) (f : Figure) : Figure := { f with yaxis := f.yaxis.set "side" (PyValue.str value) }
def Figure.yaxisSpikeColor (value : String) (f : Figure) : Figure := { f with yaxis := f.yaxis.set "spikecolor" (PyValue.str value) }
def Figure.yaxisSpikeDash (value : String) (f : Figure) : Figure := { f with yaxis := f.yaxis.set "spikedash" (PyValue.str value) }
def Figure.yaxisSpikeMode (value : String) (f : Figure) : Figure := { f with yaxis := f.yaxis.set "spikemode" (PyValue.str value) }
def Figure.yaxisSpikeSnap (value : String) (f : Figure) : Figure := { f with yaxis := f.yaxis.set "spikesnap" (PyValue.str value) }
def Figure.yaxisSpikeThickness (value : Int) (f : Figure) : Figure := { f with yaxis := f.yaxis.set "spikethickness" (PyValue.int value) }
def Figure.yaxisTick0 (value : String) (f : Figure) : Figure := { f with yaxis := f.yaxis.set "tick0" (PyValue.str value) }
def Figure.yaxisTickAngle (value : String) (f : Figure) : Figure := { f with yaxis := f.yaxis.set "tickangle" (PyValue.str value) }
def Figure.yaxisTickColor (value : String) (f : Figure) : Figure := { f with yaxis := f.yaxis.set "tickcolor" (PyValue.str value) }
def Figure.yaxisTickFontColor (value : String) (f : Figure) : Figure := { f with yaxis := f.yaxis.set "tickfont_color" (PyValue.str value) }
def Figure.yaxisTickFontFamily (value : String) (f : Figure) : Figure := { f with yaxis := f.yaxis.set "tickfont_family" (PyValue.str value) }
def Figure.yaxisTickFontSize (value : Int) (f : Figure) : Figure := { f with yaxis := f.yaxis.set "tickfont_size" (PyValue.int value) }
def Figure.yaxisTickFormat (value : String) (f : Figure) : Figure := { f with yaxis := f.yaxis.set "tickformat" (PyValue.str value) }
def Figure.yaxisTickFormatStopsEnabled (value : String) (f : Figure) : Figure := { f with yaxis := f.yaxis.set "tickformatstops_enabled" (PyValue.str value) }
def Figure.yaxisTickFormatStopsName (value : String) (f : Figure) : Figure := { f with yaxis := f.yaxis.set "tickformatstops_name" (PyValue.str value) }
def Figure.yaxisTickFormatStopsTemplateItemName (value : String) (f : Figure) : Figure := { f with yaxis := f.yaxis.set "tickformatstops_templateitemname" (PyValue.str value) }
def Figure.yaxisTickFormatStopsValue (value : String) (f : Figure) : Figure := { f with yaxis := f.yaxis.set "tickformatstops_value" (PyValue.str value) }
def Figure.yaxisTickLabelMode (value : String) (f : Figure) : Figure := { f with yaxis := f.yaxis.set "ticklabelmode" (PyValue.str value) }
def Figure.yaxisTickLabelOverflow (value : String) (f : Figure) : Figure := { f with yaxis := f.yaxis.set "ticklabeloverflow" (PyValue.str value) }
def Figure.yaxisTickLabelPosition (value : String) (f : Figure) : Figure := { f with yaxis := f.yaxis.set "ticklabelposition" (PyValue.str value) }
def Figure.yaxisTickLabelStep (value : String) (f : Figure) : Figure := { f with yaxis := f.yaxis.set "ticklabelstep" (PyValue.str value) }
def Figure.yaxisTickLength (value : Int) (f : Figure) : Figure := { f with yaxis := f.yaxis.set "ticklen" (PyValue.int value) }
def Figure.yaxisTickMode (value : String) (f : Figure) : Figure := { f with yaxis := f.yaxis.set "tickmode" (PyValue.str value) }
def Figure.yaxisTickPrefix (value : String) (f : Figure) : Figure := { f with yaxis := f.yaxis.set "tickprefix" (PyValue.str value) }
def Figure.yaxisTicks (value : String) (f : Figure) : Figure := { f with yaxis := f.yaxis.set "ticks" (PyValue.str value) }
def Figure.yaxisTickson (value : String) (f : Figure) : Figure := { f with yaxis := f.yaxis.set "tickson" (PyValue.str value) }
def Figure.yaxisTickSuffix (value : String) (f : Figure) : Figure := { f with yaxis := f.yaxis.set "ticksuffix" (PyValue.str value) }
def Figure.yaxisTickWidth (value : Int) (f : Figure) : Figure := { f with yaxis := f.yaxis.set "tickwidth" (PyValue.int value) }
def Figure.yaxisTitleFontColor (value : String) (f : Figure) : Figure := { f with yaxis := f.yaxis.set "title_font_color" (PyValue.str value) }
def Figure.yaxisTitleFontFamily (value : String) (f : Figure) : Figure := { f with yaxis := f.yaxis.set "title_font_family" (PyValue.str value) }
def Figure.yaxisTitleFontSize (value : Int) (f : Figure) : Figure := { f with yaxis := f.yaxis.set "title_font_size" (PyValue.int value) }
def Figure.yaxisTitleStandoff (value : Int) (f : Figure) : Figure := { f with yaxis := f.yaxis.set "title_standoff" (PyValue.int value) }
def Figure.yaxisTitleText (value : String) (f : Figure) : Figure := { f with yaxis := f.yaxis.set "title_text" (PyValue.str value) }
def Figure.yaxisType (value : String) (f : Figure) : Figure := { f with yaxis := f.yaxis.set "type" (PyValue.str value) }
def Figure.yaxisUirevision (value : String) (f : Figure) : Figure := { f with yaxis := f.yaxis.set "uirevision" (PyValue.str value) }
def Figure.yaxisVisible (value : String) (f : Figure) : Figure := { f with yaxis := f.yaxis.set "visible" (PyValue.str value) }
def Figure.yaxisZeroLine (value : String) (f : Figure) : Figure := { f with yaxis := f.yaxis.set "zeroline" (PyValue.str value) }
def Figure.yaxisZeroLineColor (value : String) (f : Figure) : Figure := { f with yaxis := f.yaxis.set "zerolinecolor" (PyValue.str value) }
def Figure.yaxisZeroLineWidth (value : Int) (f : Figure) : Figure := { f with yaxis := f.yaxis.set "zerolinewidth" (PyValue.int value) }

/-- Enumeration of the Figure layout setter methods of Figure.cpp, each carrying its argument. -/
inductive LayoutSetter where
  | titleFontColor (value : String)
  | titleFontFamily (value : String)
  | titleFontSize (value : Int)
  | titlePaddingBottom (value : Int)
  | titlePaddingLeft (value : Int)
  | titlePaddingRight (value : Int)
  | titlePaddingTop (value : Int)
  | titleText (value : String)
  | titleX (value : Rat)
  | titleXanchor (value : String)
  | titleXref (value : String)
  | titleY (value : Rat)
  | titleYanchor (value : String)
  | titleYref (value : String)
  | legendShow (value : Bool)
  | legendBackgroundColor (value : String)
  | legendBorderColor (value : String)
  | legendBorderWidth (value : Int)
  | legendFontColor (value : String)
  | legendFontFamily (value : String)
  | legendFontSize (value : Int)
  | legendGroupClick (value : String)
  | legendGroupTitleFontColor (value : String)
  | legendGroupTitleFontFamily (value : String)
  | legendGroupTitleFontSize (value : Int)
  | legendItemClick (value : String)
  | legendItemDoubleClick (value : String)
  | legendItemSizing (value : String)
  | legendItemWidth (value : Int)
  | legendOrientation (value : String)
  | legendTitleFontColor (value : String)
  | legendTitleFontFamily (value : String)
  | legendTitleFontSize (value : Int)
  | legendTitleSide (value : String)
  | legendTitleText (value : String)
  | legendTraceGroupGap (value : Int)
  | legendTraceOrder (value : String)
  | legendUirevision (value : String)
  | legendValign (value : String)
  | legendX (value : Rat)
  | legendXanchor (value : String)
  | legendY (value : Rat)
  | legendYanchor (value : String)
  | marginAutoExpand (value : Bool)
  | marginBottom (value : Int)
  | marginLeft (value : Int)
  | marginPadding (value : Int)
  | marginRight (value : Int)
  | marginTop (value : Int)
  | autosize (value : Bool)
  | width (value : Int)
  | height (value : Int)
  | fontColor (value : String)
  | fontFamily (value : String)
  | fontSize (value : Int)
  | uniformTextMinSize (value : Int)
  | uniformTextMode (value : String)
  | separators (value : String)
  | paperBackgroundColor (value : String)
  | plotBackgroundColor (value : String)
  | autoTypeNumbers (value : String)
  | colorScaleDiverging (value : String)
  | colorScaleSequential (value : String)
  | colorScaleSequentialminus (value : String)
  | colorway (value : List String)
  | modebarActiveColor (value : String)
  | modebarAdd (value : String)
  | modebarBackgroundColor (value : String)
  | modebarColor (value : String)
  | modebarOrientation (value : String)
  | modebarRemove (value : String)
  | modebarUirevision (value : String)
  | hoverMode (value : String)
  | clickMode (value : String)
  | dragMode (value : String)
  | selectDirection (value : String)
  | activeSelectionFillColor (value : String)
  | activeSelectionOpacity (value : Rat)
  | newSelectionLineColor (value : String)
  | newSelectionLineDash (value : String)
  | newSelectionLineWidth (value : Int)
  | newSelectionMode (value : String)
  | hoverDistance (value : String)
  | spikeDistance (value : String)
  | hoverLabelAlign (value : String)
  | hoverLabelBackgroundColor (value : String)
  | hoverLabelBorderColor (value : String)
  | hoverLabelFontColor (value : String)
  | hoverLabelFontFamily (value : String)
  | hoverLabelFontSize (value : Int)
  | hoverLabelGroupTitleFontColor (value : String)
  | hoverLabelGroupTitleFontFamily (value : String)
  | hoverLabelGroupTitleFontSize (value : Int)
  | hoverLabelNamelength (value : String)
  | transitionDuration (value : Int)
  | transitionEasing (value : String)
  | transitionOrdering (value : String)
  | dataRevision (value : String)
  | uiRevision (value : String)
  | editRevision (value : String)
  | selectionRevision (value : String)
  | meta (value : String)
  | computed (value : String)
  | gridColumns (value : String)
  | gridDomainX (value : String)
  | gridDomainY (value : String)
  | gridPattern (value : String)
  | gridRoworder (value : String)
  | gridRows (value : String)
  | gridSubplots (value : String)
  | gridXaxes (value : String)
  | gridXgap (value : Rat)
  | gridXside (value : String)
  | gridYaxes (value : String)
  | gridYgap (value : Rat)
  | gridYside (value : String)
  | calendar (value : String)
  | newShapeDrawdirection (value : String)
  | newShapeFillColor (value : String)
  | newShapeFillrule (value : String)
  | newShapeLayer (value : String)
  | newShapeLineColor (value : String)
  | newShapeLineDash (value : String)
  | newShapeLineWidth (value : Int)
  | newShapeOpacity (value : Rat)
  | activeShapeFillColor (value : String)
  | activeShapeOpacity (value : Rat)
  | selections (value : String)
  | selectionsLineColor (value : String)
  | selectionsLineDash (value : String)
  | selectionsLineWidth (value : Int)
  | selectionsName (value : String)
  | selectionsOpacity (value : Rat)
  | selectionsPath (value : String)
  | selectionsTemplateItemName (value : String)
  | selectionsType (value : String)
  | selectionsX0 (value : String)
  | selectionsX1 (value : String)
  | selectionsXref (value : String)
  | selectionsY0 (value : String)
  | selectionsY1 (value : String)
  | selectionsYref (value : String)
  | hideSources (value : Bool)
  | pieExtendColors (value : Bool)
  | hiddenLabels (value : String)
  | pieColorway (value : List String)
  | boxGap (value : Rat)
  | boxGroupGap (value : Rat)
  | boxMode (value : String)
  | violinGap (value : Rat)
  | violinGroupGap (value : Rat)
  | violinMode (value : String)
  | barGroupGap (value : Rat)
  | barMode (value : String)
  | barNorm (value : String)
  | barGap (value : Rat)
  | waterfallGap (value : Rat)
  | waterfallGroupGap (value : Rat)
  | waterfallMode (value : String)
  | funnelGap (value : Rat)
  | funnelGroupGap (value : Rat)
  | funnelMode (value : String)
  | funnelAreaExtendColors (value : Bool)
  | funnelAreaColorway (value : List String)
  | sunburstExtendColors (value : Bool)
  | sunburstColorway (value : List String)
  | treemapExtendColors (value : Bool)
  | treemapColorway (value : List String)
  | icicleExtendColors (value : Bool)
  | icicleColorway (value : List String)

/-- Apply a layout setter to a figure, delegating to the corresponding Figure method. -/
def LayoutSetter.apply (s : LayoutSetter) (f : Figure) : Figure :=
  match s with
  | .titleFontColor value => Figure.titleFontColor value f
  | .titleFontFamily value => Figure.titleFontFamily value f
  | .titleFontSize value => Figure.titleFontSize value f
  | .titlePaddingBottom value => Figure.titlePaddingBottom value f
  | .titlePaddingLeft value => Figure.titlePaddingLeft value f
  | .titlePaddingRight value => Figure.titlePaddingRight value f
  | .titlePaddingTop value => Figure.titlePaddingTop value f
  | .titleText value => Figure.titleText value f
  | .titleX value => Figure.titleX value f
  | .titleXanchor value => Figure.titleXanchor value f
  | .titleXref value => Figure.titleXref value f
  | .titleY value => Figure.titleY value f
  | .titleYanchor value => Figure.titleYanchor value f
  | .titleYref value => Figure.titleYref value f
  | .legendShow value => Figure.legendShow value f
  | .legendBackgroundColor value => Figure.legendBackgroundColor value f
  | .legendBorderColor value => Figure.legendBorderColor value f
  | .legendBorderWidth value => Figure.legendBorderWidth value f
  | .legendFontColor value => Figure.legendFontColor value f
  | .legendFontFamily value => Figure.legendFontFamily value f
  | .legendFontSize value => Figure.legendFontSize value f
  | .legendGroupClick value => Figure.legendGroupClick value f
  | .legendGroupTitleFontColor value => Figure.legendGroupTitleFontColor value f
  | .legendGroupTitleFontFamily value => Figure.legendGroupTitleFontFamily value f
  | .legendGroupTitleFontSize value => Figure.legendGroupTitleFontSize value f
  | .legendItemClick value => Figure.legendItemClick value f
  | .legendItemDoubleClick value => Figure.legendItemDoubleClick value f
  | .legendItemSizing value => Figure.legendItemSizing value f
  | .legendItemWidth value => Figure.legendItemWidth value f
  | .legendOrientation value => Figure.legendOrientation value f
  | .legendTitleFontColor value => Figure.legendTitleFontColor value f
  | .legendTitleFontFamily value => Figure.legendTitleFontFamily value f
  | .legendTitleFontSize value => Figure.legendTitleFontSize value f
  | .legendTitleSide value => Figure.legendTitleSide value f
  | .legendTitleText value => Figure.legendTitleText value f
  | .legendTraceGroupGap value => Figure.legendTraceGroupGap value f
  | .legendTraceOrder value => Figure.legendTraceOrder value f
  | .legendUirevision value => Figure.legendUirevision value f
  | .legendValign value => Figure.legendValign value f
  | .legendX value => Figure.legendX value f
  | .legendXanchor value => Figure.legendXanchor value f
  | .legendY value => Figure.legendY value f
  | .legendYanchor value => Figure.legendYanchor value f
  | .marginAutoExpand value => Figure.marginAutoExpand value f
  | .marginBottom value => Figure.marginBottom value f
  | .marginLeft value => Figure.marginLeft value f
  | .marginPadding value => Figure.marginPadding value f
  | .marginRight value => Figure.marginRight value f
  | .marginTop value => Figure.marginTop value f
  | .autosize value => Figure.autosize value f
  | .width value => Figure.width value f
  | .height value => Figure.height value f
  | .fontColor value => Figure.fontColor value f
  | .fontFamily value => Figure.fontFamily value f
  | .fontSize value => Figure.fontSize value f
  | .uniformTextMinSize value => Figure.uniformTextMinSize value f
  | .uniformTextMode value => Figure.uniformTextMode value f
  | .separators value => Figure.separators value f
  | .paperBackgroundColor value => Figure.paperBackgroundColor value f
  | .plotBackgroundColor value => Figure.plotBackgroundColor value f
  | .autoTypeNumbers value => Figure.autoTypeNumbers value f
  | .colorScaleDiverging value => Figure.colorScaleDiverging value f
  | .colorScaleSequential value => Figure.colorScaleSequential value f
  | .colorScaleSequentialminus value => Figure.colorScaleSequentialminus value f
  | .colorway value => Figure.colorway value f
  | .modebarActiveColor value => Figure.modebarActiveColor value f
  | .modebarAdd value => Figure.modebarAdd value f
  | .modebarBackgroundColor value => Figure.modebarBackgroundColor value f
  | .modebarColor value => Figure.modebarColor value f
  | .modebarOrientation value => Figure.modebarOrientation value f
  | .modebarRemove value => Figure.modebarRemove value f
  | .modebarUirevision value => Figure.modebarUirevision value f
  | .hoverMode value => Figure.hoverMode value f
  | .clickMode value => Figure.clickMode value f
  | .dragMode value => Figure.dragMode value f
  | .selectDirection value => Figure.selectDirection value f
  | .activeSelectionFillColor value => Figure.activeSelectionFillColor value f
  | .activeSelectionOpacity value => Figure.activeSelectionOpacity value f
  | .newSelectionLineColor value => Figure.newSelectionLineColor value f
  | .newSelectionLineDash value => Figure.newSelectionLineDash value f
  | .newSelectionLineWidth value => Figure.newSelectionLineWidth value f
  | .newSelectionMode value => Figure.newSelectionMode value f
  | .hoverDistance value => Figure.hoverDistance value f
  | .spikeDistance value => Figure.spikeDistance value f
  | .hoverLabelAlign value => Figure.hoverLabelAlign value f
  | .hoverLabelBackgroundColor value => Figure.hoverLabelBackgroundColor value f
  | .hoverLabelBorderColor value => Figure.hoverLabelBorderColor value f
  | .hoverLabelFontColor value => Figure.hoverLabelFontColor value f
  | .hoverLabelFontFamily value => Figure.hoverLabelFontFamily value f
  | .hoverLabelFontSize value => Figure.hoverLabelFontSize value f
  | .hoverLabelGroupTitleFontColor value => Figure.hoverLabelGroupTitleFontColor value f
  | .hoverLabelGroupTitleFontFamily value => Figure.hoverLabelGroupTitleFontFamily value f
  | .hoverLabelGroupTitleFontSize value => Figure.hoverLabelGroupTitleFontSize value f
  | .hoverLabelNamelength value => Figure.hoverLabelNamelength value f
  | .transitionDuration value => Figure.transitionDuration value f
  | .transitionEasing value => Figure.transitionEasing value f
  | .transitionOrdering value => Figure.transitionOrdering value f
  | .dataRevision value => Figure.dataRevision value f
  | .uiRevision value => Figure.uiRevision value f
  | .editRevision value => Figure.editRevision value f
  | .selectionRevision value => Figure.selectionRevision value f
  | .meta value => Figure.meta value f
  | .computed value => Figure.computed value f
  | .gridColumns value => Figure.gridColumns value f
  | .gridDomainX value => Figure.gridDomainX value f
  | .gridDomainY value => Figure.gridDomainY value f
  | .gridPattern value => Figure.gridPattern value f
  | .gridRoworder value => Figure.gridRoworder value f
  | .gridRows value => Figure.gridRows value f
  | .gridSubplots value => Figure.gridSubplots value f
  | .gridXaxes value => Figure.gridXaxes value f
  | .gridXgap value => Figure.gridXgap value f
  | .gridXside value => Figure.gridXside value f
  | .gridYaxes value => Figure.gridYaxes value f
  | .gridYgap value => Figure.gridYgap value f
  | .gridYside value => Figure.gridYside value f
  | .calendar value => Figure.calendar value f
  | .newShapeDrawdirection value => Figure.newShapeDrawdirection value f
  | .newShapeFillColor value => Figure.newShapeFillColor value f
  | .newShapeFillrule value => Figure.newShapeFillrule value f
  | .newShapeLayer value => Figure.newShapeLayer value f
  | .newShapeLineColor value => Figure.newShapeLineColor value f
  | .newShapeLineDash value => Figure.newShapeLineDash value f
  | .newShapeLineWidth value => Figure.newShapeLineWidth value f
  | .newShapeOpacity value => Figure.newShapeOpacity value f
  | .activeShapeFillColor value => Figure.activeShapeFillColor value f
  | .activeShapeOpacity value => Figure.activeShapeOpacity value f
  | .selections value => Figure.selections value f
  | .selectionsLineColor value => Figure.selectionsLineColor value f
  | .selectionsLineDash value => Figure.selectionsLineDash value f
  | .selectionsLineWidth value => Figure.selectionsLineWidth value f
  | .selectionsName value => Figure.selectionsName value f
  | .selectionsOpacity value => Figure.selectionsOpacity value f
  | .selectionsPath value => Figure.selectionsPath value f
  | .selectionsTemplateItemName value => Figure.selectionsTemplateItemName value f
  | .selectionsType value => Figure.selectionsType value f
  | .selectionsX0 value => Figure.selectionsX0 value f
  | .selectionsX1 value => Figure.selectionsX1 value f
  | .selectionsXref value => Figure.selectionsXref value f
  | .selectionsY0 value => Figure.selectionsY0 value f
  | .selectionsY1 value => Figure.selectionsY1 value f
  | .selectionsYref value => Figure.selectionsYref value f
  | .hideSources value => Figure.hideSources value f
  | .pieExtendColors value => Figure.pieExtendColors value f
  | .hiddenLabels value => Figure.hiddenLabels value f
  | .pieColorway value => Figure.pieColorway value f
  | .boxGap value => Figure.boxGap value f
  | .boxGroupGap value => Figure.boxGroupGap value f
  | .boxMode value => Figure.boxMode value f
  | .violinGap value => Figure.violinGap value f
  | .violinGroupGap value => Figure.violinGroupGap value f
  | .violinMode value => Figure.violinMode value f
  | .barGroupGap value => Figure.barGroupGap value f
  | .barMode value => Figure.barMode value f
  | .barNorm value => Figure.barNorm value f
  | .barGap value => Figure.barGap value f
  | .waterfallGap value => Figure.waterfallGap value f
  | .waterfallGroupGap value => Figure.waterfallGroupGap value f
  | .waterfallMode value => Figure.waterfallMode value f
  | .funnelGap value => Figure.funnelGap value f
  | .funnelGroupGap value => Figure.funnelGroupGap value f
  | .funnelMode value => Figure.funnelMode value f
  | .funnelAreaExtendColors value => Figure.funnelAreaExtendColors value f
  | .funnelAreaColorway value => Figure.funnelAreaColorway value f
  | .sunburstExtendColors value => Figure.sunburstExtendColors value f
  | .sunburstColorway value => Figure.sunburstColorway value f
  | .treemapExtendColors value => Figure.treemapExtendColors value f
  | .treemapColorway value => Figure.treemapColorway value f
  | .icicleExtendColors value => Figure.icicleExtendColors value f
  | .icicleColorway value => Figure.icicleColorway value f

/-- The dictionary key that each layout setter writes, as in Figure.cpp. -/
def LayoutSetter.key : LayoutSetter → String
  | .titleFontColor _ => "title_font_color"
  | .titleFontFamily _ => "title_font_family"
  | .titleFontSize _ => "title_font_size"
  | .titlePaddingBottom _ => "title_pad_b"
  | .titlePaddingLeft _ => "title_pad_l"
  | .titlePaddingRight _ => "title_pad_r"
  | .titlePaddingTop _ => "title_pad_t"
  | .titleText _ => "title_text"
  | .titleX _ => "title_x"
  | .titleXanchor _ => "title_xanchor"
  | .titleXref _ => "title_xref"
  | .titleY _ => "title_y"
  | .titleYanchor _ => "title_yanchor"
  | .titleYref _ => "title_yref"
  | .legendShow _ => "showlegend"
  | .legendBackgroundColor _ => "legend_bgcolor"
  | .legendBorderColor _ => "legend_bordercolor"
  | .legendBorderWidth _ => "legend_borderwidth"
  | .legendFontColor _ => "legend_font_color"
  | .legendFontFamily _ => "legend_font_family"
  | .legendFontSize _ => "legend_font_size"
  | .legendGroupClick _ => "legend_groupclick"
  | .legendGroupTitleFontColor _ => "legend_grouptitlefont_color"
  | .legendGroupTitleFontFamily _ => "legend_grouptitlefont_family"
  | .legendGroupTitleFontSize _ => "legend_grouptitlefont_size"
  | .legendItemClick _ => "legend_itemclick"
  | .legendItemDoubleClick _ => "legend_itemdoubleclick"
  | .legendItemSizing _ => "legend_itemsizing"
  | .legendItemWidth _ => "legend_itemwidth"
  | .legendOrientation _ => "legend_orientation"
  | .legendTitleFontColor _ => "legend_title_font_color"
  | .legendTitleFontFamily _ => "legend_title_font_family"
  | .legendTitleFontSize _ => "legend_title_font_size"
  | .legendTitleSide _ => "legend_title_side"
  | .legendTitleText _ => "legend_title_text"
  | .legendTraceGroupGap _ => "legend_tracegroupgap"
  | .legendTraceOrder _ => "legend_traceorder"
  | .legendUirevision _ => "legend_uirevision"
  | .legendValign _ => "legend_valign"
  | .legendX _ => "legend_x"
  | .legendXanchor _ => "legend_xanchor"
  | .legendY _ => "legend_y"
  | .legendYanchor _ => "legend_yanchor"
  | .marginAutoExpand _ => "margin_autoexpand"
  | .marginBottom _ => "margin_b"
  | .marginLeft _ => "margin_l"
  | .marginPadding _ => "margin_pad"
  | .marginRight _ => "margin_r"
  | .marginTop _ => "margin_t"
  | .autosize _ => "autosize"
  | .width _ => "width"
  | .height _ => "height"
  | .fontColor _ => "font_color"
  | .fontFamily _ => "font_family"
  | .fontSize _ => "font_size"
  | .uniformTextMinSize _ => "uniformtext_minsize"
  | .uniformTextMode _ => "uniformtext_mode"
  | .separators _ => "separators"
  | .paperBackgroundColor _ => "paper_bgcolor"
  | .plotBackgroundColor _ => "plot_bgcolor"
  | .autoTypeNumbers _ => "autotypenumbers"
  | .colorScaleDiverging _ => "colorscale_diverging"
  | .colorScaleSequential _ => "colorscale_sequential"
  | .colorScaleSequentialminus _ => "colorscale_sequentialminus"
  | .colorway _ => "colorway"
  | .modebarActiveColor _ => "modebar_activecolor"
  | .modebarAdd _ => "modebar_add"
  | .modebarBackgroundColor _ => "modebar_bgcolor"
  | .modebarColor _ => "modebar_color"
  | .modebarOrientation _ => "modebar_orientation"
  | .modebarRemove _ => "modebar_remove"
  | .modebarUirevision _ => "modebar_uirevision"
  | .hoverMode _ => "hovermode"
  | .clickMode _ => "clickmode"
  | .dragMode _ => "dragmode"
  | .selectDirection _ => "selectdirection"
  | .activeSelectionFillColor _ => "activeselection_fillcolor"
  | .activeSelectionOpacity _ => "activeselection_opacity"
  | .newSelectionLineColor _ => "newselection_line_color"
  | .newSelectionLineDash _ => "newselection_line_dash"
  | .newSelectionLineWidth _ => "newselection_line_width"
  | .newSelectionMode _ => "newselection_mode"
  | .hoverDistance _ => "hoverdistance"
  | .spikeDistance _ => "spikedistance"
  | .hoverLabelAlign _ => "hoverlabel_align"
  | .hoverLabelBackgroundColor _ => "hoverlabel_bgcolor"
  | .hoverLabelBorderColor _ => "hoverlabel_bordercolor"
  | .hoverLabelFontColor _ => "hoverlabel_font_color"
  | .hoverLabelFontFamily _ => "hoverlabel_font_family"
  | .hoverLabelFontSize _ => "hoverlabel_font_size"
  | .hoverLabelGroupTitleFontColor _ => "hoverlabel_grouptitlefont_color"
  | .hoverLabelGroupTitleFontFamily _ => "hoverlabel_grouptitlefont_family"
  | .hoverLabelGroupTitleFontSize _ => "hoverlabel_grouptitlefont_size"
  | .hoverLabelNamelength _ => "hoverlabel_namelength"
  | .transitionDuration _ => "transition_duration"
  | .transitionEasing _ => "transition_easing"
  | .transitionOrdering _ => "transition_ordering"
  | .dataRevision _ => "datarevision"
  | .uiRevision _ => "uirevision"
  | .editRevision _ => "editrevision"
  | .selectionRevision _ => "selectionrevision"
  | .meta _ => "meta"
  | .computed _ => "computed"
  | .gridColumns _ => "grid_columns"
  | .gridDomainX _ => "grid_domain_x"
  | .gridDomainY _ => "grid_domain_y"
  | .gridPattern _ => "grid_pattern"
  | .gridRoworder _ => "grid_roworder"
  | .gridRows _ => "grid_rows"
  | .gridSubplots _ => "grid_subplots"
  | .gridXaxes _ => "grid_xaxes"
  | .gridXgap _ => "grid_xgap"
  | .gridXside _ => "grid_xside"
  | .gridYaxes _ => "grid_yaxes"
  | .gridYgap _ => "grid_ygap"
  | .gridYside _ => "grid_yside"
  | .calendar _ => "calendar"
  | .newShapeDrawdirection _ => "newshape_drawdirection"
  | .newShapeFillColor _ => "newshape_fillcolor"
  | .newShapeFillrule _ => "newshape_fillrule"
  | .newShapeLayer _ => "newshape_layer"
  | .newShapeLineColor _ => "newshape_line_color"
  | .newShapeLineDash _ => "newshape_line_dash"
  | .newShapeLineWidth _ => "newshape_line_width"
  | .newShapeOpacity _ => "newshape_opacity"
  | .activeShapeFillColor _ => "activeshape_fillcolor"
  | .activeShapeOpacity _ => "activeshape_opacity"
  | .selections _ => "selections"
  | .selectionsLineColor _ => "selections_line_color"
  | .selectionsLineDash _ => "selections_line_dash"
  | .selectionsLineWidth _ => "selections_line_width"
  | .selectionsName _ => "selections_name"
  | .selectionsOpacity _ => "selections_opacity"
  | .selectionsPath _ => "selections_path"
  | .selectionsTemplateItemName _ => "selections_templateitemname"
  | .selectionsType _ => "selections_type"
  | .selectionsX0 _ => "selections_x0"
  | .selectionsX1 _ => "selections_x1"
  | .selectionsXref _ => "selections_xref"
  | .selectionsY0 _ => "selections_y0"
  | .selectionsY1 _ => "selections_y1"
  | .selectionsYref _ => "selections_yref"
  | .hideSources _ => "hidesources"
  | .pieExtendColors _ => "extendpiecolors"
  | .hiddenLabels _ => "hiddenlabels"
  | .pieColorway _ => "piecolorway"
  | .boxGap _ => "boxgap"
  | .boxGroupGap _ => "boxgroupgap"
  | .boxMode _ => "boxmode"
  | .violinGap _ => "violingap"
  | .violinGroupGap _ => "violingroupgap"
  | .violinMode _ => "violinmode"
  | .barGroupGap _ => "bargroupgap"
  | .barMode _ => "barmode"
  | .barNorm _ => "barnorm"
  | .barGap _ => "bargap"
  | .waterfallGap _ => "waterfallgap"
  | .waterfallGroupGap _ => "waterfallgroupgap"
  | .waterfallMode _ => "waterfallmode"
  | .funnelGap _ => "funnelgap"
  | .funnelGroupGap _ => "funnelgroupgap"
  | .funnelMode _ => "funnelmode"
  | .funnelAreaExtendColors _ => "extendfunnelareacolors"
  | .funnelAreaColorway _ => "funnelareacolorway"
  | .sunburstExtendColors _ => "extendsunburstcolors"
  | .sunburstColorway _ => "sunburstcolorway"
  | .treemapExtendColors _ => "extendtreemapcolors"
  | .treemapColorway _ => "treemapcolorway"
  | .icicleExtendColors _ => "extendiciclecolors"
  | .icicleColorway _ => "iciclecolorway"

/-- The stored value for each layout setter. -/
def LayoutSetter.val : LayoutSetter → PyValue
  | .titleFontColor value => PyValue.str value
  | .titleFontFamily value => PyValue.str value
  | .titleFontSize value => PyValue.int value
  | .titlePaddingBottom value => PyValue.int value
  | .titlePaddingLeft value => PyValue.int value
  | .titlePaddingRight value => PyValue.int value
  | .titlePaddingTop value => PyValue.int value
  | .titleText value => PyValue.str value
  | .titleX value => PyValue.real value
  | .titleXanchor value => PyValue.str value
  | .titleXref value => PyValue.str value
  | .titleY value => PyValue.real value
  | .titleYanchor value => PyValue.str value
  | .titleYref value => PyValue.str value
  | .legendShow value => PyValue.bool value
  | .legendBackgroundColor value => PyValue.str value
  | .legendBorderColor value => PyValue.str value
  | .legendBorderWidth value => PyValue.int value
  | .legendFontColor value => PyValue.str value
  | .legendFontFamily value => PyValue.str value
  | .legendFontSize value => PyValue.int value
  | .legendGroupClick value => PyValue.str value
  | .legendGroupTitleFontColor value => PyValue.str value
  | .legendGroupTitleFontFamily value => PyValue.str value
  | .legendGroupTitleFontSize value => PyValue.int value
  | .legendItemClick value => PyValue.str value
  | .legendItemDoubleClick value => PyValue.str value
  | .legendItemSizing value => PyValue.str value
  | .legendItemWidth value => PyValue.int value
  | .legendOrientation value => PyValue.str value
  | .legendTitleFontColor value => PyValue.str value
  | .legendTitleFontFamily value => PyValue.str value
  | .legendTitleFontSize value => PyValue.int value
  | .legendTitleSide value => PyValue.str value
  | .legendTitleText value => PyValue.str value
  | .legendTraceGroupGap value => PyValue.int value
  | .legendTraceOrder value => PyValue.str value
  | .legendUirevision value => PyValue.str value
  | .legendValign value => PyValue.str value
  | .legendX value => PyValue.real value
  | .legendXanchor value => PyValue.str value
  | .legendY value => PyValue.real value
  | .legendYanchor value => PyValue.str value
  | .marginAutoExpand value => PyValue.bool value
  | .marginBottom value => PyValue.int value
  | .marginLeft value => PyValue.int value
  | .marginPadding value => PyValue.int value
  | .marginRight value => PyValue.int value
  | .marginTop value => PyValue.int value
  | .autosize value => PyValue.bool value
  | .width value => PyValue.int value
  | .height value => PyValue.int value
  | .fontColor value => PyValue.str value
  | .fontFamily value => PyValue.str value
  | .fontSize value => PyValue.int value
  | .uniformTextMinSize value => PyValue.int value
  | .uniformTextMode value => PyValue.str value
  | .separators value => PyValue.str value
  | .paperBackgroundColor value => PyValue.str value
  | .plotBackgroundColor value => PyValue.str value
  | .autoTypeNumbers value => PyValue.str value
  | .colorScaleDiverging value => PyValue.str value
  | .colorScaleSequential value => PyValue.str value
  | .colorScaleSequentialminus value => PyValue.str value
  | .colorway value => PyValue.strs value
  | .modebarActiveColor value => PyValue.str value
  | .modebarAdd value => PyValue.str value
  | .modebarBackgroundColor value => PyValue.str value
  | .modebarColor value => PyValue.str value
  | .modebarOrientation value => PyValue.str value
  | .modebarRemove value => PyValue.str value
  | .modebarUirevision value => PyValue.str value
  | .hoverMode value => PyValue.str value
  | .clickMode value => PyValue.str value
  | .dragMode value => PyValue.str value
  | .selectDirection value => PyValue.str value
  | .activeSelectionFillColor value => PyValue.str value
  | .activeSelectionOpacity value => PyValue.real value
  | .newSelectionLineColor value => PyValue.str value
  | .newSelectionLineDash value => PyValue.str value
  | .newSelectionLineWidth value => PyValue.int value
  | .newSelectionMode value => PyValue.str value
  | .hoverDistance value => PyValue.str value
  | .spikeDistance value => PyValue.str value
  | .hoverLabelAlign value => PyValue.str value
  | .hoverLabelBackgroundColor value => PyValue.str value
  | .hoverLabelBorderColor value => PyValue.str value
  | .hoverLabelFontColor value => PyValue.str value
  | .hoverLabelFontFamily value => PyValue.str value
  | .hoverLabelFontSize value => PyValue.int value
  | .hoverLabelGroupTitleFontColor value => PyValue.str value
  | .hoverLabelGroupTitleFontFamily value => PyValue.str value
  | .hoverLabelGroupTitleFontSize value => PyValue.int value
  | .hoverLabelNamelength value => PyValue.str value
  | .transitionDuration value => PyValue.int value
  | .transitionEasing value => PyValue.str value
  | .transitionOrdering value => PyValue.str value
  | .dataRevision value => PyValue.str value
  | .uiRevision value => PyValue.str value
  | .editRevision value => PyValue.str value
  | .selectionRevision value => PyValue.str value
  | .meta value => PyValue.str value
  | .computed value => PyValue.str value
  | .gridColumns value => PyValue.str value
  | .gridDomainX value => PyValue.str value
  | .gridDomainY value => PyValue.str value
  | .gridPattern value => PyValue.str value
  | .gridRoworder value => PyValue.str value
  | .gridRows value => PyValue.str value
  | .gridSubplots value => PyValue.str value
  | .gridXaxes value => PyValue.str value
  | .gridXgap value => PyValue.real value
  | .gridXside value => PyValue.str value
  | .gridYaxes value => PyValue.str value
  | .gridYgap value => PyValue.real value
  | .gridYside value => PyValue.str value
  | .calendar value => PyValue.str value
  | .newShapeDrawdirection value => PyValue.str value
  | .newShapeFillColor value => PyValue.str value
  | .newShapeFillrule value => PyValue.str value
  | .newShapeLayer value => PyValue.str value
  | .newShapeLineColor value => PyValue.str value
  | .newShapeLineDash value => PyValue.str value
  | .newShapeLineWidth value => PyValue.int value
  | .newShapeOpacity value => PyValue.real value
  | .activeShapeFillColor value => PyValue.str value
  | .activeShapeOpacity value => PyValue.real value
  | .selections value => PyValue.str value
  | .selectionsLineColor value => PyValue.str value
  | .selectionsLineDash value => PyValue.str value
  | .selectionsLineWidth value => PyValue.int value
  | .selectionsName value => PyValue.str value
  | .selectionsOpacity value => PyValue.real value
  | .selectionsPath value => PyValue.str value
  | .selectionsTemplateItemName value => PyValue.str value
  | .selectionsType value => PyValue.str value
  | .selectionsX0 value => PyValue.str value
  | .selectionsX1 value => PyValue.str value
  | .selectionsXref value => PyValue.str value
  | .selectionsY0 value => PyValue.str value
  | .selectionsY1 value => PyValue.str value
  | .selectionsYref value => PyValue.str value
  | .hideSources value => PyValue.bool value
  | .pieExtendColors value => PyValue.bool value
  | .hiddenLabels value => PyValue.str value
  | .pieColorway value => PyValue.strs value
  | .boxGap value => PyValue.real value
  | .boxGroupGap value => PyValue.real value
  | .boxMode value => PyValue.str value
  | .violinGap value => PyValue.real value
  | .violinGroupGap value => PyValue.real value
  | .violinMode value => PyValue.str value
  | .barGroupGap value => PyValue.real value
  | .barMode value => PyValue.str value
  | .barNorm value => PyValue.str value
  | .barGap value => PyValue.real value
  | .waterfallGap value => PyValue.real value
  | .waterfallGroupGap value => PyValue.real value
  | .waterfallMode value => PyValue.str value
  | .funnelGap value => PyValue.real value
  | .funnelGroupGap value => PyValue.real value
  | .funnelMode value => PyValue.str value
  | .funnelAreaExtendColors value => PyValue.bool value
  | .funnelAreaColorway value => PyValue.strs value
  | .sunburstExtendColors value => PyValue.bool value
  | .sunburstColorway value => PyValue.strs value
  | .treemapExtendColors value => PyValue.bool value
  | .treemapColorway value => PyValue.strs value
  | .icicleExtendColors value => PyValue.bool value
  | .icicleColorway value => PyValue.strs value

/-- Enumeration of the Figure xaxis setter methods of Figure.cpp, each carrying its argument. -/
inductive XaxisSetter where
  | xaxisAnchor (value : String)
  | xaxisAutoMargin (value : String)
  | xaxisAutoRange (value : String)
  | xaxisAutoTypeNumbers (value : String)
  | xaxisCalendar (value : String)
  | xaxisCategoryOrder (value : String)
  | xaxisColor (value : String)
  | xaxisConstrain (value : String)
  | xaxisConstrainToward (value : String)
  | xaxisDividerColor (value : String)
  | xaxisDividerWidth (value : Int)
  | xaxisDtick (value : String)
  | xaxisExponentFormat (value : String)
  | xaxisFixedRange (value : String)
  | xaxisGridColor (value : String)
  | xaxisGridDash (value : String)
  | xaxisGridWidth (value : Int)
  | xaxisHoverFormat (value : String)
  | xaxisLayer (value : String)
  | xaxisLineColor (value : String)
  | xaxisLineWidth (value : Int)
  | xaxisMatches (value : String)
  | xaxisMinExponent (value : Int)
  | xaxisMinorDtick (value : String)
  | xaxisMinorGridColor (value : String)
  | xaxisMinorGridDash (value : String)
  | xaxisMinorGridWidth (value : Int)
  | xaxisMinorNticks (value : String)
  | xaxisMinorShowgrid (value : String)
  | xaxisMinorTick0 (value : String)
  | xaxisMinorTickColor (value : String)
  | xaxisMinorTickLength (value : Int)
  | xaxisMinorTickMode (value : String)
  | xaxisMinorTicks (value : String)
  | xaxisMinorTickWidth (value : Int)
  | xaxisMirror (value : String)
  | xaxisNticks (value : String)
  | xaxisOverlaying (value : String)
  | xaxisPosition (value : Int)
  | xaxisRange (l r : Rat)
  | xaxisRangeBreaksDvalue (value : Int)
  | xaxisRangeBreaksEnabled (value : String)
  | xaxisRangeBreaksName (value : String)
  | xaxisRangeBreaksPattern (value : String)
  | xaxisRangeBreaksTemplateItemName (value : String)
  | xaxisRangeMode (value : String)
  | xaxisRangeSelectorActiveColor (value : String)
  | xaxisRangeSelectorBackgroundColor (value : String)
  | xaxisRangeSelectorBorderColor (value : String)
  | xaxisRangeSelectorBorderWidth (value : Int)
  | xaxisRangeSelectorCount (value : Int)
  | xaxisRangeSelectorLabel (value : String)
  | xaxisRangeSelectorName (value : String)
  | xaxisRangeSelectorStep (value : String)
  | xaxisRangeSelectorStepMode (value : String)
  | xaxisRangeSelectorTemplateItemName (value : String)
  | xaxisRangeSelectorFontColor (value : String)
  | xaxisRangeSelectorFontFamily (value : String)
  | xaxisRangeSelectorFontSize (value : Int)
  | xaxisRangeSelectorVisible (value : String)
  | xaxisRangeSelectorX (value : Int)
  | xaxisRangeSelectorXanchor (value : String)
  | xaxisRangeSelectorY (value : Int)
  | xaxisRangeSelectorYanchor (value : String)
  | xaxisRangeSliderAutoRange (value : String)
  | xaxisRangeSliderBackgroundColor (value : String)
  | xaxisRangeSliderBorderColor (value : String)
  | xaxisRangeSliderBorderWidth (value : String)
  | xaxisRangeSliderThickness (value : Int)
  | xaxisRangeSliderVisible (value : String)
  | xaxisRangeSliderYaxisRange (l r : Rat)
  | xaxisRangeSliderYaxisRangeMode (value : String)
  | xaxisScaleAnchor (value : String)
  | xaxisScaleRatio (value : Int)
  | xaxisSeparateThousands (value : String)
  | xaxisShowDividers (value : String)
  | xaxisShowExponent (value : String)
  | xaxisShowGrid (value : String)
  | xaxisShowLine (value : String)
  | xaxisShowSpikes (value : String)
  | xaxisShowTickLabels (value : String)
  | xaxisShowTickPrefix (value : String)
  | xaxisShowTickSuffix (value : String)
  | xaxisSide (value : String)
  | xaxisSpikeColor (value : String)
  | xaxisSpikeDash (value : String)
  | xaxisSpikeMode (value : String)
  | xaxisSpikeSnap (value : String)
  | xaxisSpikeThickness (value : Int)
  | xaxisTick0 (value : String)
  | xaxisTickAngle (value : String)
  | xaxisTickColor (value : String)
  | xaxisTickFontColor (value : String)
  | xaxisTickFontFamily (value : String)
  | xaxisTickFontSize (value : Int)
  | xaxisTickFormat (value : String)
  | xaxisTickFormatStopsEnabled (value : String)
  | xaxisTickFormatStopsName (value : String)
  | xaxisTickFormatStopsTemplateItemName (value : String)
  | xaxisTickFormatStopsValue (value : String)
  | xaxisTickLabelMode (value : String)
  | xaxisTickLabelOverflow (value : String)
  | xaxisTickLabelPosition (value : String)
  | xaxisTickLabelStep (value : String)
  | xaxisTickLength (value : Int)
  | xaxisTickMode (value : String)
  | xaxisTickPrefix (value : String)
  | xaxisTicks (value : String)
  | xaxisTickson (value : String)
  | xaxisTickSuffix (value : String)
  | xaxisTickWidth (value : Int)
  | xaxisTitleFontColor (value : String)
  | xaxisTitleFontFamily (value : String)
  | xaxisTitleFontSize (value : Int)
  | xaxisTitleStandoff (value : Int)
  | xaxisTitleText (value : String)
  | xaxisType (value : String)
  | xaxisUirevision (value : String)
  | xaxisVisible (value : String)
  | xaxisZeroLine (value : String)
  | xaxisZeroLineColor (value : String)
  | xaxisZeroLineWidth (value : Int)

/-- Apply a xaxis setter to a figure, delegating to the corresponding Figure method. -/
def XaxisSetter.apply (s : XaxisSetter) (f : Figure) : Figure :=
  match s with
  | .xaxisAnchor value => Figure.xaxisAnchor value f
  | .xaxisAutoMargin value => Figure.xaxisAutoMargin value f
  | .xaxisAutoRange value => Figure.xaxisAutoRange value f
  | .xaxisAutoTypeNumbers value => Figure.xaxisAutoTypeNumbers value f
  | .xaxisCalendar value => Figure.xaxisCalendar value f
  | .xaxisCategoryOrder value => Figure.xaxisCategoryOrder value f
  | .xaxisColor value => Figure.xaxisColor value f
  | .xaxisConstrain value => Figure.xaxisConstrain value f
  | .xaxisConstrainToward value => Figure.xaxisConstrainToward value f
  | .xaxisDividerColor value => Figure.xaxisDividerColor value f
  | .xaxisDividerWidth value => Figure.xaxisDividerWidth value f
  | .xaxisDtick value => Figure.xaxisDtick value f
  | .xaxisExponentFormat value => Figure.xaxisExponentFormat value f
  | .xaxisFixedRange value => Figure.xaxisFixedRange value f
  | .xaxisGridColor value => Figure.xaxisGridColor value f
  | .xaxisGridDash value => Figure.xaxisGridDash value f
  | .xaxisGridWidth value => Figure.xaxisGridWidth value f
  | .xaxisHoverFormat value => Figure.xaxisHoverFormat value f
  | .xaxisLayer value => Figure.xaxisLayer value f
  | .xaxisLineColor value => Figure.xaxisLineColor value f
  | .xaxisLineWidth value => Figure.xaxisLineWidth value f
  | .xaxisMatches value => Figure.xaxisMatches value f
  | .xaxisMinExponent value => Figure.xaxisMinExponent value f
  | .xaxisMinorDtick value => Figure.xaxisMinorDtick value f
  | .xaxisMinorGridColor value => Figure.xaxisMinorGridColor value f
  | .xaxisMinorGridDash value => Figure.xaxisMinorGridDash value f
  | .xaxisMinorGridWidth value => Figure.xaxisMinorGridWidth value f
  | .xaxisMinorNticks value => Figure.xaxisMinorNticks value f
  | .xaxisMinorShowgrid value => Figure.xaxisMinorShowgrid value f
  | .xaxisMinorTick0 value => Figure.xaxisMinorTick0 value f
  | .xaxisMinorTickColor value => Figure.xaxisMinorTickColor value f
  | .xaxisMinorTickLength value => Figure.xaxisMinorTickLength value f
  | .xaxisMinorTickMode value => Figure.xaxisMinorTickMode value f
  | .xaxisMinorTicks value => Figure.xaxisMinorTicks value f
  | .xaxisMinorTickWidth value => Figure.xaxisMinorTickWidth value f
  | .xaxisMirror value => Figure.xaxisMirror value f
  | .xaxisNticks value => Figure.xaxisNticks value f
  | .xaxisOverlaying value => Figure.xaxisOverlaying value f
  | .xaxisPosition value => Figure.xaxisPosition value f
  | .xaxisRange l r => Figure.xaxisRange l r f
  | .xaxisRangeBreaksDvalue value => Figure.xaxisRangeBreaksDvalue value f
  | .xaxisRangeBreaksEnabled value => Figure.xaxisRangeBreaksEnabled value f
  | .xaxisRangeBreaksName value => Figure.xaxisRangeBreaksName value f
  | .xaxisRangeBreaksPattern value => Figure.xaxisRangeBreaksPattern value f
  | .xaxisRangeBreaksTemplateItemName value => Figure.xaxisRangeBreaksTemplateItemName value f
  | .xaxisRangeMode value => Figure.xaxisRangeMode value f
  | .xaxisRangeSelectorActiveColor value => Figure.xaxisRangeSelectorActiveColor value f
  | .xaxisRangeSelectorBackgroundColor value => Figure.xaxisRangeSelectorBackgroundColor value f
  | .xaxisRangeSelectorBorderColor value => Figure.xaxisRangeSelectorBorderColor value f
  | .xaxisRangeSelectorBorderWidth value => Figure.xaxisRangeSelectorBorderWidth value f
  | .xaxisRangeSelectorCount value => Figure.xaxisRangeSelectorCount value f
  | .xaxisRangeSelectorLabel value => Figure.xaxisRangeSelectorLabel value f
  | .xaxisRangeSelectorName value => Figure.xaxisRangeSelectorName value f
  | .xaxisRangeSelectorStep value => Figure.xaxisRangeSelectorStep value f
  | .xaxisRangeSelectorStepMode value => Figure.xaxisRangeSelectorStepMode value f
  | .xaxisRangeSelectorTemplateItemName value => Figure.xaxisRangeSelectorTemplateItemName value f
  | .xaxisRangeSelectorFontColor value => Figure.xaxisRangeSelectorFontColor value f
  | .xaxisRangeSelectorFontFamily value => Figure.xaxisRangeSelectorFontFamily value f
  | .xaxisRangeSelectorFontSize value => Figure.xaxisRangeSelectorFontSize value f
  | .xaxisRangeSelectorVisible value => Figure.xaxisRangeSelectorVisible value f
  | .xaxisRangeSelectorX value => Figure.xaxisRangeSelectorX value f
  | .xaxisRangeSelectorXanchor value => Figure.xaxisRangeSelectorXanchor value f
  | .xaxisRangeSelectorY value => Figure.xaxisRangeSelectorY value f
  | .xaxisRangeSelectorYanchor value => Figure.xaxisRangeSelectorYanchor value f
  | .xaxisRangeSliderAutoRange value => Figure.xaxisRangeSliderAutoRange value f
  | .xaxisRangeSliderBackgroundColor value => Figure.xaxisRangeSliderBackgroundColor value f
  | .xaxisRangeSliderBorderColor value => Figure.xaxisRangeSliderBorderColor value f
  | .xaxisRangeSliderBorderWidth value => Figure.xaxisRangeSliderBorderWidth value f
  | .xaxisRangeSliderThickness value => Figure.xaxisRangeSliderThickness value f
  | .xaxisRangeSliderVisible value => Figure.xaxisRangeSliderVisible value f
  | .xaxisRangeSliderYaxisRange l r => Figure.xaxisRangeSliderYaxisRange l r f
  | .xaxisRangeSliderYaxisRangeMode value => Figure.xaxisRangeSliderYaxisRangeMode value f
  | .xaxisScaleAnchor value => Figure.xaxisScaleAnchor value f
  | .xaxisScaleRatio value => Figure.xaxisScaleRatio value f
  | .xaxisSeparateThousands value => Figure.xaxisSeparateThousands value f
  | .xaxisShowDividers value => Figure.xaxisShowDividers value f
  | .xaxisShowExponent value => Figure.xaxisShowExponent value f
  | .xaxisShowGrid value => Figure.xaxisShowGrid value f
  | .xaxisShowLine value => Figure.xaxisShowLine value f
  | .xaxisShowSpikes value => Figure.xaxisShowSpikes value f
  | .xaxisShowTickLabels value => Figure.xaxisShowTickLabels value f
  | .xaxisShowTickPrefix value => Figure.xaxisShowTickPrefix value f
  | .xaxisShowTickSuffix value => Figure.xaxisShowTickSuffix value f
  | .xaxisSide value => Figure.xaxisSide value f
  | .xaxisSpikeColor value => Figure.xaxisSpikeColor value f
  | .xaxisSpikeDash value => Figure.xaxisSpikeDash value f
  | .xaxisSpikeMode value => Figure.xaxisSpikeMode value f
  | .xaxisSpikeSnap value => Figure.xaxisSpikeSnap value f
  | .xaxisSpikeThickness value => Figure.xaxisSpikeThickness value f
  | .xaxisTick0 value => Figure.xaxisTick0 value f
  | .xaxisTickAngle value => Figure.xaxisTickAngle value f
  | .xaxisTickColor value => Figure.xaxisTickColor value f
  | .xaxisTickFontColor value => Figure.xaxisTickFontColor value f
  | .xaxisTickFontFamily value => Figure.xaxisTickFontFamily value f
  | .xaxisTickFontSize value => Figure.xaxisTickFontSize value f
  | .xaxisTickFormat value => Figure.xaxisTickFormat value f
  | .xaxisTickFormatStopsEnabled value => Figure.xaxisTickFormatStopsEnabled value f
  | .xaxisTickFormatStopsName value => Figure.xaxisTickFormatStopsName value f
  | .xaxisTickFormatStopsTemplateItemName value => Figure.xaxisTickFormatStopsTemplateItemName value f
  | .xaxisTickFormatStopsValue value => Figure.xaxisTickFormatStopsValue value f
  | .xaxisTickLabelMode value => Figure.xaxisTickLabelMode value f
  | .xaxisTickLabelOverflow value => Figure.xaxisTickLabelOverflow value f
  | .xaxisTickLabelPosition value => Figure.xaxisTickLabelPosition value f
  | .xaxisTickLabelStep value => Figure.xaxisTickLabelStep value f
  | .xaxisTickLength value => Figure.xaxisTickLength value f
  | .xaxisTickMode value => Figure.xaxisTickMode value f
  | .xaxisTickPrefix value => Figure.xaxisTickPrefix value f
  | .xaxisTicks value => Figure.xaxisTicks value f
  | .xaxisTickson value => Figure.xaxisTickson value f
  | .xaxisTickSuffix value => Figure.xaxisTickSuffix value f
  | .xaxisTickWidth value => Figure.xaxisTickWidth value f
  | .xaxisTitleFontColor value => Figure.xaxisTitleFontColor value f
  | .xaxisTitleFontFamily value => Figure.xaxisTitleFontFamily value f
  | .xaxisTitleFontSize value => Figure.xaxisTitleFontSize value f
  | .xaxisTitleStandoff value => Figure.xaxisTitleStandoff value f
  | .xaxisTitleText value => Figure.xaxisTitleText value f
  | .xaxisType value => Figure.xaxisType value f
  | .xaxisUirevision value => Figure.xaxisUirevision value f
  | .xaxisVisible value => Figure.xaxisVisible value f
  | .xaxisZeroLine value => Figure.xaxisZeroLine value f
  | .xaxisZeroLineColor value => Figure.xaxisZeroLineColor value f
  | .xaxisZeroLineWidth value => Figure.xaxisZeroLineWidth value f

/-- The dictionary key that each xaxis setter writes, as in Figure.cpp. -/
def XaxisSetter.key : XaxisSetter → String
  | .xaxisAnchor _ => "anchor"
  | .xaxisAutoMargin _ => "automargin"
  | .xaxisAutoRange _ => "autorange"
  | .xaxisAutoTypeNumbers _ => "autotypenumbers"
  | .xaxisCalendar _ => "calendar"
  | .xaxisCategoryOrder _ => "categoryorder"
  | .xaxisColor _ => "color"
  | .xaxisConstrain _ => "constrain"
  | .xaxisConstrainToward _ => "constraintoward"
  | .xaxisDividerColor _ => "dividercolor"
  | .xaxisDividerWidth _ => "dividerwidth"
  | .xaxisDtick _ => "dtick"
  | .xaxisExponentFormat _ => "exponentformat"
  | .xaxisFixedRange _ => "fixedrange"
  | .xaxisGridColor _ => "gridcolor"
  | .xaxisGridDash _ => "griddash"
  | .xaxisGridWidth _ => "gridwidth"
  | .xaxisHoverFormat _ => "hoverformat"
  | .xaxisLayer _ => "layer"
  | .xaxisLineColor _ => "linecolor"
  | .xaxisLineWidth _ => "linewidth"
  | .xaxisMatches _ => "matches"
  | .xaxisMinExponent _ => "minexponent"
  | .xaxisMinorDtick _ => "minor_dtick"
  | .xaxisMinorGridColor _ => "minor_gridcolor"
  | .xaxisMinorGridDash _ => "minor_griddash"
  | .xaxisMinorGridWidth _ => "minor_gridwidth"
  | .xaxisMinorNticks _ => "minor_nticks"
  | .xaxisMinorShowgrid _ => "minor_showgrid"
  | .xaxisMinorTick0 _ => "minor_tick0"
  | .xaxisMinorTickColor _ => "minor_tickcolor"
  | .xaxisMinorTickLength _ => "minor_ticklen"
  | .xaxisMinorTickMode _ => "minor_tickmode"
  | .xaxisMinorTicks _ => "minor_ticks"
  | .xaxisMinorTickWidth _ => "minor_tickwidth"
  | .xaxisMirror _ => "mirror"
  | .xaxisNticks _ => "nticks"
  | .xaxisOverlaying _ => "overlaying"
  | .xaxisPosition _ => "position"
  | .xaxisRange _ _ => "range"
  | .xaxisRangeBreaksDvalue _ => "rangebreaks_dvalue"
  | .xaxisRangeBreaksEnabled _ => "rangebreaks_enabled"
  | .xaxisRangeBreaksName _ => "rangebreaks_name"
  | .xaxisRangeBreaksPattern _ => "rangebreaks_pattern"
  | .xaxisRangeBreaksTemplateItemName _ => "rangebreaks_templateitemname"
  | .xaxisRangeMode _ => "rangemode"
  | .xaxisRangeSelectorActiveColor _ => "rangeselector_activecolor"
  | .xaxisRangeSelectorBackgroundColor _ => "rangeselector_bgcolor"
  | .xaxisRangeSelectorBorderColor _ => "rangeselector_bordercolor"
  | .xaxisRangeSelectorBorderWidth _ => "rangeselector_borderwidth"
  | .xaxisRangeSelectorCount _ => "rangeselector_count"
  | .xaxisRangeSelectorLabel _ => "rangeselector_label"
  | .xaxisRangeSelectorName _ => "rangeselector_name"
  | .xaxisRangeSelectorStep _ => "rangeselector_step"
  | .xaxisRangeSelectorStepMode _ => "rangeselector_stepmode"
  | .xaxisRangeSelectorTemplateItemName _ => "rangeselector_templateitemname"
  | .xaxisRangeSelectorFontColor _ => "rangeselector_font_color"
  | .xaxisRangeSelectorFontFamily _ => "rangeselector_font_family"
  | .xaxisRangeSelectorFontSize _ => "rangeselector_font_size"
  | .xaxisRangeSelectorVisible _ => "rangeselector_visible"
  | .xaxisRangeSelectorX _ => "rangeselector_x"
  | .xaxisRangeSelectorXanchor _ => "rangeselector_xanchor"
  | .xaxisRangeSelectorY _ => "rangeselector_y"
  | .xaxisRangeSelectorYanchor _ => "rangeselector_yanchor"
  | .xaxisRangeSliderAutoRange _ => "rangeslider_autorange"
  | .xaxisRangeSliderBackgroundColor _ => "rangeslider_bgcolor"
  | .xaxisRangeSliderBorderColor _ => "rangeslider_bordercolor"
  | .xaxisRangeSliderBorderWidth _ => "rangeslider_borderwidth"
  | .xaxisRangeSliderThickness _ => "rangeslider_thickness"
  | .xaxisRangeSliderVisible _ => "rangeslider_visible"
  | .xaxisRangeSliderYaxisRange _ _ => "rangeslider_yaxis_range"
  | .xaxisRangeSliderYaxisRangeMode _ => "rangeslider_yaxis_rangemode"
  | .xaxisScaleAnchor _ => "scaleanchor"
  | .xaxisScaleRatio _ => "scaleratio"
  | .xaxisSeparateThousands _ => "separatethousands"
  | .xaxisShowDividers _ => "showdividers"
  | .xaxisShowExponent _ => "showexponent"
  | .xaxisShowGrid _ => "showgrid"
  | .xaxisShowLine _ => "showline"
  | .xaxisShowSpikes _ => "showspikes"
  | .xaxisShowTickLabels _ => "showticklabels"
  | .xaxisShowTickPrefix _ => "showtickprefix"
  | .xaxisShowTickSuffix _ => "showticksuffix"
  | .xaxisSide _ => "side"
  | .xaxisSpikeColor _ => "spikecolor"
  | .xaxisSpikeDash _ => "spikedash"
  | .xaxisSpikeMode _ => "spikemode"
  | .xaxisSpikeSnap _ => "spikesnap"
  | .xaxisSpikeThickness _ => "spikethickness"
  | .xaxisTick0 _ => "tick0"
  | .xaxisTickAngle _ => "tickangle"
  | .xaxisTickColor _ => "tickcolor"
  | .xaxisTickFontColor _ => "tickfont_color"
  | .xaxisTickFontFamily _ => "tickfont_family"
  | .xaxisTickFontSize _ => "tickfont_size"
  | .xaxisTickFormat _ => "tickformat"
  | .xaxisTickFormatStopsEnabled _ => "tickformatstops_enabled"
  | .xaxisTickFormatStopsName _ => "tickformatstops_name"
  | .xaxisTickFormatStopsTemplateItemName _ => "tickformatstops_templateitemname"
  | .xaxisTickFormatStopsValue _ => "tickformatstops_value"
  | .xaxisTickLabelMode _ => "ticklabelmode"
  | .xaxisTickLabelOverflow _ => "ticklabeloverflow"
  | .xaxisTickLabelPosition _ => "ticklabelposition"
  | .xaxisTickLabelStep _ => "ticklabelstep"
  | .xaxisTickLength _ => "ticklen"
  | .xaxisTickMode _ => "tickmode"
  | .xaxisTickPrefix _ => "tickprefix"
  | .xaxisTicks _ => "ticks"
  | .xaxisTickson _ => "tickson"
  | .xaxisTickSuffix _ => "ticksuffix"
  | .xaxisTickWidth _ => "tickwidth"
  | .xaxisTitleFontColor _ => "title_font_color"
  | .xaxisTitleFontFamily _ => "title_font_family"
  | .xaxisTitleFontSize _ => "title_font_size"
  | .xaxisTitleStandoff _ => "title_standoff"
  | .xaxisTitleText _ => "title_text"
  | .xaxisType _ => "type"
  | .xaxisUirevision _ => "uirevision"
  | .xaxisVisible _ => "visible"
  | .xaxisZeroLine _ => "zeroline"
  | .xaxisZeroLineColor _ => "zerolinecolor"
  | .xaxisZeroLineWidth _ => "zerolinewidth"

/-- The stored value for each xaxis setter. -/
def XaxisSetter.val : XaxisSetter → PyValue
  | .xaxisAnchor value => PyValue.str value
  | .xaxisAutoMargin value => PyValue.str value
  | .xaxisAutoRange value => PyValue.str value
  | .xaxisAutoTypeNumbers value => PyValue.str value
  | .xaxisCalendar value => PyValue.str value
  | .xaxisCategoryOrder value => PyValue.str value
  | .xaxisColor value => PyValue.str value
  | .xaxisConstrain value => PyValue.str value
  | .xaxisConstrainToward value => PyValue.str value
  | .xaxisDividerColor value => PyValue.str value
  | .xaxisDividerWidth value => PyValue.int value
  | .xaxisDtick value => PyValue.str value
  | .xaxisExponentFormat value => PyValue.str value
  | .xaxisFixedRange value => PyValue.str value
  | .xaxisGridColor value => PyValue.str value
  | .xaxisGridDash value => PyValue.str value
  | .xaxisGridWidth value => PyValue.int value
  | .xaxisHoverFormat value => PyValue.str value
  | .xaxisLayer value => PyValue.str value
  | .xaxisLineColor value => PyValue.str value
  | .xaxisLineWidth value => PyValue.int value
  | .xaxisMatches value => PyValue.str value
  | .xaxisMinExponent value => PyValue.int value
  | .xaxisMinorDtick value => PyValue.str value
  | .xaxisMinorGridColor value => PyValue.str value
  | .xaxisMinorGridDash value => PyValue.str value
  | .xaxisMinorGridWidth value => PyValue.int value
  | .xaxisMinorNticks value => PyValue.str value
  | .xaxisMinorShowgrid value => PyValue.str value
  | .xaxisMinorTick0 value => PyValue.str value
  | .xaxisMinorTickColor value => PyValue.str value
  | .xaxisMinorTickLength value => PyValue.int value
  | .xaxisMinorTickMode value => PyValue.str value
  | .xaxisMinorTicks value => PyValue.str value
  | .xaxisMinorTickWidth value => PyValue.int value
  | .xaxisMirror value => PyValue.str value
  | .xaxisNticks value => PyValue.str value
  | .xaxisOverlaying value => PyValue.str value
  | .xaxisPosition value => PyValue.int value
  | .xaxisRange l r => createRange l r
  | .xaxisRangeBreaksDvalue value => PyValue.int value
  | .xaxisRangeBreaksEnabled value => PyValue.str value
  | .xaxisRangeBreaksName value => PyValue.str value
  | .xaxisRangeBreaksPattern value => PyValue.str value
  | .xaxisRangeBreaksTemplateItemName value => PyValue.str value
  | .xaxisRangeMode value => PyValue.str value
  | .xaxisRangeSelectorActiveColor value => PyValue.str value
  | .xaxisRangeSelectorBackgroundColor value => PyValue.str value
  | .xaxisRangeSelectorBorderColor value => PyValue.str value
  | .xaxisRangeSelectorBorderWidth value => PyValue.int value
  | .xaxisRangeSelectorCount value => PyValue.int value
  | .xaxisRangeSelectorLabel value => PyValue.str value
  | .xaxisRangeSelectorName value => PyValue.str value
  | .xaxisRangeSelectorStep value => PyValue.str value
  | .xaxisRangeSelectorStepMode value => PyValue.str value
  | .xaxisRangeSelectorTemplateItemName value => PyValue.str value
  | .xaxisRangeSelectorFontColor value => PyValue.str value
  | .xaxisRangeSelectorFontFamily value => PyValue.str value
  | .xaxisRangeSelectorFontSize value => PyValue.int value
  | .xaxisRangeSelectorVisible value => PyValue.str value
  | .xaxisRangeSelectorX value => PyValue.int value
  | .xaxisRangeSelectorXanchor value => PyValue.str value
  | .xaxisRangeSelectorY value => PyValue.int value
  | .xaxisRangeSelectorYanchor value => PyValue.str value
  | .xaxisRangeSliderAutoRange value => PyValue.str value
  | .xaxisRangeSliderBackgroundColor value => PyValue.str value
  | .xaxisRangeSliderBorderColor value => PyValue.str value
  | .xaxisRangeSliderBorderWidth value => PyValue.str value
  | .xaxisRangeSliderThickness value => PyValue.int value
  | .xaxisRangeSliderVisible value => PyValue.str value
  | .xaxisRangeSliderYaxisRange l r => createRange l r
  | .xaxisRangeSliderYaxisRangeMode value => PyValue.str value
  | .xaxisScaleAnchor value => PyValue.str value
  | .xaxisScaleRatio value => PyValue.int value
  | .xaxisSeparateThousands value => PyValue.str value
  | .xaxisShowDividers value => PyValue.str value
  | .xaxisShowExponent value => PyValue.str value
  | .xaxisShowGrid value => PyValue.str value
  | .xaxisShowLine value => PyValue.str value
  | .xaxisShowSpikes value => PyValue.str value
  | .xaxisShowTickLabels value => PyValue.str value
  | .xaxisShowTickPrefix value => PyValue.str value
  | .xaxisShowTickSuffix value => PyValue.str value
  | .xaxisSide value => PyValue.str value
  | .xaxisSpikeColor value => PyValue.str value
  | .xaxisSpikeDash value => PyValue.str value
  | .xaxisSpikeMode value => PyValue.str value
  | .xaxisSpikeSnap value => PyValue.str value
  | .xaxisSpikeThickness value => PyValue.int value
  | .xaxisTick0 value => PyValue.str value
  | .xaxisTickAngle value => PyValue.str value
  | .xaxisTickColor value => PyValue.str value
  | .xaxisTickFontColor value => PyValue.str value
  | .xaxisTickFontFamily value => PyValue.str value
  | .xaxisTickFontSize value => PyValue.int value
  | .xaxisTickFormat value => PyValue.str value
  | .xaxisTickFormatStopsEnabled value => PyValue.str value
  | .xaxisTickFormatStopsName value => PyValue.str value
  | .xaxisTickFormatStopsTemplateItemName value => PyValue.str value
  | .xaxisTickFormatStopsValue value => PyValue.str value
  | .xaxisTickLabelMode value => PyValue.str value
  | .xaxisTickLabelOverflow value => PyValue.str value
  | .xaxisTickLabelPosition value => PyValue.str value
  | .xaxisTickLabelStep value => PyValue.str value
  | .xaxisTickLength value => PyValue.int value
  | .xaxisTickMode value => PyValue.str value
  | .xaxisTickPrefix value => PyValue.str value
  | .xaxisTicks value => PyValue.str value
  | .xaxisTickson value => PyValue.str value
  | .xaxisTickSuffix value => PyValue.str value
  | .xaxisTickWidth value => PyValue.int value
  | .xaxisTitleFontColor value => PyValue.str value
  | .xaxisTitleFontFamily value => PyValue.str value
  | .xaxisTitleFontSize value => PyValue.int value
  | .xaxisTitleStandoff value => PyValue.int value
  | .xaxisTitleText value => PyValue.str value
  | .xaxisType value => PyValue.str value
  | .xaxisUirevision value => PyValue.str value
  | .xaxisVisible value => PyValue.str value
  | .xaxisZeroLine value => PyValue.str value
  | .xaxisZeroLineColor value => PyValue.str value
  | .xaxisZeroLineWidth value => PyValue.int value

/-- Enumeration of the Figure yaxis setter methods of Figure.cpp, each carrying its argument. -/
inductive YaxisSetter where
  | yaxisAnchor (value : String)
  | yaxisAutoMargin (value : String)
  | yaxisAutoRange (value : String)
  | yaxisAutoTypeNumbers (value : String)
  | yaxisCalendar (value : String)
  | yaxisCategoryOrder (value : String)
  | yaxisColor (value : String)
  | yaxisConstrain (value : String)
  | yaxisConstrainToward (value : String)
  | yaxisDividerColor (value : String)
  | yaxisDividerWidth (value : Int)
  | yaxisDtick (value : String)
  | yaxisExponentFormat (value : String)
  | yaxisFixedRange (value : String)
  | yaxisGridColor (value : String)
  | yaxisGridDash (value : String)
  | yaxisGridWidth (value : Int)
  | yaxisHoverFormat (value : String)
  | yaxisLayer (value : String)
  | yaxisLineColor (value : String)
  | yaxisLineWidth (value : Int)
  | yaxisMatches (value : String)
  | yaxisMinExponent (value : Int)
  | yaxisMinorDtick (value : String)
  | yaxisMinorGridColor (value : String)
  | yaxisMinorGridDash (value : String)
  | yaxisMinorGridWidth (value : Int)
  | yaxisMinorNticks (value : String)
  | yaxisMinorShowgrid (value : String)
  | yaxisMinorTick0 (value : String)
  | yaxisMinorTickColor (value : String)
  | yaxisMinorTickLength (value : Int)
  | yaxisMinorTickMode (value : String)
  | yaxisMinorTicks (value : String)
  | yaxisMinorTickWidth (value : Int)
  | yaxisMirror (value : String)
  | yaxisNticks (value : String)
  | yaxisOverlaying (value : String)
  | yaxisPosition (value : Int)
  | yaxisRange (l r : Rat)
  | yaxisRangeBreaksDvalue (value : Int)
  | yaxisRangeBreaksEnabled (value : String)
  | yaxisRangeBreaksName (value : String)
  | yaxisRangeBreaksPattern (value : String)
  | yaxisRangeBreaksTemplateItemName (value : String)
  | yaxisRangeMode (value : String)
  | yaxisRangeSelectorActiveColor (value : String)
  | yaxisRangeSelectorBackgroundColor (value : String)
  | yaxisRangeSelectorBorderColor (value : String)
  | yaxisRangeSelectorBorderWidth (value : Int)
  | yaxisRangeSelectorCount (value : Int)
  | yaxisRangeSelectorLabel (value : String)
  | yaxisRangeSelectorName (value : String)
  | yaxisRangeSelectorStep (value : String)
  | yaxisRangeSelectorStepMode (value : String)
  | yaxisRangeSelectorTemplateItemName (value : String)
  | yaxisRangeSelectorFontColor (value : String)
  | yaxisRangeSelectorFontFamily (value : String)
  | yaxisRangeSelectorFontSize (value : Int)
  | yaxisRangeSelectorVisible (value : String)
  | yaxisRangeSelectorX (value : Int)
  | yaxisRangeSelectorXanchor (value : String)
  | yaxisRangeSelectorY (value : Int)
  | yaxisRangeSelectorYanchor (value : String)
  | yaxisRangeSliderAutoRange (value : String)
  | yaxisRangeSliderBackgroundColor (value : String)
  | yaxisRangeSliderBorderColor (value : String)
  | yaxisRangeSliderBorderWidth (value : String)
  | yaxisRangeSliderThickness (value : Int)
  | yaxisRangeSliderVisible (value : String)
  | yaxisRangeSliderYaxisRange (l r : Rat)
  | yaxisRangeSliderYaxisRangeMode (value : String)
  | yaxisScaleAnchor (value : String)
  | yaxisScaleRatio (value : Int)
  | yaxisSeparateThousands (value : String)
  | yaxisShowDividers (value : String)
  | yaxisShowExponent (value : String)
  | yaxisShowGrid (value : String)
  | yaxisShowLine (value : String)
  | yaxisShowSpikes (value : String)
  | yaxisShowTickLabels (value : String)
  | yaxisShowTickPrefix (value : String)
  | yaxisShowTickSuffix (value : String)
  | yaxisSide (value : String)
  | yaxisSpikeColor (value : String)
  | yaxisSpikeDash (value : String)
  | yaxisSpikeMode (value : String)
  | yaxisSpikeSnap (value : String)
  | yaxisSpikeThickness (value : Int)
  | yaxisTick0 (value : String)
  | yaxisTickAngle (value : String)
  | yaxisTickColor (value : String)
  | yaxisTickFontColor (value : String)
  | yaxisTickFontFamily (value : String)
  | yaxisTickFontSize (value : Int)
  | yaxisTickFormat (value : String)
  | yaxisTickFormatStopsEnabled (value : String)
  | yaxisTickFormatStopsName (value : String)
  | yaxisTickFormatStopsTemplateItemName (value : String)
  | yaxisTickFormatStopsValue (value : String)
  | yaxisTickLabelMode (value : String)
  | yaxisTickLabelOverflow (value : String)
  | yaxisTickLabelPosition (value : String)
  | yaxisTickLabelStep (value : String)
  | yaxisTickLength (value : Int)
  | yaxisTickMode (value : String)
  | yaxisTickPrefix (value : String)
  | yaxisTicks (value : String)
  | yaxisTickson (value : String)
  | yaxisTickSuffix (value : String)
  | yaxisTickWidth (value : Int)
  | yaxisTitleFontColor (value : String)
  | yaxisTitleFontFamily (value : String)
  | yaxisTitleFontSize (value : Int)
  | yaxisTitleStandoff (value : Int)
  | yaxisTitleText (value : String)
  | yaxisType (value : String)
  | yaxisUirevision (value : String)
  | yaxisVisible (value : String)
  | yaxisZeroLine (value : String)
  | yaxisZeroLineColor (value : String)
  | yaxisZeroLineWidth (value : Int)

/-- Apply a yaxis setter to a figure, delegating to the corresponding Figure method. -/
def YaxisSetter.apply (s : YaxisSetter) (f : Figure) : Figure :=
  match s with
  | .yaxisAnchor value => Figure.yaxisAnchor value f
  | .yaxisAutoMargin value => Figure.yaxisAutoMargin value f
  | .yaxisAutoRange value => Figure.yaxisAutoRange value f
  | .yaxisAutoTypeNumbers value => Figure.yaxisAutoTypeNumbers value f
  | .yaxisCalendar value => Figure.yaxisCalendar value f
  | .yaxisCategoryOrder value => Figure.yaxisCategoryOrder value f
  | .yaxisColor value => Figure.yaxisColor value f
  | .yaxisConstrain value => Figure.yaxisConstrain value f
  | .yaxisConstrainToward value => Figure.yaxisConstrainToward value f
  | .yaxisDividerColor value => Figure.yaxisDividerColor value f
  | .yaxisDividerWidth value => Figure.yaxisDividerWidth value f
  | .yaxisDtick value => Figure.yaxisDtick value f
  | .yaxisExponentFormat value => Figure.yaxisExponentFormat value f
  | .yaxisFixedRange value => Figure.yaxisFixedRange value f
  | .yaxisGridColor value => Figure.yaxisGridColor value f
  | .yaxisGridDash value => Figure.yaxisGridDash value f
  | .yaxisGridWidth value => Figure.yaxisGridWidth value f
  | .yaxisHoverFormat value => Figure.yaxisHoverFormat value f
  | .yaxisLayer value => Figure.yaxisLayer value f
  | .yaxisLineColor value => Figure.yaxisLineColor value f
  | .yaxisLineWidth value => Figure.yaxisLineWidth value f
  | .yaxisMatches value => Figure.yaxisMatches value f
  | .yaxisMinExponent value => Figure.yaxisMinExponent value f
  | .yaxisMinorDtick value => Figure.yaxisMinorDtick value f
  | .yaxisMinorGridColor value => Figure.yaxisMinorGridColor value f
  | .yaxisMinorGridDash value => Figure.yaxisMinorGridDash value f
  | .yaxisMinorGridWidth value => Figure.yaxisMinorGridWidth value f
  | .yaxisMinorNticks value => Figure.yaxisMinorNticks value f
  | .yaxisMinorShowgrid value => Figure.yaxisMinorShowgrid value f
  | .yaxisMinorTick0 value => Figure.yaxisMinorTick0 value f
  | .yaxisMinorTickColor value => Figure.yaxisMinorTickColor value f
  | .yaxisMinorTickLength value => Figure.yaxisMinorTickLength value f
  | .yaxisMinorTickMode value => Figure.yaxisMinorTickMode value f
  | .yaxisMinorTicks value => Figure.yaxisMinorTicks value f
  | .yaxisMinorTickWidth value => Figure.yaxisMinorTickWidth value f
  | .yaxisMirror value => Figure.yaxisMirror value f
  | .yaxisNticks value => Figure.yaxisNticks value f
  | .yaxisOverlaying value => Figure.yaxisOverlaying value f
  | .yaxisPosition value => Figure.yaxisPosition value f
  | .yaxisRange l r => Figure.yaxisRange l r f
  | .yaxisRangeBreaksDvalue value => Figure.yaxisRangeBreaksDvalue value f
  | .yaxisRangeBreaksEnabled value => Figure.yaxisRangeBreaksEnabled value f
  | .yaxisRangeBreaksName value => Figure.yaxisRangeBreaksName value f
  | .yaxisRangeBreaksPattern value => Figure.yaxisRangeBreaksPattern value f
  | .yaxisRangeBreaksTemplateItemName value => Figure.yaxisRangeBreaksTemplateItemName value f
  | .yaxisRangeMode value => Figure.yaxisRangeMode value f
  | .yaxisRangeSelectorActiveColor value => Figure.yaxisRangeSelectorActiveColor value f
  | .yaxisRangeSelectorBackgroundColor value => Figure.yaxisRangeSelectorBackgroundColor value f
  | .yaxisRangeSelectorBorderColor value => Figure.yaxisRangeSelectorBorderColor value f
  | .yaxisRangeSelectorBorderWidth value => Figure.yaxisRangeSelectorBorderWidth value f
  | .yaxisRangeSelectorCount value => Figure.yaxisRangeSelectorCount value f
  | .yaxisRangeSelectorLabel value => Figure.yaxisRangeSelectorLabel value f
  | .yaxisRangeSelectorName value => Figure.yaxisRangeSelectorName value f
  | .yaxisRangeSelectorStep value => Figure.yaxisRangeSelectorStep value f
  | .yaxisRangeSelectorStepMode value => Figure.yaxisRangeSelectorStepMode value f
  | .yaxisRangeSelectorTemplateItemName value => Figure.yaxisRangeSelectorTemplateItemName value f
  | .yaxisRangeSelectorFontColor value => Figure.yaxisRangeSelectorFontColor value f
  | .yaxisRangeSelectorFontFamily value => Figure.yaxisRangeSelectorFontFamily value f
  | .yaxisRangeSelectorFontSize value => Figure.yaxisRangeSelectorFontSize value f
  | .yaxisRangeSelectorVisible value => Figure.yaxisRangeSelectorVisible value f
  | .yaxisRangeSelectorX value => Figure.yaxisRangeSelectorX value f
  | .yaxisRangeSelectorXanchor value => Figure.yaxisRangeSelectorXanchor value f
  | .yaxisRangeSelectorY value => Figure.yaxisRangeSelectorY value f
  | .yaxisRangeSelectorYanchor value => Figure.yaxisRangeSelectorYanchor value f
  | .yaxisRangeSliderAutoRange value => Figure.yaxisRangeSliderAutoRange value f
  | .yaxisRangeSliderBackgroundColor value => Figure.yaxisRangeSliderBackgroundColor value f
  | .yaxisRangeSliderBorderColor value => Figure.yaxisRangeSliderBorderColor value f
  | .yaxisRangeSliderBorderWidth value => Figure.yaxisRangeSliderBorderWidth value f
  | .yaxisRangeSliderThickness value => Figure.yaxisRangeSliderThickness value f
  | .yaxisRangeSliderVisible value => Figure.yaxisRangeSliderVisible value f
  | .yaxisRangeSliderYaxisRange l r => Figure.yaxisRangeSliderYaxisRange l r f
  | .yaxisRangeSliderYaxisRangeMode value => Figure.yaxisRangeSliderYaxisRangeMode value f
  | .yaxisScaleAnchor value => Figure.yaxisScaleAnchor value f
  | .yaxisScaleRatio value => Figure.yaxisScaleRatio value f
  | .yaxisSeparateThousands value => Figure.yaxisSeparateThousands value f
  | .yaxisShowDividers value => Figure.yaxisShowDividers value f
  | .yaxisShowExponent value => Figure.yaxisShowExponent value f
  | .yaxisShowGrid value => Figure.yaxisShowGrid value f
  | .yaxisShowLine value => Figure.yaxisShowLine value f
  | .yaxisShowSpikes value => Figure.yaxisShowSpikes value f
  | .yaxisShowTickLabels value => Figure.yaxisShowTickLabels value f
  | .yaxisShowTickPrefix value => Figure.yaxisShowTickPrefix value f
  | .yaxisShowTickSuffix value => Figure.yaxisShowTickSuffix value f
  | .yaxisSide value => Figure.yaxisSide value f
  | .yaxisSpikeColor value => Figure.yaxisSpikeColor value f
  | .yaxisSpikeDash value => Figure.yaxisSpikeDash value f
  | .yaxisSpikeMode value => Figure.yaxisSpikeMode value f
  | .yaxisSpikeSnap value => Figure.yaxisSpikeSnap value f
  | .yaxisSpikeThickness value => Figure.yaxisSpikeThickness value f
  | .yaxisTick0 value => Figure.yaxisTick0 value f
  | .yaxisTickAngle value => Figure.yaxisTickAngle value f
  | .yaxisTickColor value => Figure.yaxisTickColor value f
  | .yaxisTickFontColor value => Figure.yaxisTickFontColor value f
  | .yaxisTickFontFamily value => Figure.yaxisTickFontFamily value f
  | .yaxisTickFontSize value => Figure.yaxisTickFontSize value f
  | .yaxisTickFormat value => Figure.yaxisTickFormat value f
  | .yaxisTickFormatStopsEnabled value => Figure.yaxisTickFormatStopsEnabled value f
  | .yaxisTickFormatStopsName value => Figure.yaxisTickFormatStopsName value f
  | .yaxisTickFormatStopsTemplateItemName value => Figure.yaxisTickFormatStopsTemplateItemName value f
  | .yaxisTickFormatStopsValue value => Figure.yaxisTickFormatStopsValue value f
  | .yaxisTickLabelMode value => Figure.yaxisTickLabelMode value f
  | .yaxisTickLabelOverflow value => Figure.yaxisTickLabelOverflow value f
  | .yaxisTickLabelPosition value => Figure.yaxisTickLabelPosition value f
  | .yaxisTickLabelStep value => Figure.yaxisTickLabelStep value f
  | .yaxisTickLength value => Figure.yaxisTickLength value f
  | .yaxisTickMode value => Figure.yaxisTickMode value f
  | .yaxisTickPrefix value => Figure.yaxisTickPrefix value f
  | .yaxisTicks value => Figure.yaxisTicks value f
  | .yaxisTickson value => Figure.yaxisTickson value f
  | .yaxisTickSuffix value => Figure.yaxisTickSuffix value f
  | .yaxisTickWidth value => Figure.yaxisTickWidth value f
  | .yaxisTitleFontColor value => Figure.yaxisTitleFontColor value f
  | .yaxisTitleFontFamily value => Figure.yaxisTitleFontFamily value f
  | .yaxisTitleFontSize value => Figure.yaxisTitleFontSize value f
  | .yaxisTitleStandoff value => Figure.yaxisTitleStandoff value f
  | .yaxisTitleText value => Figure.yaxisTitleText value f
  | .yaxisType value => Figure.yaxisType value f
  | .yaxisUirevision value => Figure.yaxisUirevision value f
  | .yaxisVisible value => Figure.yaxisVisible value f
  | .yaxisZeroLine value => Figure.yaxisZeroLine value f
  | .yaxisZeroLineColor value => Figure.yaxisZeroLineColor value f
  | .yaxisZeroLineWidth value => Figure.yaxisZeroLineWidth value f

/-- The dictionary key that each yaxis setter writes, as in Figure.cpp. -/
def YaxisSetter.key : YaxisSetter → String
  | .yaxisAnchor _ => "anchor"
  | .yaxisAutoMargin _ => "automargin"
  | .yaxisAutoRange _ => "autorange"
  | .yaxisAutoTypeNumbers _ => "autotypenumbers"
  | .yaxisCalendar _ => "calendar"
  | .yaxisCategoryOrder _ => "categoryorder"
  | .yaxisColor _ => "color"
  | .yaxisConstrain _ => "constrain"
  | .yaxisConstrainToward _ => "constraintoward"
  | .yaxisDividerColor _ => "dividercolor"
  | .yaxisDividerWidth _ => "dividerwidth"
  | .yaxisDtick _ => "dtick"
  | .yaxisExponentFormat _ => "exponentformat"
  | .yaxisFixedRange _ => "fixedrange"
  | .yaxisGridColor _ => "gridcolor"
  | .yaxisGridDash _ => "griddash"
  | .yaxisGridWidth _ => "gridwidth"
  | .yaxisHoverFormat _ => "hoverformat"
  | .yaxisLayer _ => "layer"
  | .yaxisLineColor _ => "linecolor"
  | .yaxisLineWidth _ => "linewidth"
  | .yaxisMatches _ => "matches"
  | .yaxisMinExponent _ => "minexponent"
  | .yaxisMinorDtick _ => "minor_dtick"
  | .yaxisMinorGridColor _ => "minor_gridcolor"
  | .yaxisMinorGridDash _ => "minor_griddash"
  | .yaxisMinorGridWidth _ => "minor_gridwidth"
  | .yaxisMinorNticks _ => "minor_nticks"
  | .yaxisMinorShowgrid _ => "minor_showgrid"
  | .yaxisMinorTick0 _ => "minor_tick0"
  | .yaxisMinorTickColor _ => "minor_tickcolor"
  | .yaxisMinorTickLength _ => "minor_ticklen"
  | .yaxisMinorTickMode _ => "minor_tickmode"
  | .yaxisMinorTicks _ => "minor_ticks"
  | .yaxisMinorTickWidth _ => "minor_tickwidth"
  | .yaxisMirror _ => "mirror"
  | .yaxisNticks _ => "nticks"
  | .yaxisOverlaying _ => "overlaying"
  | .yaxisPosition _ => "position"
  | .yaxisRange _ _ => "range"
  | .yaxisRangeBreaksDvalue _ => "rangebreaks_dvalue"
  | .yaxisRangeBreaksEnabled _ => "rangebreaks_enabled"
  | .yaxisRangeBreaksName _ => "rangebreaks_name"
  | .yaxisRangeBreaksPattern _ => "rangebreaks_pattern"
  | .yaxisRangeBreaksTemplateItemName _ => "rangebreaks_templateitemname"
  | .yaxisRangeMode _ => "rangemode"
  | .yaxisRangeSelectorActiveColor _ => "rangeselector_activecolor"
  | .yaxisRangeSelectorBackgroundColor _ => "rangeselector_bgcolor"
  | .yaxisRangeSelectorBorderColor _ => "rangeselector_bordercolor"
  | .yaxisRangeSelectorBorderWidth _ => "rangeselector_borderwidth"
  | .yaxisRangeSelectorCount _ => "rangeselector_count"
  | .yaxisRangeSelectorLabel _ => "rangeselector_label"
  | .yaxisRangeSelectorName _ => "rangeselector_name"
  | .yaxisRangeSelectorStep _ => "rangeselector_step"
  | .yaxisRangeSelectorStepMode _ => "rangeselector_stepmode"
  | .yaxisRangeSelectorTemplateItemName _ => "rangeselector_templateitemname"
  | .yaxisRangeSelectorFontColor _ => "rangeselector_font_color"
  | .yaxisRangeSelectorFontFamily _ => "rangeselector_font_family"
  | .yaxisRangeSelectorFontSize _ => "rangeselector_font_size"
  | .yaxisRangeSelectorVisible _ => "rangeselector_visible"
  | .yaxisRangeSelectorX _ => "rangeselector_x"
  | .yaxisRangeSelectorXanchor _ => "rangeselector_xanchor"
  | .yaxisRangeSelectorY _ => "rangeselector_y"
  | .yaxisRangeSelectorYanchor _ => "rangeselector_yanchor"
  | .yaxisRangeSliderAutoRange _ => "rangeslider_autorange"
  | .yaxisRangeSliderBackgroundColor _ => "rangeslider_bgcolor"
  | .yaxisRangeSliderBorderColor _ => "rangeslider_bordercolor"
  | .yaxisRangeSliderBorderWidth _ => "rangeslider_borderwidth"
  | .yaxisRangeSliderThickness _ => "rangeslider_thickness"
  | .yaxisRangeSliderVisible _ => "rangeslider_visible"
  | .yaxisRangeSliderYaxisRange _ _ => "rangeslider_yaxis_range"
  | .yaxisRangeSliderYaxisRangeMode _ => "rangeslider_yaxis_rangemode"
  | .yaxisScaleAnchor _ => "scaleanchor"
  | .yaxisScaleRatio _ => "scaleratio"
  | .yaxisSeparateThousands _ => "separatethousands"
  | .yaxisShowDividers _ => "showdividers"
  | .yaxisShowExponent _ => "showexponent"
  | .yaxisShowGrid _ => "showgrid"
  | .yaxisShowLine _ => "showline"
  | .yaxisShowSpikes _ => "showspikes"
  | .yaxisShowTickLabels _ => "showticklabels"
  | .yaxisShowTickPrefix _ => "showtickprefix"
  | .yaxisShowTickSuffix _ => "showticksuffix"
  | .yaxisSide _ => "side"
  | .yaxisSpikeColor _ => "spikecolor"
  | .yaxisSpikeDash _ => "spikedash"
  | .yaxisSpikeMode _ => "spikemode"
  | .yaxisSpikeSnap _ => "spikesnap"
  | .yaxisSpikeThickness _ => "spikethickness"
  | .yaxisTick0 _ => "tick0"
  | .yaxisTickAngle _ => "tickangle"
  | .yaxisTickColor _ => "tickcolor"
  | .yaxisTickFontColor _ => "tickfont_color"
  | .yaxisTickFontFamily _ => "tickfont_family"
  | .yaxisTickFontSize _ => "tickfont_size"
  | .yaxisTickFormat _ => "tickformat"
  | .yaxisTickFormatStopsEnabled _ => "tickformatstops_enabled"
  | .yaxisTickFormatStopsName _ => "tickformatstops_name"
  | .yaxisTickFormatStopsTemplateItemName _ => "tickformatstops_templateitemname"
  | .yaxisTickFormatStopsValue _ => "tickformatstops_value"
  | .yaxisTickLabelMode _ => "ticklabelmode"
  | .yaxisTickLabelOverflow _ => "ticklabeloverflow"
  | .yaxisTickLabelPosition _ => "ticklabelposition"
  | .yaxisTickLabelStep _ => "ticklabelstep"
  | .yaxisTickLength _ => "ticklen"
  | .yaxisTickMode _ => "tickmode"
  | .yaxisTickPrefix _ => "tickprefix"
  | .yaxisTicks _ => "ticks"
  | .yaxisTickson _ => "tickson"
  | .yaxisTickSuffix _ => "ticksuffix"
  | .yaxisTickWidth _ => "tickwidth"
  | .yaxisTitleFontColor _ => "title_font_color"
  | .yaxisTitleFontFamily _ => "title_font_family"
  | .yaxisTitleFontSize _ => "title_font_size"
  | .yaxisTitleStandoff _ => "title_standoff"
  | .yaxisTitleText _ => "title_text"
  | .yaxisType _ => "type"
  | .yaxisUirevision _ => "uirevision"
  | .yaxisVisible _ => "visible"
  | .yaxisZeroLine _ => "zeroline"
  | .yaxisZeroLineColor _ => "zerolinecolor"
  | .yaxisZeroLineWidth _ => "zerolinewidth"

/-- The stored value for each yaxis setter. -/
def YaxisSetter.val : YaxisSetter → PyValue
  | .yaxisAnchor value => PyValue.str value
  | .yaxisAutoMargin value => PyValue.str value
  | .yaxisAutoRange value => PyValue.str value
  | .yaxisAutoTypeNumbers value => PyValue.str value
  | .yaxisCalendar value => PyValue.str value
  | .yaxisCategoryOrder value => PyValue.str value
  | .yaxisColor value => PyValue.str value
  | .yaxisConstrain value => PyValue.str value
  | .yaxisConstrainToward value => PyValue.str value
  | .yaxisDividerColor value => PyValue.str value
  | .yaxisDividerWidth value => PyValue.int value
  | .yaxisDtick value => PyValue.str value
  | .yaxisExponentFormat value => PyValue.str value
  | .yaxisFixedRange value => PyValue.str value
  | .yaxisGridColor value => PyValue.str value
  | .yaxisGridDash value => PyValue.str value
  | .yaxisGridWidth value => PyValue.int value
  | .yaxisHoverFormat value => PyValue.str value
  | .yaxisLayer value => PyValue.str value
  | .yaxisLineColor value => PyValue.str value
  | .yaxisLineWidth value => PyValue.int value
  | .yaxisMatches value => PyValue.str value
  | .yaxisMinExponent value => PyValue.int value
  | .yaxisMinorDtick value => PyValue.str value
  | .yaxisMinorGridColor value => PyValue.str value
  | .yaxisMinorGridDash value => PyValue.str value
  | .yaxisMinorGridWidth value => PyValue.int value
  | .yaxisMinorNticks value => PyValue.str value
  | .yaxisMinorShowgrid value => PyValue.str value
  | .yaxisMinorTick0 value => PyValue.str value
  | .yaxisMinorTickColor value => PyValue.str value
  | .yaxisMinorTickLength value => PyValue.int value
  | .yaxisMinorTickMode value => PyValue.str value
  | .yaxisMinorTicks value => PyValue.str value
  | .yaxisMinorTickWidth value => PyValue.int value
  | .yaxisMirror value => PyValue.str value
  | .yaxisNticks value => PyValue.str value
  | .yaxisOverlaying value => PyValue.str value
  | .yaxisPosition value => PyValue.int value
  | .yaxisRange l r => createRange l r
  | .yaxisRangeBreaksDvalue value => PyValue.int value
  | .yaxisRangeBreaksEnabled value => PyValue.str value
  | .yaxisRangeBreaksName value => PyValue.str value
  | .yaxisRangeBreaksPattern value => PyValue.str value
  | .yaxisRangeBreaksTemplateItemName value => PyValue.str value
  | .yaxisRangeMode value => PyValue.str value
  | .yaxisRangeSelectorActiveColor value => PyValue.str value
  | .yaxisRangeSelectorBackgroundColor value => PyValue.str value
  | .yaxisRangeSelectorBorderColor value => PyValue.str value
  | .yaxisRangeSelectorBorderWidth value => PyValue.int value
  | .yaxisRangeSelectorCount value => PyValue.int value
  | .yaxisRangeSelectorLabel value => PyValue.str value
  | .yaxisRangeSelectorName value => PyValue.str value
  | .yaxisRangeSelectorStep value => PyValue.str value
  | .yaxisRangeSelectorStepMode value => PyValue.str value
  | .yaxisRangeSelectorTemplateItemName value => PyValue.str value
  | .yaxisRangeSelectorFontColor value => PyValue.str value
  | .yaxisRangeSelectorFontFamily value => PyValue.str value
  | .yaxisRangeSelectorFontSize value => PyValue.int value
  | .yaxisRangeSelectorVisible value => PyValue.str value
  | .yaxisRangeSelectorX value => PyValue.int value
  | .yaxisRangeSelectorXanchor value => PyValue.str value
  | .yaxisRangeSelectorY value => PyValue.int value
  | .yaxisRangeSelectorYanchor value => PyValue.str value
  | .yaxisRangeSliderAutoRange value => PyValue.str value
  | .yaxisRangeSliderBackgroundColor value => PyValue.str value
  | .yaxisRangeSliderBorderColor value => PyValue.str value
  | .yaxisRangeSliderBorderWidth value => PyValue.str value
  | .yaxisRangeSliderThickness value => PyValue.int value
  | .yaxisRangeSliderVisible value => PyValue.str value
  | .yaxisRangeSliderYaxisRange l r => createRange l r
  | .yaxisRangeSliderYaxisRangeMode value => PyValue.str value
  | .yaxisScaleAnchor value => PyValue.str value
  | .yaxisScaleRatio value => PyValue.int value
  | .yaxisSeparateThousands value => PyValue.str value
  | .yaxisShowDividers value => PyValue.str value
  | .yaxisShowExponent value => PyValue.str value
  | .yaxisShowGrid value => PyValue.str value
  | .yaxisShowLine value => PyValue.str value
  | .yaxisShowSpikes value => PyValue.str value
  | .yaxisShowTickLabels value => PyValue.str value
  | .yaxisShowTickPrefix value => PyValue.str value
  | .yaxisShowTickSuffix value => PyValue.str value
  | .yaxisSide value => PyValue.str value
  | .yaxisSpikeColor value => PyValue.str value
  | .yaxisSpikeDash value => PyValue.str value
  | .yaxisSpikeMode value => PyValue.str value
  | .yaxisSpikeSnap value => PyValue.str value
  | .yaxisSpikeThickness value => PyValue.int value
  | .yaxisTick0 value => PyValue.str value
  | .yaxisTickAngle value => PyValue.str value
  | .yaxisTickColor value => PyValue.str value
  | .yaxisTickFontColor value => PyValue.str value
  | .yaxisTickFontFamily value => PyValue.str value
  | .yaxisTickFontSize value => PyValue.int value
  | .yaxisTickFormat value => PyValue.str value
  | .yaxisTickFormatStopsEnabled value => PyValue.str value
  | .yaxisTickFormatStopsName value => PyValue.str value
  | .yaxisTickFormatStopsTemplateItemName value => PyValue.str value
  | .yaxisTickFormatStopsValue value => PyValue.str value
  | .yaxisTickLabelMode value => PyValue.str value
  | .yaxisTickLabelOverflow value => PyValue.str value
  | .yaxisTickLabelPosition value => PyValue.str value
  | .yaxisTickLabelStep value => PyValue.str value
  | .yaxisTickLength value => PyValue.int value
  | .yaxisTickMode value => PyValue.str value
  | .yaxisTickPrefix value => PyValue.str value
  | .yaxisTicks value => PyValue.str value
  | .yaxisTickson value => PyValue.str value
  | .yaxisTickSuffix value => PyValue.str value
  | .yaxisTickWidth value => PyValue.int value
  | .yaxisTitleFontColor value => PyValue.str value
  | .yaxisTitleFontFamily value => PyValue.str value
  | .yaxisTitleFontSize value => PyValue.int value
  | .yaxisTitleStandoff value => PyValue.int value
  | .yaxisTitleText value => PyValue.str value
  | .yaxisType value => PyValue.str value
  | .yaxisUirevision value => PyValue.str value
  | .yaxisVisible value => PyValue.str value
  | .yaxisZeroLine value => PyValue.str value
  | .yaxisZeroLineColor value => PyValue.str value
  | .yaxisZeroLineWidth value => PyValue.int value

/-- Convenience alias `Figure::title` of Figure.hpp, delegating to `titleText`. -/
def Figure.title (value : String) (f : Figure) : Figure := f.titleText value

/-- Convenience alias `Figure::legendTitle`, delegating to `legendTitleText`. -/
def Figure.legendTitle (value : String) (f : Figure) : Figure := f.legendTitleText value

/-- Convenience alias `Figure::xaxisTitle`, delegating to `xaxisTitleText`. -/
def Figure.xaxisTitle (value : String) (f : Figure) : Figure := f.xaxisTitleText value

/-- Convenience alias `Figure::yaxisTitle`, delegating to `yaxisTitleText`. -/
def Figure.yaxisTitle (value : String) (f : Figure) : Figure := f.yaxisTitleText value

/-- `Figure::xaxisScaleLinear()` of Figure.hpp: `return xaxisType("linear")`. -/
def Figure.xaxisScaleLinear (f : Figure) : Figure := f.xaxisType "linear"

/-- `Figure::xaxisScaleLog()` of Figure.hpp: `return xaxisType("log")`. -/
def Figure.xaxisScaleLog (f : Figure) : Figure := f.xaxisType "log"

/-- `Figure::xaxisTypeDate()` of Figure.hpp: `return xaxisType("date")`. -/
def Figure.xaxisTypeDate (f : Figure) : Figure := f.xaxisType "date"

/-- `Figure::yaxisScaleLinear()` of Figure.hpp: `return yaxisType("linear")`. -/
def Figure.yaxisScaleLinear (f : Figure) : Figure := f.yaxisType "linear"

/-- `Figure::yaxisScaleLog()` of Figure.hpp: `return yaxisType("log")`. -/
def Figure.yaxisScaleLog (f : Figure) : Figure := f.yaxisType "log"

/-- `Figure::yaxisTypeDate()` of Figure.hpp: `return yaxisType("date")`. -/
def Figure.yaxisTypeDate (f : Figure) : Figure := f.yaxisType "date"

/-- Line specifications (`class LineSpecs` of Specs.hpp).  `Scatter::line` stores
`value.dict()`; the body of that marshalling function is not among the sources,
so the marshalled Python value is kept as an opaque payload. -/
structure LineSpecs where
  dict : PyValue
deriving DecidableEq, Repr

/-- Marker specifications (`class MarkerSpecs` of Specs.hpp), with the marshalled
Python value of `value.dict()` kept as an opaque payload. -/
structure MarkerSpecs where
  dict : PyValue
deriving DecidableEq, Repr

/-- `class Scatter` of Scatter.hpp: the private `options` dictionary of one trace. -/
structure Scatter where
  options : PyDict PyValue
deriving DecidableEq, Repr

/-- The constructor `Scatter(x, y, name)` of Scatter.hpp: sets `options["x"]`,
`options["y"]`, `options["name"]` in this order on an empty dictionary. -/
def Scatter.make (x y : PyValue) (name : String) : Scatter :=
  ⟨((PyDict.set [] "x" x).set "y" y).set "name" (PyValue.str name)⟩

/-- `Scatter::x` of Scatter.hpp. -/
def Scatter.x (values : PyValue) (s : Scatter) : Scatter :=
  ⟨s.options.set "x" values⟩

/-- `Scatter::y` of Scatter.hpp. -/
def Scatter.y (values : PyValue) (s : Scatter) : Scatter :=
  ⟨s.options.set "y" values⟩

/-- `Scatter::name` of Scatter.hpp. -/
def Scatter.name (value : String) (s : Scatter) : Scatter :=
  ⟨s.options.set "name" (PyValue.str value)⟩

/-- `Scatter::mode` of Scatter.hpp. -/
def Scatter.mode (value : String) (s : Scatter) : Scatter :=
  ⟨s.options.set "mode" (PyValue.str value)⟩

/-- `Scatter::line` of Scatter.hpp: `options["line"] = value.dict()`. -/
def Scatter.line (value : LineSpecs) (s : Scatter) : Scatter :=
  ⟨s.options.set "line" value.dict⟩

/-- `Scatter::marker` of Scatter.hpp: `options["marker"] = value.dict()`. -/
def Scatter.marker (value : MarkerSpecs) (s : Scatter) : Scatter :=
  ⟨s.options.set "marker" value.dict⟩

/-- `Scatter::dict` of Scatter.hpp: returns the options dictionary. -/
def Scatter.dict (s : Scatter) : PyDict PyValue := s.options

/-- One call marshalled from the wrapper into the backend plotly figure object. -/
inductive BackendCall where
  | update_layout (d : PyDict PyValue)
  | update_xaxes (d : PyDict PyValue)
  | update_yaxes (d : PyDict PyValue)
  | show
  | write_image (file : String) (width height : Int) (scale : Rat)
  | add_trace (d : PyDict PyValue)
deriving DecidableEq, Repr

/-- `DEFAULT_FIGURE_WIDTH` of Default.hpp. -/
def DEFAULT_FIGURE_WIDTH : Int := 800

/-- `DEFAULT_FIGURE_HEIGHT` of Default.hpp. -/
def DEFAULT_FIGURE_HEIGHT : Int := 500

/-- `DEFAULT_FIGURE_SCALE` of Default.hpp. -/
def DEFAULT_FIGURE_SCALE : Rat := 1

/-- `Figure::show()` of Figure.cpp: marshals `update_layout(layout)`,
`update_xaxes(xaxis)`, `update_yaxes(yaxis)` and then `show()`, statement by
statement in this order.  The method is const: the figure state is returned
unchanged alongside the sequence of marshalled calls. -/
def Figure.show (f : Figure) : Figure × List BackendCall :=
  (f, [.update_layout f.layout, .update_xaxes f.xaxis, .update_yaxes f.yaxis, .show])

/-- `Figure::save(filename, width, height, scale)` of Figure.cpp: marshals
`update_layout(layout)`, `update_xaxes(xaxis)`, `update_yaxes(yaxis)` and then
`write_image(filename, width, height, scale)`, in this order; const as well. -/
def Figure.save (filename : String) (width height : Int) (scale : Rat) (f : Figure) :
    Figure × List BackendCall :=
  (f, [.update_layout f.layout, .update_xaxes f.xaxis, .update_yaxes f.yaxis,
       .write_image filename width height scale])

/-- `Figure::draw(scatter)` of Figure.hpp: `fig.attr("add_trace")(scatter.dict())`,
which appends one trace to the backend figure object. -/
def Figure.draw (scatter : Scatter) (f : Figure) : Figure × List BackendCall :=
  ({ f with traces := f.traces ++ [scatter.dict] }, [.add_trace scatter.dict])

/-- `Figure::drawLine(x, y, name, line)` of Figure.hpp:
`draw(Scatter(x, y, name).line(line))`. -/
def Figure.drawLine (x y : PyValue) (name : String) (line : LineSpecs) (f : Figure) :
    Figure × List BackendCall :=
  f.draw ((Scatter.make x y name).line line)

/-- `Figure::drawLineWithMarkers(x, y, name, line, marker)` of Figure.hpp:
`draw(Scatter(x, y, name).mode("lines+markers").line(line).marker(marker))`. -/
def Figure.drawLineWithMarkers (x y : PyValue) (name : String) (line : LineSpecs)
    (marker : MarkerSpecs) (f : Figure) : Figure × List BackendCall :=
  f.draw ((((Scatter.make x y name).mode "lines+markers").line line).marker marker)

/-- `Figure::drawMarkers(x, y, name, marker)` of Figure.hpp:
`draw(Scatter(x, y, name).mode("markers").marker(marker))`. -/
def Figure.drawMarkers (x y : PyValue) (name : String) (marker : MarkerSpecs)
    (f : Figure) : Figure × List BackendCall :=
  f.draw (((Scatter.make x y name).mode "markers").marker marker)

/-- The interpreter-side global state of the bridge in Plotly.cpp:
whether the Python interpreter is running (`Py_IsInitialized`), whether a
`py::scoped_interpreter` guard has been allocated, whether the function-local
`static PythonInit pyinit` of `detail::getPythonModule` has been constructed,
how many times the `PythonInit` constructor body (imports plus init script,
which installs the default "reaktplot" template) has run, and the interpreter's
globals mapping names to modules. -/
structure PyState where
  pyInitialized : Bool
  guardAllocated : Bool
  staticDone : Bool
  initRuns : Nat
  globals : PyDict String
deriving DecidableEq, Repr

/-- The constructor of `detail::PythonInit` (Plotly.cpp): the guard is allocated
only if the interpreter is not already initialized (which starts it); then the
three plotly modules are imported into globals and the init script runs. -/
def PythonInit.construct (s : PyState) : PyState :=
  let s1 := if s.pyInitialized then s
            else { s with pyInitialized := true, guardAllocated := true }
  { s1 with
    initRuns := s1.initRuns + 1,
    globals := ((s1.globals.set "ply4rkp" "plotly").set
                  "pgo4rkp" "plotly.graph_objects").set "pio4rkp" "plotly.io" }

/-- `detail::getPythonModule(name)` of Plotly.cpp: `static PythonInit pyinit;`
constructs the singleton on first control flow through the declaration only;
then `py::globals()[name]` is returned. -/
def getPythonModule (name : String) (s : PyState) : PyState × Option String :=
  if s.staticDone then (s, s.globals.get? name)
  else
    let s1 := { PythonInit.construct s with staticDone := true }
    (s1, s1.globals.get? name)

/-- One of the three module accessors of `PlotlyModules` (Plotly.hpp). -/
inductive ModuleCall where
  | ply
  | pio
  | pgo
deriving DecidableEq, Repr

/-- The globals name each accessor requests (Plotly.cpp lines 117-130). -/
def ModuleCall.argName : ModuleCall → String
  | .ply => "ply4rkp"
  | .pio => "pio4rkp"
  | .pgo => "pgo4rkp"

/-- The plotly module each accessor is documented to return. -/
def ModuleCall.moduleName : ModuleCall → String
  | .ply => "plotly"
  | .pio => "plotly.io"
  | .pgo => "plotly.graph_objects"

/-- `PlotlyModules::ply/pio/pgo` of Plotly.cpp: each delegates to
`detail::getPythonModule` with its module's globals name. -/
def PlotlyModules.call (c : ModuleCall) (s : PyState) : PyState × Option String :=
  getPythonModule c.argName s

/-- Run a sequence of PlotlyModules accessor calls, threading the interpreter
state and collecting the returned modules. -/
def runModuleCalls : List ModuleCall → PyState → PyState × List (Option String)
  | [], s => (s, [])
  | c :: cs, s =>
      let r := PlotlyModules.call c s
      let rest := runModuleCalls cs r.1
      (rest.1, r.2 :: rest.2)

/-- Execute a sequence of marshalled backend calls against a fallible backend.
The wrapper contains no try/catch, fallback or retry (Figure.cpp, Plotly.cpp):
execution stops at the first raised error, which propagates as is; the second
component records exactly the calls that were attempted, in order. -/
def runCallsTrace (backend : BackendCall → Except String Unit) :
    List BackendCall → Except String Unit × List BackendCall
  | [] => (.ok (), [])
  | c :: cs =>
      match backend c with
      | .error e => (.error e, [c])
      | .ok _ =>
          let r := runCallsTrace backend cs
          (r.1, c :: r.2)

/-- `linspace(x0, x1, numintervals)` of Array.hpp: `numintervals + 1` values,
the i-th being `x0 + i * (x1 - x0) / numintervals`.  The double arithmetic is
modelled exactly over the rationals. -/
def linspace (x0 x1 : Rat) (numintervals : Nat) : List Rat :=
  (List.range (numintervals + 1)).map fun (i : Nat) =>
    x0 + (i : Rat) * (x1 - x0) / (numintervals : Rat)

/-- The element count of `range(x0, x1)` of Array.hpp: the `int` expression
`x1 - x0 + 1` is passed to `std::valarray<U> result(...)` whose size parameter
is `std::size_t`, so the value is converted modulo 2^64. -/
def rangeSize (x0 x1 : Int) : Nat := ((x1 - x0 + 1) % (2 ^ 64 : Int)).toNat

/-- `range(x0, x1)` of Array.hpp.  In the loop body `result[i] = x0 + i * incr`
the index `i` has type `std::size_t`, so the whole expression is computed in
unsigned 64-bit arithmetic, i.e. modulo 2^64 (each element is then converted to
double, which is exact for the magnitudes quantified over in the theorems). -/
def range (x0 x1 : Int) : List Int :=
  (List.range (rangeSize x0 x1)).map fun (i : Nat) =>
    (x0 + (i : Int) * (if x1 > x0 then 1 else -1)) % (2 ^ 64 : Int)

/-- Dictionary state agreement between two figures: the three attribute
dictionaries agree as key-value mappings and the traces agree exactly. -/
def Figure.SameDicts (f1 f2 : Figure) : Prop :=
  f1.layout.Equiv f2.layout ∧ f1.xaxis.Equiv f2.xaxis ∧ f1.yaxis.Equiv f2.yaxis ∧
  f1.traces = f2.traces

/-- Whether a marshalled value is a Python integer value. -/
def isIntValue : PyValue → Bool
  | .int _ => true
  | _ => false

theorem LayoutSetter.apply_eq_layout (s : LayoutSetter) (f : Figure) :
    s.apply f = { f with layout := f.layout.set s.key s.val } := by
  cases s <;> rfl

theorem XaxisSetter.apply_eq_xaxis (s : XaxisSetter) (f : Figure) :
    s.apply f = { f with xaxis := f.xaxis.set s.key s.val } := by
  cases s <;> rfl

theorem YaxisSetter.apply_eq_yaxis (s : YaxisSetter) (f : Figure) :
    s.apply f = { f with yaxis := f.yaxis.set s.key s.val } := by
  cases s <;> rfl

theorem PythonInit.construct_initRuns (s : PyState) :
    (PythonInit.construct s).initRuns = s.initRuns + 1 := by
  by_cases h : s.pyInitialized <;> simp [PythonInit.construct, h]

theorem PythonInit.construct_guard (s : PyState) :
    (PythonInit.construct s).guardAllocated
      = (s.guardAllocated || !s.pyInitialized) := by
  by_cases h : s.pyInitialized <;> simp [PythonInit.construct, h]

theorem PythonInit.construct_globals_get (s : PyState) (c : ModuleCall) :
    (PythonInit.construct s).globals.get? c.argName = some c.moduleName := by
  by_cases h : s.pyInitialized <;> cases c <;>
    simp [PythonInit.construct, h, ModuleCall.argName, ModuleCall.moduleName,
      PyDict.get?_set]

theorem runModuleCalls_staticDone (cs : List ModuleCall) (s : PyState)
    (h : s.staticDone = true) :
    runModuleCalls cs s = (s, cs.map fun c => s.globals.get? c.argName) := by
  induction cs with
  | nil => rfl
  | cons c cs ih =>
      simp [runModuleCalls, PlotlyModules.call, getPythonModule, h, ih]

theorem runCallsTrace_eq_of_error (backend : BackendCall → Except String Unit)
    (pre : List BackendCall) (c : BackendCall) (post : List BackendCall) (e : String)
    (hpre : ∀ c' ∈ pre, backend c' = .ok ()) (hc : backend c = .error e) :
    runCallsTrace backend (pre ++ c :: post) = (.error e, pre ++ [c]) := by
  induction pre with
  | nil => simp [runCallsTrace, hc]
  | cons p ps ih =>
      have hp : backend p = .ok () := hpre p (by simp)
      have hps : ∀ c' ∈ ps, backend c' = .ok () := fun c' h => hpre c' (by simp [h])
      simp [runCallsTrace, hp, ih hps]

theorem runCallsTrace_eq_of_ok (backend : BackendCall → Except String Unit)
    (cs : List BackendCall) (h : ∀ c ∈ cs, backend c = .ok ()) :
    runCallsTrace backend cs = (.ok (), cs) := by
  induction cs with
  | nil => rfl
  | cons c cs ih =>
      have hc : backend c = .ok () := h c (by simp)
      have hcs : ∀ c' ∈ cs, backend c' = .ok () := fun c' h' => h c' (by simp [h'])
      simp [runCallsTrace, hc, ih hcs]

/-- C1: every Figure layout attribute setter stores its argument under the
method's attribute key in the layout dictionary, leaves the axis dictionaries
and traces untouched, and returns the updated figure itself (`return *this`),
so a further setter applied to the result accumulates both entries (fluent
chaining). -/
theorem layout_setters_store_and_chain :
    ∀ (s : LayoutSetter) (f : Figure),
      (s.apply f).layout = f.layout.set s.key s.val ∧
      (s.apply f).xaxis = f.xaxis ∧
      (s.apply f).yaxis = f.yaxis ∧
      (s.apply f).traces = f.traces ∧
      ∀ s2 : LayoutSetter,
        (s2.apply (s.apply f)).layout = (f.layout.set s.key s.val).set s2.key s2.val := by
  intro s f
  rw [LayoutSetter.apply_eq_layout]
  exact ⟨rfl, rfl, rfl, rfl, fun s2 => by rw [LayoutSetter.apply_eq_layout]⟩

theorem PlotlyModules.call_fst_staticDone (c : ModuleCall) (s0 : PyState)
    (h1 : s0.staticDone = false) : (PlotlyModules.call c s0).1.staticDone = true := by
  simp [PlotlyModules.call, getPythonModule, h1]

theorem PlotlyModules.call_fst_initRuns (c : ModuleCall) (s0 : PyState)
    (h1 : s0.staticDone = false) :
    (PlotlyModules.call c s0).1.initRuns = s0.initRuns + 1 := by
  simp [PlotlyModules.call, getPythonModule, h1, PythonInit.construct_initRuns]

theorem PlotlyModules.call_fst_guard (c : ModuleCall) (s0 : PyState)
    (h1 : s0.staticDone = false) :
    (PlotlyModules.call c s0).1.guardAllocated
      = (s0.guardAllocated || !s0.pyInitialized) := by
  simp [PlotlyModules.call, getPythonModule, h1, PythonInit.construct_guard]

theorem PlotlyModules.call_fst_globals_get (c c' : ModuleCall) (s0 : PyState)
    (h1 : s0.staticDone = false) :
    (PlotlyModules.call c s0).1.globals.get? c'.argName = some c'.moduleName := by
  simp [PlotlyModules.call, getPythonModule, h1, PythonInit.construct_globals_get]

theorem PlotlyModules.call_snd (c : ModuleCall) (s0 : PyState)
    (h1 : s0.staticDone = false) :
    (PlotlyModules.call c s0).2 = some c.moduleName := by
  simp [PlotlyModules.call, getPythonModule, h1, PythonInit.construct_globals_get]

/-- C2: the embedded interpreter is a lifecycle singleton.  Starting from a
process state in which the function-local static of `detail::getPythonModule`
is not yet constructed, any sequence of `PlotlyModules::ply/pio/pgo` calls runs
the `PythonInit` constructor (guard allocation, plotly imports, init script)
exactly once if there is at least one call — already during the first call —
the interpreter guard is allocated only if the interpreter was not already
initialized, and every call returns the initialized module. -/
theorem plotly_interpreter_singleton (calls : List ModuleCall) (s0 : PyState)
    (h1 : s0.staticDone = false) (h2 : s0.initRuns = 0) (h3 : s0.guardAllocated = false) :
    (runModuleCalls calls s0).1.initRuns = (if calls.isEmpty then 0 else 1) ∧
    (runModuleCalls calls s0).1.guardAllocated = (!calls.isEmpty && !s0.pyInitialized) ∧
    (runModuleCalls calls s0).2 = calls.map (fun c => some c.moduleName) ∧
    (∀ c rest, calls = c :: rest → (PlotlyModules.call c s0).1.initRuns = 1) := by
  cases calls with
  | nil => simp [runModuleCalls, h2, h3]
  | cons c cs =>
      have hstep : runModuleCalls (c :: cs) s0
          = ((runModuleCalls cs (PlotlyModules.call c s0).1).1,
             (PlotlyModules.call c s0).2
               :: (runModuleCalls cs (PlotlyModules.call c s0).1).2) := rfl
      have hdone :=
        runModuleCalls_staticDone cs _ (PlotlyModules.call_fst_staticDone c s0 h1)
      refine ⟨?_, ?_, ?_, ?_⟩
      · rw [hstep, hdone]
        simp [PlotlyModules.call_fst_initRuns c s0 h1, h2]
      · rw [hstep, hdone]
        simp [PlotlyModules.call_fst_guard c s0 h1, h3]
      · rw [hstep, hdone]
        simp [PlotlyModules.call_snd c s0 h1,
          fun c' => PlotlyModules.call_fst_globals_get c c' s0 h1]
      · intro c' rest heq
        injection heq with hce hre
        subst hce
        simp [PlotlyModules.call_fst_initRuns c s0 h1, h2]

/-- Witness for `plotly_interpreter_singleton` at a concrete fresh state and a
concrete call sequence. -/
theorem plotly_interpreter_singleton_witness :
    (runModuleCalls [.pgo, .ply, .pgo] ⟨false, false, false, 0, []⟩).1.initRuns
        = (if ([ModuleCall.pgo, .ply, .pgo] : List ModuleCall).isEmpty then 0 else 1) ∧
    (runModuleCalls [.pgo, .ply, .pgo] ⟨false, false, false, 0, []⟩).1.guardAllocated
        = (!([ModuleCall.pgo, .ply, .pgo] : List ModuleCall).isEmpty
            && !(⟨false, false, false, 0, []⟩ : PyState).pyInitialized) ∧
    (runModuleCalls [.pgo, .ply, .pgo] ⟨false, false, false, 0, []⟩).2
        = ([ModuleCall.pgo, .ply, .pgo]).map (fun c => some c.moduleName) := by
  obtain ⟨a, b, c, _⟩ :=
    plotly_interpreter_singleton [.pgo, .ply, .pgo] ⟨false, false, false, 0, []⟩ rfl rfl rfl
  exact ⟨a, b, c⟩

/-- C3: `Figure::show()` and `Figure::save(...)` forward the accumulated layout,
xaxis and yaxis dictionaries to the backend figure via `update_layout`,
`update_xaxes`, `update_yaxes`, in that order, before invoking `show` or
`write_image` respectively; both are const and leave the figure's dictionaries
and trace state unchanged. -/
theorem show_save_forward_in_order_and_preserve :
    ∀ (f : Figure) (file : String) (width height : Int) (scale : Rat),
      (Figure.show f).1 = f ∧
      (Figure.show f).2 = [.update_layout f.layout, .update_xaxes f.xaxis,
                           .update_yaxes f.yaxis, .show] ∧
      (Figure.save file width height scale f).1 = f ∧
      (Figure.save file width height scale f).2
        = [.update_layout f.layout, .update_xaxes f.xaxis, .update_yaxes f.yaxis,
           .write_image file width height scale] :=
  fun _ _ _ _ _ => ⟨rfl, rfl, rfl, rfl⟩

/-- C4: each drawing operation appends exactly one trace to the backend figure
(`add_trace` on the scatter's options dictionary); `drawLine` binds "x", "y",
"name" and "line"; `drawLineWithMarkers` additionally binds "mode" to
"lines+markers" and "marker"; `drawMarkers` binds "mode" to "markers" and
"marker"; and no drawing operation touches the layout, xaxis or yaxis
dictionaries. -/
theorem draw_adds_exactly_one_trace :
    ∀ (sc : Scatter) (x y : PyValue) (nm : String) (l : LineSpecs) (m : MarkerSpecs)
      (f : Figure),
      ((f.draw sc).1.traces = f.traces ++ [sc.dict] ∧
       (f.draw sc).2 = [.add_trace sc.dict] ∧
       (f.draw sc).1.layout = f.layout ∧
       (f.draw sc).1.xaxis = f.xaxis ∧
       (f.draw sc).1.yaxis = f.yaxis) ∧
      ((f.drawLine x y nm l).1.traces
          = f.traces ++ [((Scatter.make x y nm).line l).dict] ∧
       ((Scatter.make x y nm).line l).dict.get? "x" = some x ∧
       ((Scatter.make x y nm).line l).dict.get? "y" = some y ∧
       ((Scatter.make x y nm).line l).dict.get? "name" = some (.str nm) ∧
       ((Scatter.make x y nm).line l).dict.get? "line" = some l.dict ∧
       (f.drawLine x y nm l).1.layout = f.layout ∧
       (f.drawLine x y nm l).1.xaxis = f.xaxis ∧
       (f.drawLine x y nm l).1.yaxis = f.yaxis) ∧
      ((f.drawLineWithMarkers x y nm l m).1.traces
          = f.traces ++ [((((Scatter.make x y nm).mode "lines+markers").line l).marker m).dict] ∧
       ((((Scatter.make x y nm).mode "lines+markers").line l).marker m).dict.get? "x" = some x ∧
       ((((Scatter.make x y nm).mode "lines+markers").line l).marker m).dict.get? "y" = some y ∧
       ((((Scatter.make x y nm).mode "lines+markers").line l).marker m).dict.get? "name"
          = some (.str nm) ∧
       ((((Scatter.make x y nm).mode "lines+markers").line l).marker m).dict.get? "mode"
          = some (.str "lines+markers") ∧
       ((((Scatter.make x y nm).mode "lines+markers").line l).marker m).dict.get? "line"
          = some l.dict ∧
       ((((Scatter.make x y nm).mode "lines+markers").line l).marker m).dict.get? "marker"
          = some m.dict ∧
       (f.drawLineWithMarkers x y nm l m).1.layout = f.layout ∧
       (f.drawLineWithMarkers x y nm l m).1.xaxis = f.xaxis ∧
       (f.drawLineWithMarkers x y nm l m).1.yaxis = f.yaxis) ∧
      ((f.drawMarkers x y nm m).1.traces
          = f.traces ++ [(((Scatter.make x y nm).mode "markers").marker m).dict] ∧
       (((Scatter.make x y nm).mode "markers").marker m).dict.get? "mode"
          = some (.str "markers") ∧
       (((Scatter.make x y nm).mode "markers").marker m).dict.get? "marker" = some m.dict ∧
       (f.drawMarkers x y nm m).1.layout = f.layout ∧
       (f.drawMarkers x y nm m).1.xaxis = f.xaxis ∧
       (f.drawMarkers x y nm m).1.yaxis = f.yaxis) := by
  intro sc x y nm l m f
  refine ⟨⟨rfl, rfl, rfl, rfl, rfl⟩, ⟨rfl, ?_, ?_, ?_, ?_, rfl, rfl, rfl⟩,
    ⟨rfl, ?_, ?_, ?_, ?_, ?_, ?_, rfl, rfl, rfl⟩, ⟨rfl, ?_, ?_, rfl, rfl, rfl⟩⟩ <;>
    simp [Scatter.make, Scatter.mode, Scatter.line, Scatter.marker, Scatter.dict,
      PyDict.set, PyDict.get?]

/-- C5: the layout, xaxis and yaxis state are separate dictionaries and every
setter writes exactly one entry into its own dictionary, leaving the other two
dictionaries unchanged. -/
theorem setters_write_only_their_dict :
    (∀ (s : XaxisSetter) (f : Figure),
        (s.apply f).xaxis = f.xaxis.set s.key s.val ∧
        (s.apply f).layout = f.layout ∧ (s.apply f).yaxis = f.yaxis) ∧
    (∀ (s : YaxisSetter) (f : Figure),
        (s.apply f).yaxis = f.yaxis.set s.key s.val ∧
        (s.apply f).layout = f.layout ∧ (s.apply f).xaxis = f.xaxis) ∧
    (∀ (s : LayoutSetter) (f : Figure),
        (s.apply f).layout = f.layout.set s.key s.val ∧
        (s.apply f).xaxis = f.xaxis ∧ (s.apply f).yaxis = f.yaxis) :=
  ⟨fun s f => by rw [XaxisSetter.apply_eq_xaxis]; exact ⟨rfl, rfl, rfl⟩,
   fun s f => by rw [YaxisSetter.apply_eq_yaxis]; exact ⟨rfl, rfl, rfl⟩,
   fun s f => by rw [LayoutSetter.apply_eq_layout]; exact ⟨rfl, rfl, rfl⟩⟩

/-- C6 (documentation/code divergence evidence): `Figure::hoverDistance` and
`Figure::spikeDistance` are documented in Figure.hpp as taking an "integer
greater than or equal to -1", but the code declares a `std::string` parameter
and stores a Python string under "hoverdistance"/"spikedistance"; a string
value is never an integer value. -/
theorem hoverDistance_spikeDistance_take_strings :
    (∀ (v : String) (f : Figure),
        (Figure.hoverDistance v f).layout
          = f.layout.set "hoverdistance" (PyValue.str v)) ∧
    (∀ (v : String) (f : Figure),
        (Figure.spikeDistance v f).layout
          = f.layout.set "spikedistance" (PyValue.str v)) ∧
    (∀ (v : String) (f : Figure),
        (Figure.hoverDistance v f).layout.get? "hoverdistance" = some (PyValue.str v)) ∧
    (∀ v : String, isIntValue (PyValue.str v) = false) :=
  ⟨fun _ _ => rfl, fun _ _ => rfl,
   fun v f => by simp [Figure.hoverDistance, PyDict.get?_set],
   fun _ => rfl⟩

/-- C9: every convenience alias of Figure.hpp is behaviourally identical to the
method it delegates to. -/
theorem aliases_delegate :
    ∀ (v : String) (f : Figure),
      Figure.title v f = Figure.titleText v f ∧
      Figure.legendTitle v f = Figure.legendTitleText v f ∧
      Figure.xaxisTitle v f = Figure.xaxisTitleText v f ∧
      Figure.yaxisTitle v f = Figure.yaxisTitleText v f ∧
      Figure.xaxisScaleLinear f = Figure.xaxisType "linear" f ∧
      Figure.xaxisScaleLog f = Figure.xaxisType "log" f ∧
      Figure.xaxisTypeDate f = Figure.xaxisType "date" f ∧
      Figure.yaxisScaleLinear f = Figure.yaxisType "linear" f ∧
      Figure.yaxisScaleLog f = Figure.yaxisType "log" f ∧
      Figure.yaxisTypeDate f = Figure.yaxisType "date" f :=
  fun _ _ => ⟨rfl, rfl, rfl, rfl, rfl, rfl, rfl, rfl, rfl, rfl⟩

/-- C7: the wrapper has no failure handling or retry logic.  For show, save and
draw, if the backend raises an error at some marshalled call (all earlier calls
succeeding), that exact error is the operation's result — nothing is caught or
substituted — and the attempted calls are exactly the earlier ones plus the
failing one, each attempted once (no retry); when no call fails, every
marshalled call runs exactly once. -/
theorem errors_propagate_uncaught :
    (∀ (backend : BackendCall → Except String Unit) (f : Figure)
        (pre : List BackendCall) (c : BackendCall) (post : List BackendCall) (e : String),
        (Figure.show f).2 = pre ++ c :: post →
        (∀ c' ∈ pre, backend c' = .ok ()) → backend c = .error e →
        runCallsTrace backend (Figure.show f).2 = (.error e, pre ++ [c])) ∧
    (∀ (backend : BackendCall → Except String Unit) (f : Figure) (file : String)
        (w h : Int) (sc : Rat)
        (pre : List BackendCall) (c : BackendCall) (post : List BackendCall) (e : String),
        (Figure.save file w h sc f).2 = pre ++ c :: post →
        (∀ c' ∈ pre, backend c' = .ok ()) → backend c = .error e →
        runCallsTrace backend (Figure.save file w h sc f).2 = (.error e, pre ++ [c])) ∧
    (∀ (backend : BackendCall → Except String Unit) (f : Figure) (scat : Scatter)
        (pre : List BackendCall) (c : BackendCall) (post : List BackendCall) (e : String),
        (Figure.draw scat f).2 = pre ++ c :: post →
        (∀ c' ∈ pre, backend c' = .ok ()) → backend c = .error e →
        runCallsTrace backend (Figure.draw scat f).2 = (.error e, pre ++ [c])) ∧
    (∀ (backend : BackendCall → Except String Unit) (cs : List BackendCall),
        (∀ c ∈ cs, backend c = .ok ()) → runCallsTrace backend cs = (.ok (), cs)) :=
  ⟨fun backend _ pre c post e heq hpre hc =>
      heq ▸ runCallsTrace_eq_of_error backend pre c post e hpre hc,
   fun backend _ _ _ _ _ pre c post e heq hpre hc =>
      heq ▸ runCallsTrace_eq_of_error backend pre c post e hpre hc,
   fun backend _ _ pre c post e heq hpre hc =>
      heq ▸ runCallsTrace_eq_of_error backend pre c post e hpre hc,
   fun backend cs h => runCallsTrace_eq_of_ok backend cs h⟩

/-- Witness for `errors_propagate_uncaught`: a backend that raises "boom" on
`update_xaxes`, applied to `Figure::show()` on a fresh figure, yields exactly
that error after attempting only the first two calls. -/
theorem errors_propagate_uncaught_witness :
    runCallsTrace
        (fun bc => match bc with
          | .update_xaxes _ => .error "boom"
          | _ => .ok ())
        (Figure.show Figure.new).2
      = (.error "boom", [.update_layout []] ++ [.update_xaxes []]) :=
  errors_propagate_uncaught.1
    (fun bc => match bc with
      | .update_xaxes _ => .error "boom"
      | _ => .ok ())
    Figure.new [.update_layout []] (.update_xaxes []) [.update_yaxes [], .show] "boom"
    rfl (by intro c' hc'; simp at hc'; subst hc'; rfl) rfl

/-- C8: setter calls obey last-write-wins and independent-key commutativity:
repeating a setter keyed at the same attribute leaves exactly the state of the
second call alone; two setters of the same dictionary with distinct keys
commute up to dictionary (key-value) equality; and setters of distinct
dictionaries commute exactly. -/
theorem setters_lww_and_commute :
    (∀ (s1 s2 : LayoutSetter) (f : Figure), s1.key = s2.key →
        s2.apply (s1.apply f) = s2.apply f) ∧
    (∀ (s1 s2 : XaxisSetter) (f : Figure), s1.key = s2.key →
        s2.apply (s1.apply f) = s2.apply f) ∧
    (∀ (s1 s2 : YaxisSetter) (f : Figure), s1.key = s2.key →
        s2.apply (s1.apply f) = s2.apply f) ∧
    (∀ (s1 s2 : LayoutSetter) (f : Figure), s1.key ≠ s2.key →
        Figure.SameDicts (s2.apply (s1.apply f)) (s1.apply (s2.apply f))) ∧
    (∀ (s1 s2 : XaxisSetter) (f : Figure), s1.key ≠ s2.key →
        Figure.SameDicts (s2.apply (s1.apply f)) (s1.apply (s2.apply f))) ∧
    (∀ (s1 s2 : YaxisSetter) (f : Figure), s1.key ≠ s2.key →
        Figure.SameDicts (s2.apply (s1.apply f)) (s1.apply (s2.apply f))) ∧
    (∀ (s1 : LayoutSetter) (s2 : XaxisSetter) (f : Figure),
        s2.apply (s1.apply f) = s1.apply (s2.apply f)) ∧
    (∀ (s1 : LayoutSetter) (s2 : YaxisSetter) (f : Figure),
        s2.apply (s1.apply f) = s1.apply (s2.apply f)) ∧
    (∀ (s1 : XaxisSetter) (s2 : YaxisSetter) (f : Figure),
        s2.apply (s1.apply f) = s1.apply (s2.apply f)) := by
  refine ⟨?_, ?_, ?_, ?_, ?_, ?_, ?_, ?_, ?_⟩
  · intro s1 s2 f h
    simp [LayoutSetter.apply_eq_layout, h, PyDict.set_set_same]
  · intro s1 s2 f h
    simp [XaxisSetter.apply_eq_xaxis, h, PyDict.set_set_same]
  · intro s1 s2 f h
    simp [YaxisSetter.apply_eq_yaxis, h, PyDict.set_set_same]
  · intro s1 s2 f h
    rw [LayoutSetter.apply_eq_layout, LayoutSetter.apply_eq_layout, LayoutSetter.apply_eq_layout,
      LayoutSetter.apply_eq_layout]
    exact ⟨fun k => PyDict.get?_set_comm f.layout h s1.val s2.val k, fun k => rfl,
      fun k => rfl, rfl⟩
  · intro s1 s2 f h
    rw [XaxisSetter.apply_eq_xaxis, XaxisSetter.apply_eq_xaxis, XaxisSetter.apply_eq_xaxis,
      XaxisSetter.apply_eq_xaxis]
    exact ⟨fun k => rfl, fun k => PyDict.get?_set_comm f.xaxis h s1.val s2.val k,
      fun k => rfl, rfl⟩
  · intro s1 s2 f h
    rw [YaxisSetter.apply_eq_yaxis, YaxisSetter.apply_eq_yaxis, YaxisSetter.apply_eq_yaxis,
      YaxisSetter.apply_eq_yaxis]
    exact ⟨fun k => rfl, fun k => rfl,
      fun k => PyDict.get?_set_comm f.yaxis h s1.val s2.val k, rfl⟩
  · intro s1 s2 f
    simp [LayoutSetter.apply_eq_layout, XaxisSetter.apply_eq_xaxis]
  · intro s1 s2 f
    simp [LayoutSetter.apply_eq_layout, YaxisSetter.apply_eq_yaxis]
  · intro s1 s2 f
    simp [XaxisSetter.apply_eq_xaxis, YaxisSetter.apply_eq_yaxis]

/-- Witness for `setters_lww_and_commute` at concrete setters: titleText twice,
titleText against width, and titleText against xaxisType. -/
theorem setters_lww_and_commute_witness :
    (LayoutSetter.apply (.titleText "b") (LayoutSetter.apply (.titleText "a") Figure.new)
        = LayoutSetter.apply (.titleText "b") Figure.new) ∧
    Figure.SameDicts
        (LayoutSetter.apply (.width 7) (LayoutSetter.apply (.titleText "a") Figure.new))
        (LayoutSetter.apply (.titleText "a") (LayoutSetter.apply (.width 7) Figure.new)) ∧
    (XaxisSetter.apply (.xaxisType "log") (LayoutSetter.apply (.titleText "a") Figure.new)
        = LayoutSetter.apply (.titleText "a")
            (XaxisSetter.apply (.xaxisType "log") Figure.new)) :=
  ⟨setters_lww_and_commute.1 (.titleText "a") (.titleText "b") Figure.new rfl,
   setters_lww_and_commute.2.2.2.1 (.titleText "a") (.width 7) Figure.new (by decide),
   setters_lww_and_commute.2.2.2.2.2.2.1 (.titleText "a") (.xaxisType "log") Figure.new⟩

theorem pow64_eq : (2 : Int) ^ 64 = 18446744073709551616 := by norm_num

theorem emod_pow64 (a : Int) (h1 : 0 ≤ a) (h2 : a < 18446744073709551616) :
    a % (2 ^ 64 : Int) = a := by
  rw [pow64_eq]
  exact Int.emod_eq_of_lt h1 h2

/-- C10: `linspace(x0, x1, numintervals)` returns `numintervals + 1` values,
the i-th being `x0 + i * (x1 - x0) / numintervals`, starting at `x0` and ending
at `x1`.  `range(x0, x1)` is correct for ascending ranges with a nonnegative
start, but the valarray size `x1 - x0 + 1` is converted to `std::size_t`, so a
descending call such as `range(3, 1)` yields 2^64 - 1 elements instead of
`|x1 - x0| + 1`, and a negative start such as `range(-3, 3)` yields wrapped
unsigned values instead of negative ones. -/
theorem linspace_correct_and_range_overflow :
    (∀ (x0 x1 : Rat) (n : Nat), 1 ≤ n →
        (linspace x0 x1 n).length = n + 1 ∧
        (∀ i : Nat, i ≤ n →
            (linspace x0 x1 n).get? i = some (x0 + (i : Rat) * (x1 - x0) / (n : Rat))) ∧
        (linspace x0 x1 n).get? 0 = some x0 ∧
        (linspace x0 x1 n).get? n = some x1) ∧
    (∀ (x0 x1 : Int), 0 ≤ x0 → x0 ≤ x1 → x1 + 1 < 2 ^ 64 →
        (range x0 x1).length = (x1 - x0 + 1).toNat ∧
        (∀ i : Nat, (i : Int) ≤ x1 - x0 →
            (range x0 x1).get? i = some (x0 + (i : Int)))) ∧
    (range 3 1).length = 2 ^ 64 - 1 ∧
    (range (-3) 3).get? 0 = some (2 ^ 64 - 3) := by
  refine ⟨?_, ?_, ?_, ?_⟩
  · intro x0 x1 n hn
    have hget : ∀ i : Nat, i ≤ n →
        (linspace x0 x1 n).get? i = some (x0 + (i : Rat) * (x1 - x0) / (n : Rat)) := by
      intro i hi
      have hr : (List.range (n + 1)).get? i = some i := List.get?_range (by omega)
      simp only [linspace]
      rw [List.get?_map, hr, Option.map_some']
    have hn0 : (n : Rat) ≠ 0 := Nat.cast_ne_zero.mpr (by omega)
    refine ⟨?_, hget, ?_, ?_⟩
    · simp only [linspace]
      rw [List.length_map, List.length_range]
    · rw [hget 0 (by omega)]
      norm_num
    · have hx : x0 + (n : Rat) * (x1 - x0) / (n : Rat) = x1 := by
        field_simp
      rw [hget n le_rfl, hx]
  · intro x0 x1 hx0 hx01 hx64
    rw [pow64_eq] at hx64
    have hsize : rangeSize x0 x1 = (x1 - x0 + 1).toNat := by
      unfold rangeSize
      rw [emod_pow64 _ (by omega) (by omega)]
    refine ⟨?_, ?_⟩
    · simp only [range]
      rw [List.length_map, List.length_range, hsize]
    · intro i hi
      have hilt : i < rangeSize x0 x1 := by
        rw [hsize]; omega
      have hr : (List.range (rangeSize x0 x1)).get? i = some i := List.get?_range hilt
      simp only [range]
      rw [List.get?_map, hr, Option.map_some']
      by_cases hlt : x1 > x0
      · rw [if_pos hlt, mul_one, emod_pow64 _ (by omega) (by omega)]
      · have hi0 : i = 0 := by omega
        subst hi0
        rw [if_neg hlt]
        simp only [Nat.cast_zero, zero_mul, add_zero]
        rw [emod_pow64 _ (by omega) (by omega)]
  · have hs : rangeSize 3 1 = 2 ^ 64 - 1 := by decide
    simp only [range]
    rw [List.length_map, List.length_range, hs]
  · decide

/-- Witness for `linspace_correct_and_range_overflow` at concrete inputs:
linspace from 0 to 1 with 4 intervals and the ascending range(2, 5). -/
theorem linspace_correct_and_range_overflow_witness :
    (linspace 0 1 4).length = 5 ∧
    (linspace 0 1 4).get? 2 = some (1 / 2) ∧
    (linspace 0 1 4).get? 4 = some 1 ∧
    (range 2 5).length = 4 ∧
    (range 2 5).get? 1 = some 3 := by
  obtain ⟨h1, h2, _, h4⟩ :=
    linspace_correct_and_range_overflow.1 0 1 4 (by norm_num)
  obtain ⟨h5, h6⟩ :=
    linspace_correct_and_range_overflow.2.1 2 5 (by norm_num) (by norm_num)
      (by norm_num)
  refine ⟨h1, ?_, h4, by simpa using h5, by simpa using h6 1 (by norm_num)⟩
  rw [h2 2 (by norm_num)]
  norm_num
end Reaktplot
